import Mathlib

/-!
# XenServer builder: configuration validation (`Builder.Prepare`)

A shallow embedding of `builder/xenserver/builder.go`.

* The Go struct `config` becomes a Lean structure with the same field names.
* `Prepare` mutates `self.config` through a pointer and appends to a
  `packer.MultiError`; here every block of the function is a state-passing
  function on `config × MultiError`, composed in source order.
* Everything `Prepare` calls in other packages (`common`, `packer`, `time`,
  `os`, `commonssh`, the Unicode case table behind `strings.ToLower`) is a
  field of `Env`: the theorems hold for every behaviour of those packages
  unless a hypothesis says otherwise.
* `uint` ports are `Nat` (they are only compared and assigned constants, no
  arithmetic), `time.Duration` is `Int` nanoseconds.
-/

namespace XenServer

/-! ## Data model -/

/-- Go `map[string]string`, as an association list with at most one entry per key. -/
abbrev GoMap := List (String × String)

/-- Go `len(m)`. -/
def GoMap.len (m : GoMap) : Nat := m.length

/-- Go `m[k] = v`: overwrite the entry for `k`, or add one. -/
def GoMap.set : GoMap → String → String → GoMap
  | [], k, v => [(k, v)]
  | (k0, v0) :: rest, k, v =>
    if k0 = k then (k, v) :: rest else (k0, v0) :: GoMap.set rest k v

/-- Go `v, ok := m[k]`. -/
def GoMap.get? : GoMap → String → Option String
  | [], _ => none
  | (k0, v0) :: rest, k => if k0 = k then some v0 else GoMap.get? rest k

/-- The embedded `common.PackerConfig`; `Prepare` reads only `PackerBuildName`. -/
structure PackerConfig where
  PackerBuildName : String := ""
  deriving DecidableEq, Repr

/-- The Go struct `config` (lines 21-66). `tpl` records whether the field holds
a template engine (a non-nil pointer). -/
structure config where
  toPackerConfig : PackerConfig := {}
  Username : String := ""
  Password : String := ""
  HostIp : String := ""
  IsoUrl : String := ""
  InstanceName : String := ""
  RootDiskSize : String := ""
  CloneTemplate : String := ""
  IsoUuid : String := ""
  SrUuid : String := ""
  NetworkUuid : String := ""
  VncPortMin : Nat := 0
  VncPortMax : Nat := 0
  BootCommand : List String := []
  RawBootWait : String := ""
  BootWait : Int := 0
  sshWaitTimeout : Int := 0
  ISOChecksum : String := ""
  ISOChecksumType : String := ""
  ISOUrls : List String := []
  ISOUrl : String := ""
  HTTPDir : String := ""
  HTTPPortMin : Nat := 0
  HTTPPortMax : Nat := 0
  LocalIp : String := ""
  PlatformArgs : GoMap := []
  RawSSHWaitTimeout : String := ""
  SSHPassword : String := ""
  SSHUser : String := ""
  SSHKeyPath : String := ""
  OutputDir : String := ""
  tpl : Bool := false
  deriving DecidableEq, Repr

/-- The assignment to `self.config.tpl` at line 87. -/
def config.setTpl (c : config) (t : Bool) : config := { c with tpl := t }

/-- The promoted field `self.config.PackerBuildName`. -/
def config.PackerBuildName (c : config) : String := c.toPackerConfig.PackerBuildName

/-- The Go struct `Builder` (lines 69-72); `R` is the type of step runners. -/
structure Builder (R : Type) where
  config : config := {}
  runner : Option R := none

/-- The twenty keys of the map `templates` (lines 123-144). -/
inductive TemplKey
  | username | password | host_ip | iso_url | instance_name | root_disk_size
  | clone_template | iso_uuid | sr_uuid | network_uuid | boot_wait | iso_checksum
  | iso_checksum_type | http_directory | local_ip | ssh_wait_timeout | ssh_username
  | ssh_password | ssh_key_path | output_directory
  deriving DecidableEq, Repr

/-- Every key of `templates`, in the order the source lists them. -/
def TemplKey.all : List TemplKey :=
  [.username, .password, .host_ip, .iso_url, .instance_name, .root_disk_size,
   .clone_template, .iso_uuid, .sr_uuid, .network_uuid, .boot_wait, .iso_checksum,
   .iso_checksum_type, .http_directory, .local_ip, .ssh_wait_timeout, .ssh_username,
   .ssh_password, .ssh_key_path, .output_directory]

/-- The string key of an entry of `templates`. -/
def TemplKey.name : TemplKey → String
  | .username => "username"
  | .password => "password"
  | .host_ip => "host_ip"
  | .iso_url => "iso_url"
  | .instance_name => "instance_name"
  | .root_disk_size => "root_disk_size"
  | .clone_template => "clone_template"
  | .iso_uuid => "iso_uuid"
  | .sr_uuid => "sr_uuid"
  | .network_uuid => "network_uuid"
  | .boot_wait => "boot_wait"
  | .iso_checksum => "iso_checksum"
  | .iso_checksum_type => "iso_checksum_type"
  | .http_directory => "http_directory"
  | .local_ip => "local_ip"
  | .ssh_wait_timeout => "ssh_wait_timeout"
  | .ssh_username => "ssh_username"
  | .ssh_password => "ssh_password"
  | .ssh_key_path => "ssh_key_path"
  | .output_directory => "output_directory"

/-- Reading through the pointer stored in `templates` under a key (`*ptr`).
Key `iso_url` points at the field `IsoUrl`, not at `ISOUrl`. -/
def config.get (c : config) : TemplKey → String
  | .username => c.Username
  | .password => c.Password
  | .host_ip => c.HostIp
  | .iso_url => c.IsoUrl
  | .instance_name => c.InstanceName
  | .root_disk_size => c.RootDiskSize
  | .clone_template => c.CloneTemplate
  | .iso_uuid => c.IsoUuid
  | .sr_uuid => c.SrUuid
  | .network_uuid => c.NetworkUuid
  | .boot_wait => c.RawBootWait
  | .iso_checksum => c.ISOChecksum
  | .iso_checksum_type => c.ISOChecksumType
  | .http_directory => c.HTTPDir
  | .local_ip => c.LocalIp
  | .ssh_wait_timeout => c.RawSSHWaitTimeout
  | .ssh_username => c.SSHUser
  | .ssh_password => c.SSHPassword
  | .ssh_key_path => c.SSHKeyPath
  | .output_directory => c.OutputDir

/-- Writing through the pointer stored in `templates` under a key (`*ptr = v`). -/
def config.set (c : config) (k : TemplKey) (v : String) : config :=
  match k with
  | .username => { c with Username := v }
  | .password => { c with Password := v }
  | .host_ip => { c with HostIp := v }
  | .iso_url => { c with IsoUrl := v }
  | .instance_name => { c with InstanceName := v }
  | .root_disk_size => { c with RootDiskSize := v }
  | .clone_template => { c with CloneTemplate := v }
  | .iso_uuid => { c with IsoUuid := v }
  | .sr_uuid => { c with SrUuid := v }
  | .network_uuid => { c with NetworkUuid := v }
  | .boot_wait => { c with RawBootWait := v }
  | .iso_checksum => { c with ISOChecksum := v }
  | .iso_checksum_type => { c with ISOChecksumType := v }
  | .http_directory => { c with HTTPDir := v }
  | .local_ip => { c with LocalIp := v }
  | .ssh_wait_timeout => { c with RawSSHWaitTimeout := v }
  | .ssh_username => { c with SSHUser := v }
  | .ssh_password => { c with SSHPassword := v }
  | .ssh_key_path => { c with SSHKeyPath := v }
  | .output_directory => { c with OutputDir := v }

/-- The ten fields checked for emptiness at lines 196-244, in source order. -/
inductive Required
  | username | password | host_ip | instance_name | root_disk_size
  | clone_template | iso_uuid | sr_uuid | network_uuid | local_ip
  deriving DecidableEq, Repr

/-- Every required field, in the order of the checks. -/
def Required.all : List Required :=
  [.username, .password, .host_ip, .instance_name, .root_disk_size,
   .clone_template, .iso_uuid, .sr_uuid, .network_uuid, .local_ip]

/-- The `mapstructure` key of a required field, which is also its key in `templates`. -/
def Required.key : Required → TemplKey
  | .username => .username
  | .password => .password
  | .host_ip => .host_ip
  | .instance_name => .instance_name
  | .root_disk_size => .root_disk_size
  | .clone_template => .clone_template
  | .iso_uuid => .iso_uuid
  | .sr_uuid => .sr_uuid
  | .network_uuid => .network_uuid
  | .local_ip => .local_ip

/-- One constructor per place where `Prepare` builds an error; the payloads are
the values formatted into the message. -/
inductive PrepError
  /-- an element of the `MultiError` returned by `common.CheckUnusedConfig` -/
  | unusedKey (msg : String)
  /-- line 151 -/
  | template (n : TemplKey) (err : String)
  /-- line 165 -/
  | bootWait
  /-- line 171 -/
  | sshWaitTimeout (err : String)
  /-- line 177 -/
  | bootCommand (i : Nat) (err : String)
  /-- line 183 -/
  | sshUsername
  /-- lines 189 and 192 -/
  | sshKeyPath (err : String)
  /-- lines 196-244 -/
  | required (f : Required)
  /-- line 259 -/
  | httpPort
  /-- line 264 -/
  | vncPort
  /-- line 269 -/
  | checksumTypeMissing
  /-- line 275 -/
  | checksumMissing
  /-- line 282 -/
  | checksumUnsupported (ty : String)
  /-- line 290 -/
  | isoUrlMissing
  /-- line 299 -/
  | isoUrl (i : Nat) (err : String)
  deriving DecidableEq, Repr

/-- The text of the ten messages of lines 196-244. -/
def Required.message : Required → String
  | .username => "A username for the xenserver host must be specified."
  | .password => "A password for the xenserver host must be specified."
  | .host_ip => "An ip for the xenserver host must be specified."
  | .instance_name => "An insatnce name must be specified."
  | .root_disk_size => "A root disk size must be specified."
  | .clone_template => "A template to clone from must be specified."
  | .iso_uuid => "a uuid for the installation iso must be specified."
  | .sr_uuid => "a uuid for the sr used for the instance must be specified."
  | .network_uuid => "a uuid for the network used for the instance must be specified."
  | .local_ip =>
    "A local IP visible to XenServer's mangement interface is required to serve files."

/-- The message of an error, as `errors.New` and `fmt.Errorf` build it. -/
def PrepError.Error : PrepError → String
  | .unusedKey msg => msg
  | .template n err => "Error processing " ++ n.name ++ ": " ++ err
  | .bootWait => "Failed to parse boot_wait."
  | .sshWaitTimeout err => "Failed to parse ssh_wait_timeout: " ++ err
  | .bootCommand i err => "Error processing boot_command[" ++ toString i ++ "]: " ++ err
  | .sshUsername => "An ssh_username must be specified."
  | .sshKeyPath err => "ssh_key_path is invalid: " ++ err
  | .required f => f.message
  | .httpPort => "the HTTP min port must be less than the max"
  | .vncPort => "the VNC min port must be less than the max"
  | .checksumTypeMissing => "The iso_checksum_type must be specified."
  | .checksumMissing => "Due to the file size being large, an iso_checksum is required."
  | .checksumUnsupported ty => "Unsupported checksum type: " ++ ty
  | .isoUrlMissing => "A ISO URL must be specfied."
  | .isoUrl i err => "Failed to parse the iso_url (" ++ toString i ++ "): " ++ err

/-- The Go struct `packer.MultiError`: the list of collected errors. -/
structure MultiError where
  Errors : List PrepError := []
  deriving DecidableEq, Repr

/-- Go `packer.MultiErrorAppend(errs, e)` on a non-nil `*MultiError`. -/
def MultiErrorAppend (errs : MultiError) (e : PrepError) : MultiError :=
  { Errors := errs.Errors ++ [e] }

/-- The packages `Prepare` calls into. A Go result `(value, error)` is a pair
whose second component is `none` for a nil error. -/
structure Env (Raw Metadata : Type) where
  /-- `common.DecodeConfig(&self.config, raws...)`: the config after decoding,
  the metadata and the error -/
  DecodeConfig : config → List Raw → config × Metadata × Option String
  /-- `common.CheckUnusedConfig(md)`: nil, or the messages of a `MultiError` -/
  CheckUnusedConfig : Metadata → Option (List String)
  /-- `packer.NewConfigTemplate()`: whether the returned pointer is non-nil, and the error -/
  NewConfigTemplate : Bool × Option String
  /-- the order in which `range templates` visits the keys (Go leaves it unspecified) -/
  rangeOrder : List TemplKey
  /-- a `range` over a map visits every key once -/
  rangeOrder_perm : rangeOrder.Perm TemplKey.all
  /-- `tpl.Process(s, nil)` as called for the entry with the given key; the
  engine is stateful, so the result may depend on the call -/
  Process : TemplKey → String → String × Option String
  /-- `tpl.Validate(s)` -/
  Validate : String → Option String
  /-- `time.ParseDuration(s)`, in nanoseconds -/
  ParseDuration : String → Int × Option String
  /-- `os.Stat(path)`: the error -/
  Stat : String → Option String
  /-- `commonssh.FileSigner(path)`: the error -/
  FileSigner : String → Option String
  /-- `unicode.ToLower` on runes outside ASCII -/
  unicodeToLower : Char → Char
  /-- `common.HashForType(t) != nil` -/
  HashForType : String → Bool
  /-- `common.DownloadableURL(url)` -/
  DownloadableURL : String → String × Option String
  /-- `(*packer.MultiError).Error()`, from the messages of its errors -/
  MultiErrorError : List String → String

/-- What `Prepare` returns, together with the final value of its local `errs`
(empty when the function returns before `errs` is assigned). -/
structure PrepareResult where
  params : Option (List String) := none
  retErr : Option String := none
  errs : MultiError := {}
  deriving DecidableEq, Repr

/-! ## `Prepare`, block by block -/

section Prepare

variable {Raw Metadata : Type}

/-- Lines 95-97. -/
def defaultVncPortMin (c : config) : config :=
  if c.VncPortMin = 0 then { c with VncPortMin := 5900 } else c

/-- Lines 99-101. -/
def defaultVncPortMax (c : config) : config :=
  if c.VncPortMax = 0 then { c with VncPortMax := 6000 } else c

/-- Lines 103-105. -/
def defaultRawBootWait (c : config) : config :=
  if c.RawBootWait = "" then { c with RawBootWait := "5s" } else c

/-- Lines 107-109. -/
def defaultHTTPPortMin (c : config) : config :=
  if c.HTTPPortMin = 0 then { c with HTTPPortMin := 8000 } else c

/-- Lines 111-113. -/
def defaultHTTPPortMax (c : config) : config :=
  if c.HTTPPortMax = 0 then { c with HTTPPortMax := 9000 } else c

/-- Lines 115-117. -/
def defaultRawSSHWaitTimeout (c : config) : config :=
  if c.RawSSHWaitTimeout = "" then { c with RawSSHWaitTimeout := "200m" } else c

/-- Lines 119-121. -/
def defaultOutputDir (c : config) : config :=
  if c.OutputDir = "" then { c with OutputDir := "output-" ++ c.PackerBuildName } else c

/-- Lines 93-121: "Set default vaules", the seven assignments in source order. -/
def setDefaults (c : config) : config :=
  let c := defaultVncPortMin c
  let c := defaultVncPortMax c
  let c := defaultRawBootWait c
  let c := defaultHTTPPortMin c
  let c := defaultHTTPPortMax c
  let c := defaultRawSSHWaitTimeout c
  let c := defaultOutputDir c
  c

/-- Lines 147-153: the loop `for n, ptr := range templates`, over the keys in
the order the loop visits them. -/
def processTemplates (env : Env Raw Metadata) :
    List TemplKey → config → MultiError → config × MultiError
  | [], c, errs => (c, errs)
  | n :: rest, c, errs =>
    let r := env.Process n (c.get n)
    let c := c.set n r.1
    let errs := match r.2 with
      | some err => MultiErrorAppend errs (.template n err)
      | none => errs
    processTemplates env rest c errs

/-- Lines 162-172: the two durations are parsed from their raw strings. -/
def parseDurations (env : Env Raw Metadata) (c : config) (errs : MultiError) :
    config × MultiError :=
  let r := env.ParseDuration c.RawBootWait
  let c := { c with BootWait := r.1 }
  let errs := match r.2 with
    | some _ => MultiErrorAppend errs .bootWait
    | none => errs
  let r := env.ParseDuration c.RawSSHWaitTimeout
  let c := { c with sshWaitTimeout := r.1 }
  let errs := match r.2 with
    | some err => MultiErrorAppend errs (.sshWaitTimeout err)
    | none => errs
  (c, errs)

/-- Lines 174-179: the loop `for i, command := range self.config.BootCommand`,
from index `i` on. -/
def validateBootCommand (env : Env Raw Metadata) :
    Nat → List String → MultiError → MultiError
  | _, [], errs => errs
  | i, command :: rest, errs =>
    let errs := match env.Validate command with
      | some err => MultiErrorAppend errs (.bootCommand i err)
      | none => errs
    validateBootCommand env (i + 1) rest errs

/-- Lines 181-194: the SSH user name and the SSH key path. -/
def checkSSH (env : Env Raw Metadata) (c : config) (errs : MultiError) : MultiError :=
  let errs := if c.SSHUser = "" then MultiErrorAppend errs .sshUsername else errs
  let errs :=
    if c.SSHKeyPath ≠ "" then
      match env.Stat c.SSHKeyPath with
      | some err => MultiErrorAppend errs (.sshKeyPath err)
      | none =>
        match env.FileSigner c.SSHKeyPath with
        | some err => MultiErrorAppend errs (.sshKeyPath err)
        | none => errs
    else errs
  errs

/-- Lines 196-244: the ten required fields. -/
def checkRequired (c : config) (errs : MultiError) : MultiError :=
  let errs := if c.Username = "" then MultiErrorAppend errs (.required .username) else errs
  let errs := if c.Password = "" then MultiErrorAppend errs (.required .password) else errs
  let errs := if c.HostIp = "" then MultiErrorAppend errs (.required .host_ip) else errs
  let errs :=
    if c.InstanceName = "" then MultiErrorAppend errs (.required .instance_name) else errs
  let errs :=
    if c.RootDiskSize = "" then MultiErrorAppend errs (.required .root_disk_size) else errs
  let errs :=
    if c.CloneTemplate = "" then MultiErrorAppend errs (.required .clone_template) else errs
  let errs := if c.IsoUuid = "" then MultiErrorAppend errs (.required .iso_uuid) else errs
  let errs := if c.SrUuid = "" then MultiErrorAppend errs (.required .sr_uuid) else errs
  let errs :=
    if c.NetworkUuid = "" then MultiErrorAppend errs (.required .network_uuid) else errs
  let errs := if c.LocalIp = "" then MultiErrorAppend errs (.required .local_ip) else errs
  errs

/-- Lines 247-253: the map built when no platform argument was given. -/
def defaultPlatformArgs : GoMap :=
  let pargs : GoMap := []
  let pargs := pargs.set "viridian" "false"
  let pargs := pargs.set "nx" "true"
  let pargs := pargs.set "pae" "true"
  let pargs := pargs.set "apic" "true"
  let pargs := pargs.set "timeoffset" "0"
  let pargs := pargs.set "acpi" "1"
  pargs

/-- Lines 246-255. -/
def setPlatformArgs (c : config) : config :=
  if c.PlatformArgs.len = 0 then { c with PlatformArgs := defaultPlatformArgs } else c

/-- Lines 257-265: the two port ranges. -/
def checkPorts (c : config) (errs : MultiError) : MultiError :=
  let errs := if c.HTTPPortMin > c.HTTPPortMax then MultiErrorAppend errs .httpPort else errs
  let errs := if c.VncPortMin > c.VncPortMax then MultiErrorAppend errs .vncPort else errs
  errs

/-- Go `unicode.ToLower`: the ASCII rule, and the case table of the
environment for every other rune. -/
def toLowerRune (env : Env Raw Metadata) (r : Char) : Char :=
  if r.toNat < 128 then r.toLower else env.unicodeToLower r

/-- Go `strings.ToLower`: `unicode.ToLower` applied to every rune. -/
def ToLower (env : Env Raw Metadata) (s : String) : String :=
  String.mk (s.data.map (toLowerRune env))

/-- Lines 267-286: checksum type and checksum. -/
def checkChecksum (env : Env Raw Metadata) (c : config) (errs : MultiError) :
    config × MultiError :=
  if c.ISOChecksumType = "" then
    (c, MultiErrorAppend errs .checksumTypeMissing)
  else
    let c := { c with ISOChecksumType := ToLower env c.ISOChecksumType }
    if c.ISOChecksumType ≠ "none" then
      let s : config × MultiError :=
        if c.ISOChecksum = "" then
          (c, MultiErrorAppend errs .checksumMissing)
        else
          ({ c with ISOChecksum := ToLower env c.ISOChecksum }, errs)
      let c := s.1
      let errs := s.2
      let errs :=
        if env.HashForType c.ISOChecksumType = false then
          MultiErrorAppend errs (.checksumUnsupported c.ISOChecksumType)
        else errs
      (c, errs)
    else (c, errs)

/-- Lines 288-293: the single URL replaces the list of URLs. -/
def foldIsoUrl (c : config) (errs : MultiError) : config × MultiError :=
  if c.ISOUrl = "" then (c, MultiErrorAppend errs .isoUrlMissing)
  else ({ c with ISOUrls := [c.ISOUrl] }, errs)

/-- Lines 295-301: the loop `for i, url := range self.config.ISOUrls`, from
index `i` on; it returns the rewritten entries. -/
def normalizeUrls (env : Env Raw Metadata) :
    Nat → List String → MultiError → List String × MultiError
  | _, [], errs => ([], errs)
  | i, url :: rest, errs =>
    let r := env.DownloadableURL url
    let errs := match r.2 with
      | some err => MultiErrorAppend errs (.isoUrl i err)
      | none => errs
    let t := normalizeUrls env (i + 1) rest errs
    (r.1 :: t.1, t.2)

/-- Lines 93-301: everything between the creation of the template engine and
the final test of `errs`. -/
def validate (env : Env Raw Metadata) (c : config) (errs : MultiError) :
    config × MultiError :=
  let c := setDefaults c
  let s := processTemplates env env.rangeOrder c errs
  let s := parseDurations env s.1 s.2
  let c := s.1
  let errs := validateBootCommand env 0 c.BootCommand s.2
  let errs := checkSSH env c errs
  let errs := checkRequired c errs
  let c := setPlatformArgs c
  let errs := checkPorts c errs
  let s := checkChecksum env c errs
  let s := foldIsoUrl s.1 s.2
  let c := s.1
  let t := normalizeUrls env 0 c.ISOUrls s.2
  ({ c with ISOUrls := t.1 }, t.2)

/-- Lines 82-85: the errors of `common.CheckUnusedConfig`, or a fresh empty
`MultiError` when it returns nil. -/
def unusedErrors (env : Env Raw Metadata) (md : Metadata) : MultiError :=
  match env.CheckUnusedConfig md with
  | none => {}
  | some msgs => { Errors := msgs.map PrepError.unusedKey }

/-- Go `errs.Error()`: the environment's rendering of the collected messages. -/
def MultiError.Error (env : Env Raw Metadata) (errs : MultiError) : String :=
  env.MultiErrorError (errs.Errors.map PrepError.Error)

/-- The method `Prepare` (lines 75-309): the builder after the call, and the result. -/
def Builder.Prepare {R : Type} (env : Env Raw Metadata) (self : Builder R)
    (raws : List Raw) : Builder R × PrepareResult :=
  let d := env.DecodeConfig self.config raws
  let self := { self with config := d.1 }
  match d.2.2 with
  | some err => (self, { params := none, retErr := some err })
  | none =>
    let errs := unusedErrors env d.2.1
    let t := env.NewConfigTemplate
    let self := { self with config := self.config.setTpl t.1 }
    match t.2 with
    | some err => (self, { params := none, retErr := some err, errs := errs })
    | none =>
      let s := validate env self.config errs
      let self := { self with config := s.1 }
      let errs := s.2
      let retErr := if errs.Errors.length > 0 then some (errs.Error env) else none
      (self, { params := none, retErr := retErr, errs := errs })

end Prepare

/-! ## Intermediate states of `Prepare` -/

section States

variable {Raw Metadata : Type}

/-- One iteration of the template loop, on the config alone. -/
def templateStep (env : Env Raw Metadata) (c : config) (n : TemplKey) : config :=
  c.set n (env.Process n (c.get n)).1

/-- The config after the template loop: every entry of `templates` replaced by
the value `Process` returned for it. -/
def templated (env : Env Raw Metadata) (c : config) : config :=
  TemplKey.all.foldl (templateStep env) c

/-- The errors the template loop appends when it visits the keys `l` of a
config `c`: one for each key whose `Process` call fails. -/
def templateErrors (env : Env Raw Metadata) (c : config) (l : List TemplKey) :
    List PrepError :=
  l.filterMap fun n => (env.Process n (c.get n)).2.map (PrepError.template n)

/-- The config at line 154, after defaulting and the template loop. -/
def afterTemplates (env : Env Raw Metadata) (c : config) : config :=
  templated env (setDefaults c)

/-- The config at line 173, with both durations parsed; it is the one the
checks of lines 174-244 read. -/
def afterDurations (env : Env Raw Metadata) (c : config) : config :=
  (parseDurations env (afterTemplates env c) {}).1

/-- The config at line 256, with the platform arguments settled. -/
def afterPlatform (env : Env Raw Metadata) (c : config) : config :=
  setPlatformArgs (afterDurations env c)

/-- The config at line 287, after the checksum block. -/
def afterChecksum (env : Env Raw Metadata) (c : config) : config :=
  (checkChecksum env (afterPlatform env c) {}).1

/-- The config at line 294, after the single URL was folded into the list. -/
def afterFold (env : Env Raw Metadata) (c : config) : config :=
  (foldIsoUrl (afterChecksum env c) {}).1

/-- The value a required field has when lines 196-244 test it. -/
def Required.value (c : config) (f : Required) : String := c.get f.key

/-- Whether an error is one of the ten of lines 196-244. -/
def PrepError.isRequired : PrepError → Bool
  | .required _ => true
  | _ => false

/-- Whether an error comes from the checksum block, lines 267-286. -/
def PrepError.isChecksum : PrepError → Bool
  | .checksumTypeMissing => true
  | .checksumMissing => true
  | .checksumUnsupported _ => true
  | _ => false

/-- Whether an error is the template error of line 151 for the entry `k`. -/
def PrepError.isTemplateOf (k : TemplKey) : PrepError → Bool
  | .template n _ => decide (n = k)
  | _ => false

/-- The blocks of `Prepare` that report errors. -/
inductive Block
  | unused | template | duration | bootCommand | ssh | required | ports | checksum | media
  deriving DecidableEq, Repr

/-- The block of `Prepare` an error comes from. -/
def PrepError.block : PrepError → Block
  | .unusedKey _ => .unused
  | .template _ _ => .template
  | .bootWait => .duration
  | .sshWaitTimeout _ => .duration
  | .bootCommand _ _ => .bootCommand
  | .sshUsername => .ssh
  | .sshKeyPath _ => .ssh
  | .required _ => .required
  | .httpPort => .ports
  | .vncPort => .ports
  | .checksumTypeMissing => .checksum
  | .checksumMissing => .checksum
  | .checksumUnsupported _ => .checksum
  | .isoUrlMissing => .media
  | .isoUrl _ _ => .media

/-- The errors one block of `Prepare` reports for a decoded config `c` (with
the template engine stored) and decoding metadata `md`; each block reads the
config as the blocks before it left it. -/
def blockErrors (env : Env Raw Metadata) (c : config) (md : Metadata) :
    Block → List PrepError
  | .unused => (unusedErrors env md).Errors
  | .template => templateErrors env (setDefaults c) env.rangeOrder
  | .duration => (parseDurations env (afterTemplates env c) {}).2.Errors
  | .bootCommand => (validateBootCommand env 0 (afterDurations env c).BootCommand {}).Errors
  | .ssh => (checkSSH env (afterDurations env c) {}).Errors
  | .required =>
    (Required.all.filter fun f => Required.value (afterDurations env c) f = "").map
      PrepError.required
  | .ports => (checkPorts (afterPlatform env c) {}).Errors
  | .checksum => (checkChecksum env (afterPlatform env c) {}).2.Errors
  | .media =>
    (foldIsoUrl (afterChecksum env c) {}).2.Errors
      ++ (normalizeUrls env 0 (afterFold env c).ISOUrls {}).2.Errors

/-- Every problem `Prepare` can collect, block after block in source order:
unknown keys, template errors, duration parse failures, boot-command template
errors, SSH user and key path, missing required fields, port ranges,
checksum, media URLs. -/
def collected (env : Env Raw Metadata) (c : config) (md : Metadata) : List PrepError :=
  blockErrors env c md .unused
    ++ blockErrors env c md .template
    ++ blockErrors env c md .duration
    ++ blockErrors env c md .bootCommand
    ++ blockErrors env c md .ssh
    ++ blockErrors env c md .required
    ++ blockErrors env c md .ports
    ++ blockErrors env c md .checksum
    ++ blockErrors env c md .media

/-- The config `Prepare` leaves in the builder when it runs to line 307. -/
def finalConfig (env : Env Raw Metadata) (c : config) : config :=
  { afterFold env c with
    ISOUrls := (afterFold env c).ISOUrls.map fun url => (env.DownloadableURL url).1 }

/-- A config with the two fields replaced that a later block of `Prepare`
overwrites or reads last: the platform arguments and the list of URLs. -/
def config.withLate (c : config) (pa : GoMap) (urls : List String) : config :=
  { c with PlatformArgs := pa, ISOUrls := urls }

end States

/-! ## A concrete environment

`demoEnv` stands in for the packages behind `Env` so that `Prepare` can be
evaluated on concrete inputs. It agrees with the Go packages on the strings
the examples use. The template engine fails on an action that is opened and
never closed and returns the empty string with the error; an action that
consists of a string constant prints that constant; text without an action is
returned unchanged. `time.ParseDuration` reads `5s`, `7s` and `200m`;
`common.HashForType` knows `md5`, `sha1`, `sha256` and `sha512`. -/

section Demo

/-- An action that is opened and never closed, which the template engine
rejects. -/
def unclosedAction : String := "\x7b\x7b"

/-- The action that prints the empty string constant. -/
def emptyAction : String := "\x7b\x7b\"\"\x7d\x7d"

/-- The action that prints the string constant `7s`. -/
def sevenSecondsAction : String := "\x7b\x7b\"7s\"\x7d\x7d"

/-- The one URL `common.DownloadableURL` accepts in `demoEnv`, unchanged. -/
def demoIsoUrl : String := "http://mirror.example/os.iso"

/-- The action that prints the string constant `demoIsoUrl`. -/
def urlAction : String := "\x7b\x7b\"http://mirror.example/os.iso\"\x7d\x7d"

/-- The result of `tpl.Process` in `demoEnv`. -/
def demoProcess (s : String) : String × Option String :=
  if s = unclosedAction then ("", some "template: unexpected unclosed action")
  else if s = emptyAction then ("", none)
  else if s = sevenSecondsAction then ("7s", none)
  else if s = urlAction then (demoIsoUrl, none)
  else (s, none)

/-- The result of `time.ParseDuration` in `demoEnv`. -/
def demoParseDuration (s : String) : Int × Option String :=
  if s = "5s" then (5000000000, none)
  else if s = "7s" then (7000000000, none)
  else if s = "200m" then (12000000000000, none)
  else (0, some "time: invalid duration")

/-- The one private key file that exists in `demoEnv`. -/
def demoKeyPath : String := "/keys/id_rsa"

/-- A raw overlay of `demoEnv` is a whole decoded config: decoding takes the
last overlay, finds no unknown key and never fails. -/
def demoEnv : Env config Unit where
  DecodeConfig := fun c raws => (raws.foldl (fun _ r => r) c, (), none)
  CheckUnusedConfig := fun _ => none
  NewConfigTemplate := (true, none)
  rangeOrder := TemplKey.all
  rangeOrder_perm := List.Perm.refl _
  Process := fun _ s => demoProcess s
  Validate := fun s => (demoProcess s).2
  ParseDuration := demoParseDuration
  Stat := fun path => if path = demoKeyPath then none else some "no such file or directory"
  FileSigner := fun path => if path = demoKeyPath then none else some "no key found"
  unicodeToLower := fun r => r
  HashForType := fun ty => decide (ty ∈ ["md5", "sha1", "sha256", "sha512"])
  DownloadableURL := fun url =>
    if url = demoIsoUrl then (url, none) else ("", some "Unsupported URL scheme")
  MultiErrorError := fun msgs =>
    toString msgs.length ++ " error(s) occurred:\n\n"
      ++ "\n".intercalate (msgs.map fun m => "* " ++ m)

/-- An input that supplies every required field, an SSH user and password, one
URL and the checksum type `none`, and nothing else; the build is named `xen`. -/
def demoConfig : config :=
  { toPackerConfig := { PackerBuildName := "xen" }
    Username := "root"
    Password := "secret"
    HostIp := "10.0.0.2"
    IsoUrl := demoIsoUrl
    ISOUrl := demoIsoUrl
    InstanceName := "vm"
    RootDiskSize := "40"
    CloneTemplate := "tpl-uuid"
    IsoUuid := "iso-uuid"
    SrUuid := "sr-uuid"
    NetworkUuid := "net-uuid"
    LocalIp := "10.0.0.1"
    ISOChecksumType := "none"
    SSHUser := "packer"
    SSHPassword := "packer" }

/-- The input `demoConfig` with a user name that is a template printing the
empty string. -/
def templatedUserConfig : config := { demoConfig with Username := emptyAction }

/-- The input `demoConfig` with a boot wait that is a template printing `7s`. -/
def templatedBootWaitConfig : config :=
  { demoConfig with RawBootWait := sevenSecondsAction }

/-- The input `demoConfig` with `output_directory` added. -/
def outputDirConfig : config := { demoConfig with OutputDir := "out" }

/-- The input `demoConfig` without `ssh_username`. -/
def noUserConfig : config := { demoConfig with SSHUser := "" }

/-- The input `demoConfig` with `ssh_key_path` added to `ssh_password`. -/
def bothCredentialsConfig : config := { demoConfig with SSHKeyPath := demoKeyPath }

/-- The input `demoConfig` with neither `ssh_password` nor `ssh_key_path`. -/
def noCredentialsConfig : config := { demoConfig with SSHPassword := "" }

/-- The input `demoConfig` with a list of URLs next to the single URL. -/
def urlListConfig : config := { demoConfig with ISOUrls := ["ftp://a/b.iso", demoIsoUrl] }

/-- The input `demoConfig` with an `iso_url` that is a template printing
`demoIsoUrl`; decoding stores the key in both fields tagged `iso_url`. -/
def templatedUrlConfig : config := { demoConfig with IsoUrl := urlAction, ISOUrl := urlAction }

/-- The input `demoConfig` with a key that fails to template. -/
def brokenPasswordConfig : config := { demoConfig with SSHPassword := unclosedAction }

/-- The input `demoConfig` without `iso_url` but with a list of URLs. -/
def onlyUrlListConfig : config :=
  { demoConfig with IsoUrl := "", ISOUrl := "", ISOUrls := [demoIsoUrl] }

/-- A builder on which `Prepare` has not run yet. -/
def freshBuilder : Builder Unit := {}

/-! ### Inputs that leave keys out

In `demoEnv` an input replaces the whole config. In `overlayEnv` an input is
the assignment of the keys it holds, as `common.DecodeConfig` performs it on
the struct it is given: a field whose key the input lacks keeps the value the
struct had. -/

/-- A build name that is a template: the action that prints the string
constant made of two opening braces. -/
def braceName : String := "\x7b\x7b\"\x7b\x7b\"\x7d\x7d"

/-- The result of `tpl.Process` in `overlayEnv`: as in `demoEnv`, and the
default output directory of the build `braceName` resolves to `output-`
followed by two opening braces, which is itself an unclosed action. -/
def overlayProcess (s : String) : String × Option String :=
  if s = "output-" ++ braceName then ("output-\x7b\x7b", none)
  else if s = "output-\x7b\x7b" then ("", some "template: unclosed action")
  else demoProcess s

/-- The packages of `demoEnv`, with inputs that assign the keys they hold to
the config they are decoded into, in order. -/
def overlayEnv : Env (config → config) Unit where
  DecodeConfig := fun c raws => (raws.foldl (fun c r => r c) c, (), none)
  CheckUnusedConfig := fun _ => none
  NewConfigTemplate := (true, none)
  rangeOrder := TemplKey.all
  rangeOrder_perm := List.Perm.refl _
  Process := fun _ s => overlayProcess s
  Validate := fun s => (overlayProcess s).2
  ParseDuration := demoParseDuration
  Stat := demoEnv.Stat
  FileSigner := demoEnv.FileSigner
  unicodeToLower := fun r => r
  HashForType := demoEnv.HashForType
  DownloadableURL := demoEnv.DownloadableURL
  MultiErrorError := demoEnv.MultiErrorError

/-- The input that holds the keys of `demoConfig` and no other key. -/
def demoOverlay (c : config) : config :=
  { c with
    toPackerConfig := { PackerBuildName := "xen" }
    Username := "root"
    Password := "secret"
    HostIp := "10.0.0.2"
    IsoUrl := demoIsoUrl
    ISOUrl := demoIsoUrl
    InstanceName := "vm"
    RootDiskSize := "40"
    CloneTemplate := "tpl-uuid"
    IsoUuid := "iso-uuid"
    SrUuid := "sr-uuid"
    NetworkUuid := "net-uuid"
    LocalIp := "10.0.0.1"
    ISOChecksumType := "none"
    SSHUser := "packer"
    SSHPassword := "packer" }

/-- The input `demoOverlay` for a build named `braceName`. -/
def braceNameOverlay (c : config) : config :=
  { demoOverlay c with toPackerConfig := { PackerBuildName := braceName } }

end Demo

/-! ## `Run` and `Cancel`

`Run` (lines 311-369) talks to the XenAPI client, to the step runner of the
package `multistep` and to `NewArtifact`. What it calls, and in which order,
is recorded as a list of events next to what it returns. -/

section Run

/-- The elements of the slice `steps` (lines 334-355), with the fields `Run`
sets. The function values `sshAddress` and `sshConfig` given to
`StepConnectSSH` are fixed by the package and carry no data of the run. -/
inductive Step
  | StepDownload (Checksum ChecksumType Description ResultKey : String) (Url : List String)
  | stepPrepareOutputDir
  | stepHTTPServer
  | stepUploadIso
  | stepCreateInstance
  | stepStartVmPaused
  | stepForwardVncPortOverSsh
  | stepBootWait
  | stepTypeBootCommand
  | stepWait
  | StepConnectSSH (SSHWaitTimeout : Int)
  | StepProvision
  | stepShutdownAndExport
  deriving DecidableEq, Repr

/-- The struct `multistep.BasicRunner`, of which `Run` sets `Steps`. -/
structure BasicRunner where
  Steps : List Step := []
  deriving DecidableEq, Repr

/-- The value of `NewXenAPIClient(host, username, password)`. -/
structure XenAPIClient where
  Host : String
  Username : String
  Password : String
  deriving DecidableEq, Repr

/-- A `packer.Ui` handed to `Run`; only its identity matters. -/
structure Ui where
  id : Nat
  deriving DecidableEq, Repr

/-- A `packer.Hook` handed to `Run`; only its identity matters. -/
structure Hook where
  id : Nat
  deriving DecidableEq, Repr

/-- A `packer.Cache` handed to `Run`; only its identity matters. -/
structure Cache where
  id : Nat
  deriving DecidableEq, Repr

/-- Modelled from the spec: the descriptor the Artifact Producer builds, which
is the result type of `NewArtifact` (a function of this package that is not
in `builder.go`): a location and identifying metadata. -/
structure Artifact where
  location : String
  metadata : List String
  deriving DecidableEq, Repr

/-- The values kept in the state bag: what `Run` puts there, and what steps
and the runner put there, which is an `error` or a value of another type. -/
inductive StateValue
  | cache (v : Cache)
  | client (v : XenAPIClient)
  | config (v : config)
  | hook (v : Hook)
  | ui (v : Ui)
  | error (e : String)
  | bool (v : Bool)
  | string (v : String)
  deriving DecidableEq, Repr

/-- The struct `multistep.BasicStateBag`: a map from keys to values. -/
structure BasicStateBag where
  data : List (String × StateValue) := []
  deriving DecidableEq, Repr

/-- Go `state.Put(k, v)`: overwrite the entry for `k`, or add one. -/
def BasicStateBag.Put (state : BasicStateBag) (k : String) (v : StateValue) :
    BasicStateBag :=
  { data := (state.data.filter fun kv => kv.1 ≠ k) ++ [(k, v)] }

/-- Go `v, ok := state.GetOk(k)`. -/
def BasicStateBag.GetOk (state : BasicStateBag) (k : String) : Option StateValue :=
  (state.data.find? fun kv => kv.1 = k).map Prod.snd

/-- What `Run` and `Cancel` call, in the order of the calls. -/
inductive Event
  | NewXenAPIClient (host username password : String)
  | Login
  | Say (message : String)
  | GetHosts
  | NewStateBag
  | Put (key : String) (v : StateValue)
  | RunnerRun (steps : List Step)
  | NewArtifact (dir : String)
  | GetOk (key : String)
  | logPrintln (message : String)
  | RunnerCancel
  | fmtPrintln (message : String)
  deriving DecidableEq, Repr

/-- What `Run` needs from outside `builder.go`. -/
structure RunEnv where
  /-- The result of `client.Login()`: nil, or the error of the failed login. -/
  Login : XenAPIClient → Option String
  /-- The state bag as `multistep.BasicRunner.Run` leaves it when it returns,
  with everything the steps and the runner have put into it. -/
  RunnerRun : BasicRunner → BasicStateBag → BasicStateBag
  /-- Modelled from the spec: the Artifact Producer `NewArtifact`, a function
  of this package that is not in `builder.go`, with the contract
  `produce(outputDirectory) -> Artifact | fails with ArtifactError`: the
  artifact (nil on failure) and the error (nil on success). -/
  NewArtifact : String → Option Artifact × Option String

/-- How a call of `Run` ends: it returns the pair `(artifact, err)`, or the
type assertion `rawErr.(error)` of line 364 panics on a value that is no
error. -/
inductive RunReturn
  | returned (artifact : Option Artifact) (err : Option String)
  | panicked
  deriving DecidableEq, Repr

/-- The outcome of `Run` and the calls it made. -/
structure RunResult where
  ret : RunReturn
  trace : List Event

/-- The client of line 313. -/
def config.client (c : config) : XenAPIClient :=
  { Host := c.HostIp, Username := c.Username, Password := c.Password }

/-- The state bag of lines 324-329. -/
def seedState (c : config) (client : XenAPIClient) (ui : Ui) (hook : Hook)
    (cache : Cache) : BasicStateBag :=
  let state : BasicStateBag := {}
  let state := state.Put "cache" (.cache cache)
  let state := state.Put "client" (.client client)
  let state := state.Put "config" (.config c)
  let state := state.Put "hook" (.hook hook)
  state.Put "ui" (.ui ui)

/-- The slice `steps` of lines 334-355. -/
def config.steps (c : config) : List Step :=
  [ .StepDownload c.ISOChecksum c.ISOChecksumType "ISO" "iso_path" c.ISOUrls,
    .stepPrepareOutputDir,
    .stepHTTPServer,
    .stepUploadIso,
    .stepCreateInstance,
    .stepStartVmPaused,
    .stepForwardVncPortOverSsh,
    .stepBootWait,
    .stepTypeBootCommand,
    .stepWait,
    .StepConnectSSH c.sshWaitTimeout,
    .StepProvision,
    .stepShutdownAndExport ]

/-- The calls of `Run` up to and including `NewArtifact`, after a login that
succeeded (lines 319-360). -/
def runTrace (c : config) (client : XenAPIClient) (ui : Ui) (hook : Hook)
    (cache : Cache) : List Event :=
  [ .NewXenAPIClient c.HostIp c.Username c.Password,
    .Login,
    .Say "XAPI client session established",
    .GetHosts,
    .NewStateBag,
    .Put "cache" (.cache cache),
    .Put "client" (.client client),
    .Put "config" (.config c),
    .Put "hook" (.hook hook),
    .Put "ui" (.ui ui),
    .RunnerRun c.steps,
    .NewArtifact c.OutputDir ]

/-- `Builder.Run` (lines 311-369). -/
def Builder.Run (env : RunEnv) (self : Builder BasicRunner) (ui : Ui) (hook : Hook)
    (cache : Cache) : Builder BasicRunner × RunResult :=
  let client := self.config.client
  match env.Login client with
  | some err =>
    (self,
      { ret := .returned none (some err)
        trace := [.NewXenAPIClient self.config.HostIp self.config.Username
          self.config.Password, .Login] })
  | none =>
    let state := seedState self.config client ui hook cache
    let steps := self.config.steps
    let runner : BasicRunner := { Steps := steps }
    let self := { self with runner := some runner }
    let state := env.RunnerRun runner state
    let artifact := (env.NewArtifact self.config.OutputDir).1
    let trace := runTrace self.config client ui hook cache ++ [.GetOk "error"]
    match state.GetOk "error" with
    | some (.error rawErr) => (self, { ret := .returned none (some rawErr), trace := trace })
    | some _ => (self, { ret := .panicked, trace := trace })
    | none => (self, { ret := .returned artifact none, trace := trace })

/-- `Builder.Cancel` (lines 372-378); `RunnerCancel` is the method `Cancel` of
the runner. -/
def Builder.Cancel {R : Type} (RunnerCancel : R → R) (self : Builder R) :
    Builder R × List Event :=
  let (self, trace) :=
    match self.runner with
    | some runner =>
      ({ self with runner := some (RunnerCancel runner) },
        [Event.logPrintln "Cancelling the step runner...", Event.RunnerCancel])
    | none => (self, [])
  (self, trace ++ [.fmtPrintln "Cancelling the builder"])

/-- The state bag the runner hands back to `Run`. -/
def Builder.pipelineState (env : RunEnv) (self : Builder BasicRunner) (ui : Ui)
    (hook : Hook) (cache : Cache) : BasicStateBag :=
  env.RunnerRun { Steps := self.config.steps }
    (seedState self.config self.config.client ui hook cache)

/-- Whether an event is a call of `NewArtifact`. -/
def Event.isNewArtifact : Event → Bool
  | .NewArtifact _ => true
  | _ => false

/-- Whether an event is a call made after the login: the host enumeration, the
creation or seeding of the state bag, the run of the steps, or `NewArtifact`. -/
def Event.afterLogin : Event → Bool
  | .GetHosts | .NewStateBag | .Put _ _ | .RunnerRun _ | .NewArtifact _ | .GetOk _
  | .Say _ => true
  | _ => false

/-! ### Concrete runs -/

/-- A config as `Prepare` leaves it for the input `demoConfig`, as far as
`Run` reads it. -/
def preparedConfig : config :=
  { demoConfig with
    ISOUrls := [demoIsoUrl]
    OutputDir := "output-xen"
    sshWaitTimeout := 12000000000000 }

/-- The builder `Run` is called on in the examples. -/
def preparedBuilder : Builder BasicRunner := { config := preparedConfig }

/-- The artifact of a build that exported one image. -/
def demoArtifact : Artifact :=
  { location := "output-xen", metadata := ["output-xen/vm.xva"] }

/-- A run in which the login succeeds, every step continues and writes
nothing the builder reads, and the producer finds the exported image. -/
def demoRunEnv : RunEnv where
  Login := fun _ => none
  RunnerRun := fun _ state => state.Put "iso_path" (.string "/cache/os.iso")
  NewArtifact := fun dir =>
    if dir = "output-xen" then (some demoArtifact, none)
    else (none, some "no such file or directory")

/-- A run in which the login is refused. -/
def failedLoginEnv : RunEnv :=
  { demoRunEnv with Login := fun _ => some "authentication failed" }

/-- A run in which a step reports the error `SR full`. -/
def failedStepEnv : RunEnv :=
  { demoRunEnv with
      RunnerRun := fun _ state =>
        (state.Put "iso_path" (.string "/cache/os.iso")).Put "error" (.error "SR full") }

/-- A run which is cancelled before the first step: the runner marks the
state bag with `multistep.StateCancelled` and runs no step. -/
def cancelledEnv : RunEnv :=
  { demoRunEnv with RunnerRun := fun _ state => state.Put "cancelled" (.bool true) }

/-- A run in which every step continues and the producer fails. -/
def failedProducerEnv : RunEnv :=
  { demoRunEnv with NewArtifact := fun _ => (none, some "no such file or directory") }

/-- The ui, hook and cache of the examples. -/
def demoUi : Ui := { id := 1 }

/-- The hook of the examples. -/
def demoHook : Hook := { id := 2 }

/-- The cache of the examples. -/
def demoCache : Cache := { id := 3 }

end Run

/-! ## Lemmas on the blocks -/

section Lemmas

variable {Raw Metadata : Type} (env : Env Raw Metadata)

theorem MultiErrorAppend_Errors (errs : MultiError) (e : PrepError) :
    (MultiErrorAppend errs e).Errors = errs.Errors ++ [e] := rfl

theorem config_get_set_ne (c : config) (n m : TemplKey) (v : String) (h : n ≠ m) :
    (c.set n v).get m = c.get m := by
  cases n <;> cases m <;> first | rfl | exact absurd rfl h

theorem templateStep_comm (c : config) (n m : TemplKey) :
    templateStep env (templateStep env c n) m = templateStep env (templateStep env c m) n := by
  cases n <;> cases m <;> rfl

theorem processTemplates_fst (l : List TemplKey) (c : config) (errs : MultiError) :
    (processTemplates env l c errs).1 = l.foldl (templateStep env) c := by
  induction l generalizing c errs with
  | nil => rfl
  | cons n rest ih => simp only [processTemplates, List.foldl_cons, ih, templateStep]

theorem processTemplates_rangeOrder (c : config) (errs : MultiError) :
    (processTemplates env env.rangeOrder c errs).1 = templated env c := by
  rw [processTemplates_fst]
  exact env.rangeOrder_perm.foldl_eq' (fun x _ y _ z => templateStep_comm env z x y) c

theorem templateErrors_cons_of_not_mem (c : config) (n : TemplKey) (v : String)
    (l : List TemplKey) (h : n ∉ l) :
    templateErrors env (c.set n v) l = templateErrors env c l := by
  unfold templateErrors
  apply List.filterMap_congr
  intro m hm
  have hne : n ≠ m := fun e => h (e ▸ hm)
  rw [config_get_set_ne c n m v hne]

theorem processTemplates_snd (l : List TemplKey) (hl : l.Nodup) (c : config)
    (errs : MultiError) :
    (processTemplates env l c errs).2.Errors = errs.Errors ++ templateErrors env c l := by
  induction l generalizing c errs with
  | nil => simp [processTemplates, templateErrors]
  | cons n rest ih =>
    have hn : n ∉ rest := (List.nodup_cons.mp hl).1
    have hr : rest.Nodup := (List.nodup_cons.mp hl).2
    simp only [processTemplates]
    rw [ih hr, templateErrors_cons_of_not_mem env c n _ rest hn]
    cases h : (env.Process n (c.get n)).2 <;>
      simp [templateErrors, List.filterMap_cons, h, MultiErrorAppend_Errors]

theorem rangeOrder_nodup : env.rangeOrder.Nodup :=
  env.rangeOrder_perm.nodup_iff.mpr (by decide)

theorem parseDurations_fst (c : config) (errs : MultiError) :
    (parseDurations env c errs).1 = (parseDurations env c {}).1 := rfl

theorem parseDurations_snd (c : config) (errs : MultiError) :
    (parseDurations env c errs).2.Errors =
      errs.Errors ++ (parseDurations env c {}).2.Errors := by
  simp only [parseDurations]
  cases (env.ParseDuration c.RawBootWait).2 <;>
    cases (env.ParseDuration c.RawSSHWaitTimeout).2 <;>
    simp [MultiErrorAppend_Errors]

theorem validateBootCommand_Errors (i : Nat) (l : List String) (errs : MultiError) :
    (validateBootCommand env i l errs).Errors =
      errs.Errors ++ (validateBootCommand env i l {}).Errors := by
  induction l generalizing i errs with
  | nil => simp [validateBootCommand]
  | cons command rest ih =>
    simp only [validateBootCommand]
    rw [ih (i + 1) (match env.Validate command with
      | some err => MultiErrorAppend errs (.bootCommand i err)
      | none => errs)]
    rw [ih (i + 1) (match env.Validate command with
      | some err => MultiErrorAppend {} (.bootCommand i err)
      | none => {})]
    cases env.Validate command <;> simp [MultiErrorAppend_Errors]

theorem checkSSH_Errors (c : config) (errs : MultiError) :
    (checkSSH env c errs).Errors = errs.Errors ++ (checkSSH env c {}).Errors := by
  simp only [checkSSH]
  by_cases hu : c.SSHUser = "" <;> by_cases hk : c.SSHKeyPath = "" <;>
    cases env.Stat c.SSHKeyPath <;> cases env.FileSigner c.SSHKeyPath <;>
    simp [hu, hk, MultiErrorAppend_Errors]

theorem ite_MultiErrorAppend_Errors (p : Prop) [Decidable p] (errs : MultiError)
    (e : PrepError) :
    (if p then MultiErrorAppend errs e else errs).Errors =
      errs.Errors ++ (if p then [e] else []) := by
  by_cases h : p <;> simp [h, MultiErrorAppend_Errors]

theorem filter_map_cons_eq_ite {α β : Type} (p : α → Prop) [DecidablePred p] (f : α → β)
    (a : α) (l : List α) :
    ((a :: l).filter fun x => p x).map f =
      (if p a then [f a] else []) ++ (l.filter fun x => p x).map f := by
  by_cases h : p a <;> simp [h]

/-- The errors of lines 196-244, read off the config. -/
theorem checkRequired_Errors (c : config) (errs : MultiError) :
    (checkRequired c errs).Errors =
      errs.Errors ++
        (Required.all.filter fun f => Required.value c f = "").map PrepError.required := by
  simp only [checkRequired, Required.all, filter_map_cons_eq_ite,
    ite_MultiErrorAppend_Errors, List.append_assoc, List.filter_nil, List.map_nil,
    List.append_nil, Required.value, Required.key, config.get]

theorem checkPorts_Errors (c : config) (errs : MultiError) :
    (checkPorts c errs).Errors = errs.Errors ++ (checkPorts c {}).Errors := by
  simp only [checkPorts]
  by_cases h : c.HTTPPortMin > c.HTTPPortMax <;>
    by_cases v : c.VncPortMin > c.VncPortMax <;> simp [h, v, MultiErrorAppend_Errors]

theorem checkChecksum_fst (c : config) (errs : MultiError) :
    (checkChecksum env c errs).1 = (checkChecksum env c {}).1 := by
  simp only [checkChecksum]
  split_ifs <;> rfl

theorem checkChecksum_snd (c : config) (errs : MultiError) :
    (checkChecksum env c errs).2.Errors =
      errs.Errors ++ (checkChecksum env c {}).2.Errors := by
  simp only [checkChecksum]
  split_ifs <;> simp [MultiErrorAppend_Errors]

theorem foldIsoUrl_fst (c : config) (errs : MultiError) :
    (foldIsoUrl c errs).1 = (foldIsoUrl c {}).1 := by
  simp only [foldIsoUrl]
  split_ifs <;> rfl

theorem foldIsoUrl_snd (c : config) (errs : MultiError) :
    (foldIsoUrl c errs).2.Errors = errs.Errors ++ (foldIsoUrl c {}).2.Errors := by
  simp only [foldIsoUrl]
  split_ifs <;> simp [MultiErrorAppend_Errors]

theorem normalizeUrls_fst (i : Nat) (l : List String) (errs : MultiError) :
    (normalizeUrls env i l errs).1 = l.map fun url => (env.DownloadableURL url).1 := by
  induction l generalizing i errs with
  | nil => rfl
  | cons url rest ih => simp only [normalizeUrls, List.map_cons, ih]

theorem normalizeUrls_snd (i : Nat) (l : List String) (errs : MultiError) :
    (normalizeUrls env i l errs).2.Errors =
      errs.Errors ++ (normalizeUrls env i l {}).2.Errors := by
  induction l generalizing i errs with
  | nil => simp [normalizeUrls]
  | cons url rest ih =>
    simp only [normalizeUrls]
    rw [ih (i + 1) (match (env.DownloadableURL url).2 with
      | some err => MultiErrorAppend errs (.isoUrl i err)
      | none => errs)]
    rw [ih (i + 1) (match (env.DownloadableURL url).2 with
      | some err => MultiErrorAppend {} (.isoUrl i err)
      | none => {})]
    cases (env.DownloadableURL url).2 <;> simp [MultiErrorAppend_Errors]

/-- The config `validate` leaves behind. -/
theorem validate_fst (c : config) (errs : MultiError) :
    (validate env c errs).1 = finalConfig env c := by
  simp only [validate, normalizeUrls_fst, afterFold, afterChecksum, afterPlatform,
    afterDurations, afterTemplates, finalConfig]
  rw [foldIsoUrl_fst, checkChecksum_fst, parseDurations_fst, processTemplates_rangeOrder]

/-- The errors `validate` collects: those it was given, then the errors of
each block in source order, none dropped. -/
theorem validate_snd (c : config) (md : Metadata) :
    (validate env c (unusedErrors env md)).2 = { Errors := collected env c md } := by
  have h : (validate env c (unusedErrors env md)).2.Errors = collected env c md := by
    simp only [validate, collected, blockErrors]
    rw [normalizeUrls_snd, foldIsoUrl_snd, foldIsoUrl_fst, checkChecksum_snd,
      checkChecksum_fst, checkPorts_Errors, checkRequired_Errors, checkSSH_Errors,
      validateBootCommand_Errors, parseDurations_snd, parseDurations_fst,
      processTemplates_snd env _ (rangeOrder_nodup env), processTemplates_rangeOrder]
    simp only [afterFold, afterChecksum, afterPlatform, afterDurations, afterTemplates,
      checkRequired_Errors, List.append_assoc, List.nil_append]
  cases hv : (validate env c (unusedErrors env md)).2 with
  | mk es => rw [hv] at h; exact congrArg MultiError.mk h

/-! ### The config between the blocks -/

theorem defaultVncPortMin_eq (c : config) :
    defaultVncPortMin c = { c with VncPortMin := if c.VncPortMin = 0 then 5900 else c.VncPortMin } := by
  unfold defaultVncPortMin
  split_ifs <;> rfl

theorem defaultVncPortMax_eq (c : config) :
    defaultVncPortMax c = { c with VncPortMax := if c.VncPortMax = 0 then 6000 else c.VncPortMax } := by
  unfold defaultVncPortMax
  split_ifs <;> rfl

theorem defaultRawBootWait_eq (c : config) :
    defaultRawBootWait c = { c with RawBootWait := if c.RawBootWait = "" then "5s" else c.RawBootWait } := by
  unfold defaultRawBootWait
  split_ifs <;> rfl

theorem defaultHTTPPortMin_eq (c : config) :
    defaultHTTPPortMin c = { c with HTTPPortMin := if c.HTTPPortMin = 0 then 8000 else c.HTTPPortMin } := by
  unfold defaultHTTPPortMin
  split_ifs <;> rfl

theorem defaultHTTPPortMax_eq (c : config) :
    defaultHTTPPortMax c = { c with HTTPPortMax := if c.HTTPPortMax = 0 then 9000 else c.HTTPPortMax } := by
  unfold defaultHTTPPortMax
  split_ifs <;> rfl

theorem defaultRawSSHWaitTimeout_eq (c : config) :
    defaultRawSSHWaitTimeout c = { c with RawSSHWaitTimeout := if c.RawSSHWaitTimeout = "" then "200m" else c.RawSSHWaitTimeout } := by
  unfold defaultRawSSHWaitTimeout
  split_ifs <;> rfl

theorem defaultOutputDir_eq (c : config) :
    defaultOutputDir c = { c with OutputDir := if c.OutputDir = "" then "output-" ++ c.PackerBuildName else c.OutputDir } := by
  unfold defaultOutputDir
  split_ifs <;> rfl

/-- Defaulting, field by field. -/
theorem setDefaults_eq (c : config) :
    setDefaults c =
      { c with
        VncPortMin := if c.VncPortMin = 0 then 5900 else c.VncPortMin
        VncPortMax := if c.VncPortMax = 0 then 6000 else c.VncPortMax
        RawBootWait := if c.RawBootWait = "" then "5s" else c.RawBootWait
        HTTPPortMin := if c.HTTPPortMin = 0 then 8000 else c.HTTPPortMin
        HTTPPortMax := if c.HTTPPortMax = 0 then 9000 else c.HTTPPortMax
        RawSSHWaitTimeout :=
          if c.RawSSHWaitTimeout = "" then "200m" else c.RawSSHWaitTimeout
        OutputDir :=
          if c.OutputDir = "" then "output-" ++ c.PackerBuildName else c.OutputDir } := by
  simp only [setDefaults, defaultVncPortMin_eq, defaultVncPortMax_eq, defaultRawBootWait_eq,
    defaultHTTPPortMin_eq, defaultHTTPPortMax_eq, defaultRawSSHWaitTimeout_eq,
    defaultOutputDir_eq, config.PackerBuildName]

theorem config_get_set_same (c : config) (k : TemplKey) (v : String) :
    (c.set k v).get k = v := by
  cases k <;> rfl

theorem foldl_templateStep_get_of_not_mem (l : List TemplKey) (c : config) (k : TemplKey)
    (h : k ∉ l) : (l.foldl (templateStep env) c).get k = c.get k := by
  induction l generalizing c with
  | nil => rfl
  | cons n rest ih =>
    have hn : n ≠ k := fun e => h (e ▸ List.mem_cons_self _ _)
    have hr : k ∉ rest := fun e => h (List.mem_cons_of_mem _ e)
    rw [List.foldl_cons, ih _ hr, templateStep, config_get_set_ne _ _ _ _ hn]

theorem foldl_templateStep_get_of_mem (l : List TemplKey) (hl : l.Nodup) (c : config)
    (k : TemplKey) (h : k ∈ l) :
    (l.foldl (templateStep env) c).get k = (env.Process k (c.get k)).1 := by
  induction l generalizing c with
  | nil => simp at h
  | cons n rest ih =>
    have hn : n ∉ rest := (List.nodup_cons.mp hl).1
    have hr : rest.Nodup := (List.nodup_cons.mp hl).2
    rw [List.foldl_cons]
    by_cases e : k = n
    · subst e
      rw [foldl_templateStep_get_of_not_mem env rest _ k hn, templateStep,
        config_get_set_same]
    · have hk : k ∈ rest := by
        rcases List.mem_cons.mp h with h1 | h1
        · exact absurd h1 e
        · exact h1
      rw [ih hr _ hk, templateStep, config_get_set_ne _ _ _ _ (fun e1 => e e1.symm)]

/-- The template loop, field by field: every entry of `templates` holds what
`Process` returned for its value before the loop. -/
theorem templated_get (c : config) (k : TemplKey) :
    (templated env c).get k = (env.Process k (c.get k)).1 := by
  unfold templated
  apply foldl_templateStep_get_of_mem env _ (by decide)
  cases k <;> decide

/-- The template loop changes nothing but the entries of `templates`. -/
theorem templated_proj {α : Type} (f : config → α)
    (hf : ∀ (c : config) (k : TemplKey) (v : String), f (c.set k v) = f c) (c : config) :
    f (templated env c) = f c := by
  unfold templated
  generalize TemplKey.all = l
  induction l generalizing c with
  | nil => rfl
  | cons n rest ih => rw [List.foldl_cons, ih, templateStep, hf]

theorem parseDurations_eq (c : config) (errs : MultiError) :
    (parseDurations env c errs).1 =
      { c with
        BootWait := (env.ParseDuration c.RawBootWait).1
        sshWaitTimeout := (env.ParseDuration c.RawSSHWaitTimeout).1 } :=
  rfl

theorem parseDurations_get (c : config) (errs : MultiError) (k : TemplKey) :
    (parseDurations env c errs).1.get k = c.get k := by
  rw [parseDurations_eq]
  cases k <;> rfl

/-- The entries of `templates` as the checks of lines 174-244 read them. -/
theorem afterDurations_get (c : config) (k : TemplKey) :
    (afterDurations env c).get k = (env.Process k ((setDefaults c).get k)).1 := by
  rw [afterDurations, parseDurations_get, afterTemplates, templated_get]

/-- A field that neither the template loop nor the duration block writes
still has, at line 173, the value defaulting gave it. -/
theorem afterDurations_proj {α : Type} (f : config → α)
    (hset : ∀ (c : config) (k : TemplKey) (v : String), f (c.set k v) = f c)
    (hbw : ∀ (c : config) (v : Int), f { c with BootWait := v } = f c)
    (hsw : ∀ (c : config) (v : Int), f { c with sshWaitTimeout := v } = f c)
    (c : config) : f (afterDurations env c) = f (setDefaults c) := by
  have h : ∀ d : config, f (parseDurations env d {}).1 = f d := by
    intro d
    rw [parseDurations_eq]
    exact (hsw { d with BootWait := (env.ParseDuration d.RawBootWait).1 } _).trans (hbw d _)
  rw [afterDurations, h, afterTemplates, templated_proj env f hset]

theorem setPlatformArgs_eq (c : config) :
    setPlatformArgs c =
      { c with
        PlatformArgs :=
          if c.PlatformArgs.len = 0 then defaultPlatformArgs else c.PlatformArgs } := by
  unfold setPlatformArgs
  split_ifs <;> rfl

theorem checkChecksum_proj {α : Type} (f : config → α)
    (hty : ∀ (c : config) (v : String), f { c with ISOChecksumType := v } = f c)
    (hck : ∀ (c : config) (v : String), f { c with ISOChecksum := v } = f c)
    (c : config) (errs : MultiError) : f (checkChecksum env c errs).1 = f c := by
  simp only [checkChecksum]
  split_ifs <;>
    first
      | rfl
      | exact hty c _
      | exact (hck { c with ISOChecksumType := ToLower env c.ISOChecksumType } _).trans
          (hty c _)

theorem foldIsoUrl_proj {α : Type} (f : config → α)
    (hu : ∀ (c : config) (v : List String), f { c with ISOUrls := v } = f c)
    (c : config) (errs : MultiError) : f (foldIsoUrl c errs).1 = f c := by
  simp only [foldIsoUrl]
  split_ifs <;> first | rfl | exact hu c _

theorem setPlatformArgs_proj {α : Type} (f : config → α)
    (hpa : ∀ (c : config) (v : GoMap), f { c with PlatformArgs := v } = f c)
    (c : config) : f (setPlatformArgs c) = f c := by
  rw [setPlatformArgs_eq, hpa]

/-- A field written neither by the template loop nor by any later block has,
in the config `Prepare` leaves behind, the value defaulting gave it. -/
theorem finalConfig_proj {α : Type} (f : config → α)
    (hset : ∀ (c : config) (k : TemplKey) (v : String), f (c.set k v) = f c)
    (hbw : ∀ (c : config) (v : Int), f { c with BootWait := v } = f c)
    (hsw : ∀ (c : config) (v : Int), f { c with sshWaitTimeout := v } = f c)
    (hpa : ∀ (c : config) (v : GoMap), f { c with PlatformArgs := v } = f c)
    (hu : ∀ (c : config) (v : List String), f { c with ISOUrls := v } = f c)
    (c : config) : f (finalConfig env c) = f (setDefaults c) := by
  have hty : ∀ (c : config) (v : String), f { c with ISOChecksumType := v } = f c :=
    fun c v => hset c .iso_checksum_type v
  have hck : ∀ (c : config) (v : String), f { c with ISOChecksum := v } = f c :=
    fun c v => hset c .iso_checksum v
  rw [finalConfig, hu, afterFold, foldIsoUrl_proj f hu, afterChecksum,
    checkChecksum_proj env f hty hck, afterPlatform, setPlatformArgs_proj f hpa,
    afterDurations_proj env f hset hbw hsw]

/-- A string field that only the template loop writes after defaulting. -/
theorem finalConfig_get (c : config) (k : TemplKey) (h1 : k ≠ .iso_checksum_type)
    (h2 : k ≠ .iso_checksum) :
    (finalConfig env c).get k = (env.Process k ((setDefaults c).get k)).1 := by
  have hu : ∀ (c : config) (v : List String), ({ c with ISOUrls := v } : config).get k =
      c.get k := by intro c v; cases k <;> rfl
  have hty : ∀ (c : config) (v : String), ({ c with ISOChecksumType := v } : config).get k =
      c.get k := by intro c v; cases k <;> first | rfl | exact absurd rfl h1
  have hck : ∀ (c : config) (v : String), ({ c with ISOChecksum := v } : config).get k =
      c.get k := by intro c v; cases k <;> first | rfl | exact absurd rfl h2
  have hpa : ∀ (c : config) (v : GoMap), ({ c with PlatformArgs := v } : config).get k =
      c.get k := by intro c v; cases k <;> rfl
  rw [finalConfig, hu, afterFold, foldIsoUrl_proj (fun c => c.get k) hu, afterChecksum,
    checkChecksum_proj env (fun c => c.get k) hty hck, afterPlatform,
    setPlatformArgs_proj (fun c => c.get k) hpa, afterDurations_get]

theorem setTpl_get (c : config) (t : Bool) (k : TemplKey) : (c.setTpl t).get k = c.get k := by
  cases k <;> rfl

theorem setDefaults_get_required (c : config) (f : Required) :
    (setDefaults c).get f.key = c.get f.key := by
  rw [setDefaults_eq]
  cases f <;> rfl

/-- The value lines 196-244 test for a required field is what the template
loop returned for the decoded value. -/
theorem required_value (c : config) (t : Bool) (f : Required) :
    Required.value (afterDurations env (c.setTpl t)) f =
      (env.Process f.key (c.get f.key)).1 := by
  rw [Required.value, afterDurations_get, setDefaults_get_required, setTpl_get]

/-! ### The blocks keep their errors apart -/

theorem validateBootCommand_block (i : Nat) (l : List String) :
    ∀ e ∈ (validateBootCommand env i l {}).Errors, e.block = .bootCommand := by
  induction l generalizing i with
  | nil => intro e he; simp [validateBootCommand] at he
  | cons command rest ih =>
    intro e he
    simp only [validateBootCommand] at he
    rw [validateBootCommand_Errors] at he
    rcases List.mem_append.mp he with h | h
    · cases hv : env.Validate command with
      | none => simp [hv] at h
      | some err =>
        simp [hv, MultiErrorAppend_Errors] at h
        rw [h]; rfl
    · exact ih (i + 1) e h

theorem normalizeUrls_block (i : Nat) (l : List String) :
    ∀ e ∈ (normalizeUrls env i l {}).2.Errors, e.block = .media := by
  induction l generalizing i with
  | nil => intro e he; simp [normalizeUrls] at he
  | cons url rest ih =>
    intro e he
    simp only [normalizeUrls] at he
    rw [normalizeUrls_snd] at he
    rcases List.mem_append.mp he with h | h
    · cases hv : (env.DownloadableURL url).2 with
      | none => simp [hv] at h
      | some err =>
        simp [hv, MultiErrorAppend_Errors] at h
        rw [h]; rfl
    · exact ih (i + 1) e h

theorem unusedErrors_block (md : Metadata) :
    ∀ e ∈ (unusedErrors env md).Errors, e.block = .unused := by
  intro e he
  simp only [unusedErrors] at he
  cases hu : env.CheckUnusedConfig md with
  | none => simp [hu] at he
  | some msgs =>
    simp only [hu, List.mem_map] at he
    obtain ⟨m, _, rfl⟩ := he
    rfl

theorem templateErrors_block (c : config) (l : List TemplKey) :
    ∀ e ∈ templateErrors env c l, e.block = .template := by
  intro e he
  simp only [templateErrors, List.mem_filterMap, Option.map_eq_some'] at he
  obtain ⟨n, _, err, _, rfl⟩ := he
  rfl

theorem parseDurations_block (c : config) :
    ∀ e ∈ (parseDurations env c {}).2.Errors, e.block = .duration := by
  intro e he
  simp only [parseDurations] at he
  cases h1 : (env.ParseDuration c.RawBootWait).2 <;>
    cases h2 : (env.ParseDuration c.RawSSHWaitTimeout).2 <;>
    simp [h1, h2, MultiErrorAppend_Errors] at he
  · rw [he]; rfl
  · rw [he]; rfl
  · rcases he with rfl | rfl <;> rfl

theorem checkSSH_block (c : config) :
    ∀ e ∈ (checkSSH env c {}).Errors, e.block = .ssh := by
  intro e he
  simp only [checkSSH] at he
  by_cases hu : c.SSHUser = "" <;> by_cases hk : c.SSHKeyPath = "" <;>
    cases hs : env.Stat c.SSHKeyPath <;> cases hf : env.FileSigner c.SSHKeyPath <;>
    simp [hu, hk, hs, hf, MultiErrorAppend_Errors] at he <;>
    first
      | (rw [he]; rfl)
      | (rcases he with rfl | rfl <;> rfl)

theorem checkPorts_block (c : config) :
    ∀ e ∈ (checkPorts c {}).Errors, e.block = .ports := by
  intro e he
  simp only [checkPorts] at he
  by_cases h : c.HTTPPortMin > c.HTTPPortMax <;>
    by_cases v : c.VncPortMin > c.VncPortMax <;>
    simp [h, v, MultiErrorAppend_Errors] at he <;>
    first
      | (rw [he]; rfl)
      | (rcases he with rfl | rfl <;> rfl)

theorem checkChecksum_block (c : config) :
    ∀ e ∈ (checkChecksum env c {}).2.Errors, e.block = .checksum := by
  intro e he
  simp only [checkChecksum] at he
  split_ifs at he <;> simp [MultiErrorAppend_Errors] at he <;>
    first
      | (rw [he]; rfl)
      | (rcases he with rfl | rfl <;> rfl)

theorem foldIsoUrl_block (c : config) :
    ∀ e ∈ (foldIsoUrl c {}).2.Errors, e.block = .media := by
  intro e he
  simp only [foldIsoUrl] at he
  split_ifs at he <;> simp [MultiErrorAppend_Errors] at he
  rw [he]; rfl

/-- Every error of a block is tagged with that block. -/
theorem blockErrors_block (c : config) (md : Metadata) (X : Block) :
    ∀ e ∈ blockErrors env c md X, e.block = X := by
  intro e he
  cases X with
  | unused => exact unusedErrors_block env md e he
  | template => exact templateErrors_block env _ _ e he
  | duration => exact parseDurations_block env _ e he
  | bootCommand => exact validateBootCommand_block env _ _ e he
  | ssh => exact checkSSH_block env _ e he
  | required =>
    simp only [blockErrors, List.mem_map] at he
    obtain ⟨f, _, rfl⟩ := he
    rfl
  | ports => exact checkPorts_block _ e he
  | checksum => exact checkChecksum_block env _ e he
  | media =>
    rcases List.mem_append.mp he with h | h
    · exact foldIsoUrl_block _ e h
    · exact normalizeUrls_block env _ _ e h

theorem filter_blockErrors_eq_nil (c : config) (md : Metadata) (p : PrepError → Bool)
    (X Y : Block) (hp : ∀ e, p e = true → e.block = X) (hXY : Y ≠ X) :
    (blockErrors env c md Y).filter p = [] := by
  rw [List.filter_eq_nil_iff]
  intro e he hpe
  exact hXY ((blockErrors_block env c md Y e he).symm.trans (hp e hpe))

/-- A test that only errors of block `X` pass selects, from everything
collected, what it selects from block `X`. -/
theorem filter_collected (c : config) (md : Metadata) (p : PrepError → Bool) (X : Block)
    (hp : ∀ e, p e = true → e.block = X) :
    (collected env c md).filter p = (blockErrors env c md X).filter p := by
  simp only [collected, List.filter_append]
  cases X <;>
    simp [filter_blockErrors_eq_nil env c md p _ _ hp]

theorem count_collected (c : config) (md : Metadata) (e : PrepError) :
    (collected env c md).count e = (blockErrors env c md e.block).count e := by
  simp only [List.count_eq_countP, List.countP_eq_length_filter]
  rw [filter_collected env c md _ e.block]
  intro e1 he1
  rw [beq_iff_eq] at he1
  rw [he1]

theorem mem_collected_iff (c : config) (md : Metadata) (e : PrepError) :
    e ∈ collected env c md ↔ e ∈ blockErrors env c md e.block := by
  rw [← List.count_pos_iff, ← List.count_pos_iff, count_collected]

/-- `Prepare` on an input that decodes, once the template engine exists. -/
theorem Prepare_eq {R : Type} (b : Builder R) (raws : List Raw) (c : config)
    (md : Metadata) (t : Bool)
    (hdec : env.DecodeConfig b.config raws = (c, md, none))
    (htpl : env.NewConfigTemplate = (t, none)) :
    b.Prepare env raws =
      ({ b with config := finalConfig env (c.setTpl t) },
       { params := none
         retErr :=
           if (collected env (c.setTpl t) md).length > 0 then
             some (env.MultiErrorError ((collected env (c.setTpl t) md).map PrepError.Error))
           else none
         errs := { Errors := collected env (c.setTpl t) md } }) := by
  simp only [Builder.Prepare, hdec, htpl, validate_fst, MultiError.Error, validate_snd]

theorem Prepare_errs {R : Type} (b : Builder R) (raws : List Raw) (c : config)
    (md : Metadata) (t : Bool)
    (hdec : env.DecodeConfig b.config raws = (c, md, none))
    (htpl : env.NewConfigTemplate = (t, none)) :
    (b.Prepare env raws).2.errs.Errors = collected env (c.setTpl t) md := by
  rw [Prepare_eq env b raws c md t hdec htpl]

theorem Prepare_config {R : Type} (b : Builder R) (raws : List Raw) (c : config)
    (md : Metadata) (t : Bool)
    (hdec : env.DecodeConfig b.config raws = (c, md, none))
    (htpl : env.NewConfigTemplate = (t, none)) :
    (b.Prepare env raws).1.config = finalConfig env (c.setTpl t) := by
  rw [Prepare_eq env b raws c md t hdec htpl]

theorem Prepare_retErr {R : Type} (b : Builder R) (raws : List Raw) (c : config)
    (md : Metadata) (t : Bool)
    (hdec : env.DecodeConfig b.config raws = (c, md, none))
    (htpl : env.NewConfigTemplate = (t, none)) :
    (b.Prepare env raws).2.retErr =
      if (collected env (c.setTpl t) md).length > 0 then
        some (env.MultiErrorError ((collected env (c.setTpl t) md).map PrepError.Error))
      else none := by
  rw [Prepare_eq env b raws c md t hdec htpl]

/-- `Prepare` fails exactly when it collected something. -/
theorem Prepare_retErr_eq_none_iff {R : Type} (b : Builder R) (raws : List Raw) (c : config)
    (md : Metadata) (t : Bool)
    (hdec : env.DecodeConfig b.config raws = (c, md, none))
    (htpl : env.NewConfigTemplate = (t, none)) :
    (b.Prepare env raws).2.retErr = none ↔ collected env (c.setTpl t) md = [] := by
  rw [Prepare_retErr env b raws c md t hdec htpl]
  cases h : collected env (c.setTpl t) md <;> simp

theorem Prepare_retErr_ne_none_of_mem {R : Type} (b : Builder R) (raws : List Raw)
    (c : config) (md : Metadata) (t : Bool)
    (hdec : env.DecodeConfig b.config raws = (c, md, none))
    (htpl : env.NewConfigTemplate = (t, none)) (e : PrepError)
    (he : e ∈ collected env (c.setTpl t) md) :
    (b.Prepare env raws).2.retErr ≠ none := by
  rw [Ne, Prepare_retErr_eq_none_iff env b raws c md t hdec htpl]
  intro h
  rw [h] at he
  simp at he

/-! ### Required fields -/

theorem isRequired_block (e : PrepError) (h : e.isRequired = true) : e.block = .required := by
  cases e <;> first | rfl | simp [PrepError.isRequired] at h

/-- The required-field errors among everything collected: one for each
required field whose value is empty after the template loop, in source order. -/
theorem collected_required (c : config) (md : Metadata) (t : Bool) :
    (collected env (c.setTpl t) md).filter PrepError.isRequired =
      (Required.all.filter fun f => (env.Process f.key (c.get f.key)).1 = "").map
        PrepError.required := by
  rw [filter_collected env _ md _ .required isRequired_block]
  simp only [blockErrors, required_value, List.filter_map]
  congr 1
  apply List.filter_eq_self.mpr
  intro f _
  rfl

theorem Required.message_injective (f g : Required) (h : f.message = g.message) : f = g := by
  cases f <;> cases g <;> first | rfl | (simp [Required.message] at h)

/-! ### What each block reads, in terms of the decoded config -/

theorem setDefaults_setTpl_get (c : config) (t : Bool) (k : TemplKey) :
    (setDefaults (c.setTpl t)).get k = (setDefaults c).get k := by
  rw [setDefaults_eq, setDefaults_eq]
  cases k <;> rfl

theorem setDefaults_get (c : config) (k : TemplKey) (h1 : k ≠ .boot_wait)
    (h2 : k ≠ .ssh_wait_timeout) (h3 : k ≠ .output_directory) :
    (setDefaults c).get k = c.get k := by
  rw [setDefaults_eq]
  cases k <;> first | rfl | exact absurd rfl h1 | exact absurd rfl h2 | exact absurd rfl h3

/-- An entry of `templates` that defaulting leaves alone, as the checks read it. -/
theorem read_get (c : config) (t : Bool) (k : TemplKey) (h1 : k ≠ .boot_wait)
    (h2 : k ≠ .ssh_wait_timeout) (h3 : k ≠ .output_directory) :
    (afterDurations env (c.setTpl t)).get k = (env.Process k (c.get k)).1 := by
  rw [afterDurations_get, setDefaults_setTpl_get, setDefaults_get c k h1 h2 h3]

theorem read_SSHUser (c : config) (t : Bool) :
    (afterDurations env (c.setTpl t)).SSHUser = (env.Process .ssh_username c.SSHUser).1 :=
  read_get env c t .ssh_username (by decide) (by decide) (by decide)

theorem read_SSHKeyPath (c : config) (t : Bool) :
    (afterDurations env (c.setTpl t)).SSHKeyPath =
      (env.Process .ssh_key_path c.SSHKeyPath).1 :=
  read_get env c t .ssh_key_path (by decide) (by decide) (by decide)

theorem read_BootCommand (c : config) (t : Bool) :
    (afterDurations env (c.setTpl t)).BootCommand = c.BootCommand := by
  rw [afterDurations_proj env (fun c => c.BootCommand) (by intro c k v; cases k <;> rfl)
    (fun _ _ => rfl) (fun _ _ => rfl), setDefaults_eq]
  rfl

theorem config_RawBootWait_eq_get (c : config) : c.RawBootWait = c.get .boot_wait := rfl

theorem config_RawSSHWaitTimeout_eq_get (c : config) :
    c.RawSSHWaitTimeout = c.get .ssh_wait_timeout := rfl

theorem config_OutputDir_eq_get (c : config) : c.OutputDir = c.get .output_directory := rfl

theorem setDefaults_get_boot_wait (c : config) :
    (setDefaults c).get .boot_wait = if c.RawBootWait = "" then "5s" else c.RawBootWait := by
  rw [setDefaults_eq]
  rfl

theorem setDefaults_get_ssh_wait_timeout (c : config) :
    (setDefaults c).get .ssh_wait_timeout =
      if c.RawSSHWaitTimeout = "" then "200m" else c.RawSSHWaitTimeout := by
  rw [setDefaults_eq]
  rfl

theorem setDefaults_get_output_directory (c : config) :
    (setDefaults c).get .output_directory =
      if c.OutputDir = "" then "output-" ++ c.PackerBuildName else c.OutputDir := by
  rw [setDefaults_eq]
  rfl

theorem read_RawBootWait (c : config) (t : Bool) :
    (afterTemplates env (c.setTpl t)).RawBootWait =
      (env.Process .boot_wait (if c.RawBootWait = "" then "5s" else c.RawBootWait)).1 := by
  rw [config_RawBootWait_eq_get (afterTemplates env (c.setTpl t)), afterTemplates,
    templated_get, setDefaults_setTpl_get, setDefaults_get_boot_wait]

theorem read_RawSSHWaitTimeout (c : config) (t : Bool) :
    (afterTemplates env (c.setTpl t)).RawSSHWaitTimeout =
      (env.Process .ssh_wait_timeout
        (if c.RawSSHWaitTimeout = "" then "200m" else c.RawSSHWaitTimeout)).1 := by
  rw [config_RawSSHWaitTimeout_eq_get (afterTemplates env (c.setTpl t)), afterTemplates,
    templated_get, setDefaults_setTpl_get, setDefaults_get_ssh_wait_timeout]

/-- A field that only defaulting may write, at line 256. -/
theorem afterPlatform_proj {α : Type} (f : config → α)
    (hset : ∀ (c : config) (k : TemplKey) (v : String), f (c.set k v) = f c)
    (hbw : ∀ (c : config) (v : Int), f { c with BootWait := v } = f c)
    (hsw : ∀ (c : config) (v : Int), f { c with sshWaitTimeout := v } = f c)
    (hpa : ∀ (c : config) (v : GoMap), f { c with PlatformArgs := v } = f c)
    (c : config) : f (afterPlatform env c) = f (setDefaults c) := by
  rw [afterPlatform, setPlatformArgs_proj f hpa, afterDurations_proj env f hset hbw hsw]

theorem read_HTTPPortMin (c : config) (t : Bool) :
    (afterPlatform env (c.setTpl t)).HTTPPortMin =
      if c.HTTPPortMin = 0 then 8000 else c.HTTPPortMin := by
  rw [afterPlatform_proj env (fun c => c.HTTPPortMin) (by intro c k v; cases k <;> rfl)
    (fun _ _ => rfl) (fun _ _ => rfl) (fun _ _ => rfl), setDefaults_eq]
  rfl

theorem read_HTTPPortMax (c : config) (t : Bool) :
    (afterPlatform env (c.setTpl t)).HTTPPortMax =
      if c.HTTPPortMax = 0 then 9000 else c.HTTPPortMax := by
  rw [afterPlatform_proj env (fun c => c.HTTPPortMax) (by intro c k v; cases k <;> rfl)
    (fun _ _ => rfl) (fun _ _ => rfl) (fun _ _ => rfl), setDefaults_eq]
  rfl

theorem read_VncPortMin (c : config) (t : Bool) :
    (afterPlatform env (c.setTpl t)).VncPortMin =
      if c.VncPortMin = 0 then 5900 else c.VncPortMin := by
  rw [afterPlatform_proj env (fun c => c.VncPortMin) (by intro c k v; cases k <;> rfl)
    (fun _ _ => rfl) (fun _ _ => rfl) (fun _ _ => rfl), setDefaults_eq]
  rfl

theorem read_VncPortMax (c : config) (t : Bool) :
    (afterPlatform env (c.setTpl t)).VncPortMax =
      if c.VncPortMax = 0 then 6000 else c.VncPortMax := by
  rw [afterPlatform_proj env (fun c => c.VncPortMax) (by intro c k v; cases k <;> rfl)
    (fun _ _ => rfl) (fun _ _ => rfl) (fun _ _ => rfl), setDefaults_eq]
  rfl

theorem afterPlatform_get (c : config) (t : Bool) (k : TemplKey) (h1 : k ≠ .boot_wait)
    (h2 : k ≠ .ssh_wait_timeout) (h3 : k ≠ .output_directory) :
    (afterPlatform env (c.setTpl t)).get k = (env.Process k (c.get k)).1 := by
  rw [afterPlatform, setPlatformArgs_proj (fun c => c.get k)
    (by intro c v; cases k <;> rfl), read_get env c t k h1 h2 h3]

theorem read_ISOChecksumType (c : config) (t : Bool) :
    (afterPlatform env (c.setTpl t)).ISOChecksumType =
      (env.Process .iso_checksum_type c.ISOChecksumType).1 :=
  afterPlatform_get env c t .iso_checksum_type (by decide) (by decide) (by decide)

theorem read_ISOChecksum (c : config) (t : Bool) :
    (afterPlatform env (c.setTpl t)).ISOChecksum =
      (env.Process .iso_checksum c.ISOChecksum).1 :=
  afterPlatform_get env c t .iso_checksum (by decide) (by decide) (by decide)

/-- The field `ISOUrl` is not an entry of `templates`: line 288 reads it as decoded. -/
theorem read_ISOUrl (c : config) (t : Bool) :
    (afterChecksum env (c.setTpl t)).ISOUrl = c.ISOUrl := by
  rw [afterChecksum, checkChecksum_proj env (fun c => c.ISOUrl) (fun _ _ => rfl)
    (fun _ _ => rfl), afterPlatform_proj env (fun c => c.ISOUrl)
    (by intro c k v; cases k <;> rfl) (fun _ _ => rfl) (fun _ _ => rfl) (fun _ _ => rfl),
    setDefaults_eq]
  rfl

theorem read_ISOUrls (c : config) (t : Bool) :
    (afterChecksum env (c.setTpl t)).ISOUrls = c.ISOUrls := by
  rw [afterChecksum, checkChecksum_proj env (fun c => c.ISOUrls) (fun _ _ => rfl)
    (fun _ _ => rfl), afterPlatform_proj env (fun c => c.ISOUrls)
    (by intro c k v; cases k <;> rfl) (fun _ _ => rfl) (fun _ _ => rfl) (fun _ _ => rfl),
    setDefaults_eq]
  rfl

/-- The list of URLs the loop of line 295 walks. -/
theorem afterFold_ISOUrls (c : config) (t : Bool) :
    (afterFold env (c.setTpl t)).ISOUrls =
      if c.ISOUrl = "" then c.ISOUrls else [c.ISOUrl] := by
  have h1 := read_ISOUrl env c t
  have h2 := read_ISOUrls env c t
  rw [afterFold]
  simp only [foldIsoUrl, h1]
  split_ifs
  · exact h2
  · rfl

/-! ### When a block reports nothing -/

theorem templateErrors_eq_nil_iff (c : config) (l : List TemplKey) :
    templateErrors env c l = [] ↔ ∀ k ∈ l, (env.Process k (c.get k)).2 = none := by
  unfold templateErrors
  rw [List.filterMap_eq_nil_iff]
  constructor
  · intro h k hk
    have := h k hk
    cases hp : (env.Process k (c.get k)).2 with
    | none => rfl
    | some err => rw [hp] at this; simp at this
  · intro h k hk
    rw [h k hk]
    rfl

theorem parseDurations_eq_nil_iff (c : config) :
    (parseDurations env c {}).2.Errors = [] ↔
      (env.ParseDuration c.RawBootWait).2 = none ∧
        (env.ParseDuration c.RawSSHWaitTimeout).2 = none := by
  simp only [parseDurations]
  cases (env.ParseDuration c.RawBootWait).2 <;>
    cases (env.ParseDuration c.RawSSHWaitTimeout).2 <;>
    simp [MultiErrorAppend_Errors]

theorem validateBootCommand_eq_nil_iff (i : Nat) (l : List String) :
    (validateBootCommand env i l {}).Errors = [] ↔ ∀ cmd ∈ l, env.Validate cmd = none := by
  induction l generalizing i with
  | nil => simp [validateBootCommand]
  | cons command rest ih =>
    simp only [validateBootCommand]
    rw [validateBootCommand_Errors, List.append_eq_nil, ih (i + 1)]
    cases hv : env.Validate command <;> simp [hv, MultiErrorAppend_Errors]

theorem checkSSH_eq_nil_iff (c : config) :
    (checkSSH env c {}).Errors = [] ↔
      c.SSHUser ≠ "" ∧
        (c.SSHKeyPath = "" ∨
          (env.Stat c.SSHKeyPath = none ∧ env.FileSigner c.SSHKeyPath = none)) := by
  simp only [checkSSH]
  by_cases hu : c.SSHUser = "" <;> by_cases hk : c.SSHKeyPath = "" <;>
    cases hs : env.Stat c.SSHKeyPath <;> cases hf : env.FileSigner c.SSHKeyPath <;>
    simp [hu, hk, hs, hf, MultiErrorAppend_Errors]

theorem checkPorts_eq_nil_iff (c : config) :
    (checkPorts c {}).Errors = [] ↔
      c.HTTPPortMin ≤ c.HTTPPortMax ∧ c.VncPortMin ≤ c.VncPortMax := by
  simp only [checkPorts]
  by_cases h : c.HTTPPortMin > c.HTTPPortMax <;>
    by_cases v : c.VncPortMin > c.VncPortMax <;>
    simp [h, v, MultiErrorAppend_Errors]
  all_goals omega

theorem ToLower_empty : ToLower env "" = "" := rfl

/-- The checksum block reports nothing exactly when the lower-cased type is
`none`, or the type is not empty, known to the hash lookup, and comes with a
checksum. -/
theorem checkChecksum_eq_nil_iff (c : config) :
    (checkChecksum env c {}).2.Errors = [] ↔
      (ToLower env c.ISOChecksumType = "none" ∨
        (c.ISOChecksumType ≠ "" ∧ env.HashForType (ToLower env c.ISOChecksumType) = true ∧
          c.ISOChecksum ≠ "")) := by
  simp only [checkChecksum]
  by_cases hty : c.ISOChecksumType = ""
  · simp [hty, MultiErrorAppend_Errors, ToLower_empty]
  · by_cases hn : ToLower env c.ISOChecksumType = "none"
    · simp [hty, hn]
    · by_cases hck : c.ISOChecksum = "" <;>
        cases hh : env.HashForType (ToLower env c.ISOChecksumType) <;>
        simp [hty, hn, hck, hh, MultiErrorAppend_Errors]

theorem foldIsoUrl_eq_nil_iff (c : config) :
    (foldIsoUrl c {}).2.Errors = [] ↔ c.ISOUrl ≠ "" := by
  simp only [foldIsoUrl]
  by_cases h : c.ISOUrl = "" <;> simp [h, MultiErrorAppend_Errors]

theorem normalizeUrls_eq_nil_iff (i : Nat) (l : List String) :
    (normalizeUrls env i l {}).2.Errors = [] ↔
      ∀ url ∈ l, (env.DownloadableURL url).2 = none := by
  induction l generalizing i with
  | nil => simp [normalizeUrls]
  | cons url rest ih =>
    simp only [normalizeUrls]
    rw [normalizeUrls_snd, List.append_eq_nil, ih (i + 1)]
    cases hv : (env.DownloadableURL url).2 <;> simp [hv, MultiErrorAppend_Errors]

/-- Every entry of the list that fails to normalize is reported under its index. -/
theorem normalizeUrls_mem (i : Nat) (l : List String) (j : Nat) (url err : String)
    (hj : l[j]? = some url) (he : (env.DownloadableURL url).2 = some err) :
    PrepError.isoUrl (i + j) err ∈ (normalizeUrls env i l {}).2.Errors := by
  induction l generalizing i j with
  | nil => simp at hj
  | cons u rest ih =>
    simp only [normalizeUrls]
    rw [normalizeUrls_snd, List.mem_append]
    cases j with
    | zero =>
      simp only [List.getElem?_cons_zero, Option.some.injEq] at hj
      subst hj
      left
      simp [he, MultiErrorAppend_Errors]
    | succ j =>
      right
      simp only [List.getElem?_cons_succ] at hj
      have := ih (i + 1) j hj
      rwa [Nat.add_assoc, Nat.add_comm 1 j] at this

/-- `Prepare` collects nothing exactly when no block reports anything. -/
theorem collected_eq_nil_iff (c : config) (md : Metadata) :
    collected env c md = [] ↔ ∀ X : Block, blockErrors env c md X = [] := by
  simp only [collected, List.append_eq_nil]
  constructor
  · rintro ⟨⟨⟨⟨⟨⟨⟨⟨h1, h2⟩, h3⟩, h4⟩, h5⟩, h6⟩, h7⟩, h8⟩, h9⟩ X
    cases X
    · exact h1
    · exact h2
    · exact h3
    · exact h4
    · exact h5
    · exact h6
    · exact h7
    · exact h8
    · exact h9
  · intro h
    exact ⟨⟨⟨⟨⟨⟨⟨⟨h .unused, h .template⟩, h .duration⟩, h .bootCommand⟩, h .ssh⟩,
      h .required⟩, h .ports⟩, h .checksum⟩, h .media⟩

/-! ### The config `Prepare` leaves behind -/

/-- A field that the checksum block and the URL blocks do not write. -/
theorem finalConfig_of_afterPlatform {α : Type} (f : config → α)
    (hty : ∀ (c : config) (v : String), f { c with ISOChecksumType := v } = f c)
    (hck : ∀ (c : config) (v : String), f { c with ISOChecksum := v } = f c)
    (hu : ∀ (c : config) (v : List String), f { c with ISOUrls := v } = f c)
    (c : config) : f (finalConfig env c) = f (afterPlatform env c) := by
  rw [finalConfig, hu, afterFold, foldIsoUrl_proj f hu, afterChecksum,
    checkChecksum_proj env f hty hck]

theorem final_PlatformArgs (c : config) (t : Bool) :
    (finalConfig env (c.setTpl t)).PlatformArgs =
      if c.PlatformArgs.len = 0 then defaultPlatformArgs else c.PlatformArgs := by
  have h : (afterDurations env (c.setTpl t)).PlatformArgs = c.PlatformArgs := by
    rw [afterDurations_proj env (fun c => c.PlatformArgs) (by intro c k v; cases k <;> rfl)
      (fun _ _ => rfl) (fun _ _ => rfl), setDefaults_eq]
    rfl
  rw [finalConfig_of_afterPlatform env (fun c => c.PlatformArgs) (fun _ _ => rfl)
    (fun _ _ => rfl) (fun _ _ => rfl), afterPlatform, setPlatformArgs_eq]
  simp only [h]

theorem final_OutputDir (c : config) (t : Bool) :
    (finalConfig env (c.setTpl t)).OutputDir =
      (env.Process .output_directory
        (if c.OutputDir = "" then "output-" ++ c.PackerBuildName else c.OutputDir)).1 := by
  rw [config_OutputDir_eq_get (finalConfig env (c.setTpl t)),
    finalConfig_get env _ _ (by decide) (by decide), setDefaults_setTpl_get,
    setDefaults_get_output_directory]

theorem final_RawBootWait (c : config) (t : Bool) :
    (finalConfig env (c.setTpl t)).RawBootWait =
      (env.Process .boot_wait (if c.RawBootWait = "" then "5s" else c.RawBootWait)).1 := by
  rw [config_RawBootWait_eq_get (finalConfig env (c.setTpl t)),
    finalConfig_get env _ _ (by decide) (by decide), setDefaults_setTpl_get,
    setDefaults_get_boot_wait]

theorem final_RawSSHWaitTimeout (c : config) (t : Bool) :
    (finalConfig env (c.setTpl t)).RawSSHWaitTimeout =
      (env.Process .ssh_wait_timeout
        (if c.RawSSHWaitTimeout = "" then "200m" else c.RawSSHWaitTimeout)).1 := by
  rw [config_RawSSHWaitTimeout_eq_get (finalConfig env (c.setTpl t)),
    finalConfig_get env _ _ (by decide) (by decide), setDefaults_setTpl_get,
    setDefaults_get_ssh_wait_timeout]

theorem parseDurations_BootWait (c : config) (errs : MultiError) :
    (parseDurations env c errs).1.BootWait = (env.ParseDuration c.RawBootWait).1 := rfl

theorem parseDurations_sshWaitTimeout (c : config) (errs : MultiError) :
    (parseDurations env c errs).1.sshWaitTimeout =
      (env.ParseDuration c.RawSSHWaitTimeout).1 := rfl

theorem final_BootWait (c : config) (t : Bool) :
    (finalConfig env (c.setTpl t)).BootWait =
      (env.ParseDuration (finalConfig env (c.setTpl t)).RawBootWait).1 := by
  rw [final_RawBootWait, finalConfig_of_afterPlatform env (fun c => c.BootWait)
    (fun _ _ => rfl) (fun _ _ => rfl) (fun _ _ => rfl), afterPlatform,
    setPlatformArgs_proj (fun c => c.BootWait) (fun _ _ => rfl), afterDurations,
    parseDurations_BootWait, read_RawBootWait]

theorem final_sshWaitTimeout (c : config) (t : Bool) :
    (finalConfig env (c.setTpl t)).sshWaitTimeout =
      (env.ParseDuration (finalConfig env (c.setTpl t)).RawSSHWaitTimeout).1 := by
  rw [final_RawSSHWaitTimeout, finalConfig_of_afterPlatform env (fun c => c.sshWaitTimeout)
    (fun _ _ => rfl) (fun _ _ => rfl) (fun _ _ => rfl), afterPlatform,
    setPlatformArgs_proj (fun c => c.sshWaitTimeout) (fun _ _ => rfl), afterDurations,
    parseDurations_sshWaitTimeout, read_RawSSHWaitTimeout]

theorem final_HTTPPortMin (c : config) (t : Bool) :
    (finalConfig env (c.setTpl t)).HTTPPortMin =
      if c.HTTPPortMin = 0 then 8000 else c.HTTPPortMin := by
  rw [finalConfig_of_afterPlatform env (fun c => c.HTTPPortMin) (fun _ _ => rfl)
    (fun _ _ => rfl) (fun _ _ => rfl), read_HTTPPortMin]

theorem final_HTTPPortMax (c : config) (t : Bool) :
    (finalConfig env (c.setTpl t)).HTTPPortMax =
      if c.HTTPPortMax = 0 then 9000 else c.HTTPPortMax := by
  rw [finalConfig_of_afterPlatform env (fun c => c.HTTPPortMax) (fun _ _ => rfl)
    (fun _ _ => rfl) (fun _ _ => rfl), read_HTTPPortMax]

theorem final_VncPortMin (c : config) (t : Bool) :
    (finalConfig env (c.setTpl t)).VncPortMin =
      if c.VncPortMin = 0 then 5900 else c.VncPortMin := by
  rw [finalConfig_of_afterPlatform env (fun c => c.VncPortMin) (fun _ _ => rfl)
    (fun _ _ => rfl) (fun _ _ => rfl), read_VncPortMin]

theorem final_VncPortMax (c : config) (t : Bool) :
    (finalConfig env (c.setTpl t)).VncPortMax =
      if c.VncPortMax = 0 then 6000 else c.VncPortMax := by
  rw [finalConfig_of_afterPlatform env (fun c => c.VncPortMax) (fun _ _ => rfl)
    (fun _ _ => rfl) (fun _ _ => rfl), read_VncPortMax]

theorem config_ISOUrls_update (c : config) (v : List String) :
    ({ c with ISOUrls := v } : config).ISOUrls = v := rfl

theorem final_ISOUrls (c : config) (t : Bool) :
    (finalConfig env (c.setTpl t)).ISOUrls =
      (if c.ISOUrl = "" then c.ISOUrls else [c.ISOUrl]).map fun url =>
        (env.DownloadableURL url).1 := by
  rw [finalConfig, config_ISOUrls_update, afterFold_ISOUrls]

theorem final_SSHKeyPath (c : config) (t : Bool) :
    (finalConfig env (c.setTpl t)).SSHKeyPath =
      (env.Process .ssh_key_path c.SSHKeyPath).1 := by
  rw [← read_SSHKeyPath env c t, finalConfig_of_afterPlatform env (fun c => c.SSHKeyPath)
    (fun _ _ => rfl) (fun _ _ => rfl) (fun _ _ => rfl), afterPlatform,
    setPlatformArgs_proj (fun c => c.SSHKeyPath) (fun _ _ => rfl)]

theorem final_SSHUser (c : config) (t : Bool) :
    (finalConfig env (c.setTpl t)).SSHUser = (env.Process .ssh_username c.SSHUser).1 := by
  rw [← read_SSHUser env c t, finalConfig_of_afterPlatform env (fun c => c.SSHUser)
    (fun _ _ => rfl) (fun _ _ => rfl) (fun _ _ => rfl), afterPlatform,
    setPlatformArgs_proj (fun c => c.SSHUser) (fun _ _ => rfl)]

theorem final_SSHPassword (c : config) (t : Bool) :
    (finalConfig env (c.setTpl t)).SSHPassword =
      (env.Process .ssh_password c.SSHPassword).1 := by
  have h : (finalConfig env (c.setTpl t)).SSHPassword =
      (finalConfig env (c.setTpl t)).get .ssh_password := rfl
  rw [h, finalConfig_get env _ _ (by decide) (by decide), setDefaults_setTpl_get,
    setDefaults_get c _ (by decide) (by decide) (by decide)]
  rfl

/-! ### Acceptance, in terms of the decoded config -/

theorem mem_rangeOrder (k : TemplKey) : k ∈ env.rangeOrder := by
  rw [env.rangeOrder_perm.mem_iff]
  cases k <;> decide

theorem blockErrors_template_eq_nil_iff (c : config) (md : Metadata) (t : Bool) :
    blockErrors env (c.setTpl t) md .template = [] ↔
      ∀ k, (env.Process k ((setDefaults c).get k)).2 = none := by
  simp only [blockErrors]
  rw [templateErrors_eq_nil_iff]
  constructor
  · intro h k
    have := h k (mem_rangeOrder env k)
    rwa [setDefaults_setTpl_get] at this
  · intro h k _
    rw [setDefaults_setTpl_get]
    exact h k

theorem blockErrors_duration_eq_nil_iff (c : config) (md : Metadata) (t : Bool) :
    blockErrors env (c.setTpl t) md .duration = [] ↔
      (env.ParseDuration (env.Process .boot_wait
          (if c.RawBootWait = "" then "5s" else c.RawBootWait)).1).2 = none ∧
        (env.ParseDuration (env.Process .ssh_wait_timeout
          (if c.RawSSHWaitTimeout = "" then "200m" else c.RawSSHWaitTimeout)).1).2 = none := by
  simp only [blockErrors]
  rw [parseDurations_eq_nil_iff, read_RawBootWait, read_RawSSHWaitTimeout]

theorem blockErrors_bootCommand_eq_nil_iff (c : config) (md : Metadata) (t : Bool) :
    blockErrors env (c.setTpl t) md .bootCommand = [] ↔
      ∀ cmd ∈ c.BootCommand, env.Validate cmd = none := by
  simp only [blockErrors]
  rw [validateBootCommand_eq_nil_iff, read_BootCommand]

theorem blockErrors_ssh_eq_nil_iff (c : config) (md : Metadata) (t : Bool) :
    blockErrors env (c.setTpl t) md .ssh = [] ↔
      (env.Process .ssh_username c.SSHUser).1 ≠ "" ∧
        ((env.Process .ssh_key_path c.SSHKeyPath).1 = "" ∨
          (env.Stat (env.Process .ssh_key_path c.SSHKeyPath).1 = none ∧
            env.FileSigner (env.Process .ssh_key_path c.SSHKeyPath).1 = none)) := by
  simp only [blockErrors]
  rw [checkSSH_eq_nil_iff, read_SSHUser, read_SSHKeyPath]

theorem blockErrors_required_eq_nil_iff (c : config) (md : Metadata) (t : Bool) :
    blockErrors env (c.setTpl t) md .required = [] ↔
      ∀ f : Required, (env.Process f.key (c.get f.key)).1 ≠ "" := by
  simp only [blockErrors, required_value, List.map_eq_nil_iff, List.filter_eq_nil_iff,
    decide_eq_true_eq]
  constructor
  · intro h f
    exact h f (by cases f <;> decide)
  · intro h f _
    exact h f

theorem blockErrors_ports_eq_nil_iff (c : config) (md : Metadata) (t : Bool) :
    blockErrors env (c.setTpl t) md .ports = [] ↔
      (if c.HTTPPortMin = 0 then 8000 else c.HTTPPortMin) ≤
          (if c.HTTPPortMax = 0 then 9000 else c.HTTPPortMax) ∧
        (if c.VncPortMin = 0 then 5900 else c.VncPortMin) ≤
          (if c.VncPortMax = 0 then 6000 else c.VncPortMax) := by
  simp only [blockErrors]
  rw [checkPorts_eq_nil_iff, read_HTTPPortMin, read_HTTPPortMax, read_VncPortMin,
    read_VncPortMax]

theorem blockErrors_checksum_eq_nil_iff (c : config) (md : Metadata) (t : Bool) :
    blockErrors env (c.setTpl t) md .checksum = [] ↔
      (ToLower env (env.Process .iso_checksum_type c.ISOChecksumType).1 = "none" ∨
        ((env.Process .iso_checksum_type c.ISOChecksumType).1 ≠ "" ∧
          env.HashForType
            (ToLower env (env.Process .iso_checksum_type c.ISOChecksumType).1) = true ∧
          (env.Process .iso_checksum c.ISOChecksum).1 ≠ "")) := by
  simp only [blockErrors]
  rw [checkChecksum_eq_nil_iff, read_ISOChecksumType, read_ISOChecksum]

theorem blockErrors_media_eq_nil_iff (c : config) (md : Metadata) (t : Bool) :
    blockErrors env (c.setTpl t) md .media = [] ↔
      c.ISOUrl ≠ "" ∧ (env.DownloadableURL c.ISOUrl).2 = none := by
  simp only [blockErrors]
  rw [List.append_eq_nil, foldIsoUrl_eq_nil_iff, normalizeUrls_eq_nil_iff, read_ISOUrl,
    afterFold_ISOUrls]
  constructor
  · rintro ⟨h1, h2⟩
    rw [if_neg h1] at h2
    exact ⟨h1, h2 _ (List.mem_singleton_self _)⟩
  · rintro ⟨h1, h2⟩
    refine ⟨h1, ?_⟩
    rw [if_neg h1]
    intro url hu
    rw [List.mem_singleton.mp hu]
    exact h2

theorem ToLower_none : ToLower env "none" = "none" := rfl

theorem defaultPlatformArgs_eq :
    defaultPlatformArgs =
      [("viridian", "false"), ("nx", "true"), ("pae", "true"), ("apic", "true"),
        ("timeoffset", "0"), ("acpi", "1")] := by
  decide

/-! ### Checksum -/

theorem isChecksum_block (e : PrepError) (h : e.isChecksum = true) : e.block = .checksum := by
  cases e <;> first | rfl | simp [PrepError.isChecksum] at h

theorem block_checksum_isChecksum (e : PrepError) (h : e.block = .checksum) :
    e.isChecksum = true := by
  cases e <;> first | rfl | simp [PrepError.block] at h

/-- The checksum-related errors among everything collected are the errors of
the checksum block. -/
theorem collected_checksum (c : config) (md : Metadata) :
    (collected env c md).filter PrepError.isChecksum = blockErrors env c md .checksum := by
  rw [filter_collected env _ md _ .checksum isChecksum_block, List.filter_eq_self]
  intro e he
  exact block_checksum_isChecksum e (blockErrors_block env c md .checksum e he)

theorem checkChecksum_mem_typeMissing (c : config) :
    PrepError.checksumTypeMissing ∈ (checkChecksum env c {}).2.Errors ↔
      c.ISOChecksumType = "" := by
  simp only [checkChecksum]
  split_ifs <;> simp [MultiErrorAppend_Errors, *]

theorem checkChecksum_mem_missing (c : config) :
    PrepError.checksumMissing ∈ (checkChecksum env c {}).2.Errors ↔
      c.ISOChecksumType ≠ "" ∧ ToLower env c.ISOChecksumType ≠ "none" ∧
        c.ISOChecksum = "" := by
  simp only [checkChecksum]
  split_ifs <;> simp_all [MultiErrorAppend_Errors]

theorem checkChecksum_mem_unsupported (c : config) :
    PrepError.checksumUnsupported (ToLower env c.ISOChecksumType) ∈
        (checkChecksum env c {}).2.Errors ↔
      c.ISOChecksumType ≠ "" ∧ ToLower env c.ISOChecksumType ≠ "none" ∧
        env.HashForType (ToLower env c.ISOChecksumType) = false := by
  simp only [checkChecksum]
  split_ifs <;> simp_all [MultiErrorAppend_Errors]

theorem toLowerRune_of_toLower_lt (r : Char) (h : r.toLower.toNat < 128) :
    toLowerRune env r = r.toLower := by
  have hr : r.toNat < 128 := by
    by_cases hc : r.toNat ≥ 65 ∧ r.toNat ≤ 90
    · omega
    · have : r.toLower = r := by
        unfold Char.toLower
        simp only [hc, if_false]
      rwa [this] at h
  unfold toLowerRune
  rw [if_pos hr]

/-- On a string whose ASCII lower-casing spells `none`, whatever the letter
case, `strings.ToLower` returns `none`. -/
theorem ToLower_eq_none_of_ascii (s : String)
    (h : s.data.map Char.toLower = "none".data) : ToLower env s = "none" := by
  have hall : ∀ r ∈ s.data, toLowerRune env r = r.toLower := by
    intro r hr
    apply toLowerRune_of_toLower_lt
    have hm : r.toLower ∈ s.data.map Char.toLower := List.mem_map_of_mem _ hr
    rw [h] at hm
    have : ∀ x ∈ "none".data, x.toNat < 128 := by decide
    exact this _ hm
  unfold ToLower
  rw [List.map_congr_left hall, h]

/-! ### Ports, SSH user, acceptance -/

theorem checkPorts_mem_httpPort (c : config) :
    PrepError.httpPort ∈ (checkPorts c {}).Errors ↔ c.HTTPPortMin > c.HTTPPortMax := by
  simp only [checkPorts]
  by_cases h : c.HTTPPortMin > c.HTTPPortMax <;>
    by_cases v : c.VncPortMin > c.VncPortMax <;> simp [h, v, MultiErrorAppend_Errors]

theorem checkPorts_mem_vncPort (c : config) :
    PrepError.vncPort ∈ (checkPorts c {}).Errors ↔ c.VncPortMin > c.VncPortMax := by
  simp only [checkPorts]
  by_cases h : c.HTTPPortMin > c.HTTPPortMax <;>
    by_cases v : c.VncPortMin > c.VncPortMax <;> simp [h, v, MultiErrorAppend_Errors]

theorem checkSSH_count_sshUsername (c : config) :
    (checkSSH env c {}).Errors.count .sshUsername = if c.SSHUser = "" then 1 else 0 := by
  simp only [checkSSH]
  by_cases hu : c.SSHUser = "" <;> by_cases hk : c.SSHKeyPath = "" <;>
    cases hs : env.Stat c.SSHKeyPath <;> cases hf : env.FileSigner c.SSHKeyPath <;>
    simp [hu, hk, hs, hf, MultiErrorAppend_Errors]

/-- `Prepare` collects nothing exactly when the decoded config passes every
check; the SSH password is not among them. -/
theorem collected_eq_nil_iff_decoded (c : config) (md : Metadata) (t : Bool) :
    collected env (c.setTpl t) md = [] ↔
      (unusedErrors env md).Errors = []
        ∧ (∀ k, (env.Process k ((setDefaults c).get k)).2 = none)
        ∧ ((env.ParseDuration (env.Process .boot_wait
              (if c.RawBootWait = "" then "5s" else c.RawBootWait)).1).2 = none ∧
            (env.ParseDuration (env.Process .ssh_wait_timeout
              (if c.RawSSHWaitTimeout = "" then "200m" else c.RawSSHWaitTimeout)).1).2 =
              none)
        ∧ (∀ cmd ∈ c.BootCommand, env.Validate cmd = none)
        ∧ ((env.Process .ssh_username c.SSHUser).1 ≠ "" ∧
            ((env.Process .ssh_key_path c.SSHKeyPath).1 = "" ∨
              (env.Stat (env.Process .ssh_key_path c.SSHKeyPath).1 = none ∧
                env.FileSigner (env.Process .ssh_key_path c.SSHKeyPath).1 = none)))
        ∧ (∀ f : Required, (env.Process f.key (c.get f.key)).1 ≠ "")
        ∧ ((if c.HTTPPortMin = 0 then 8000 else c.HTTPPortMin) ≤
              (if c.HTTPPortMax = 0 then 9000 else c.HTTPPortMax) ∧
            (if c.VncPortMin = 0 then 5900 else c.VncPortMin) ≤
              (if c.VncPortMax = 0 then 6000 else c.VncPortMax))
        ∧ (ToLower env (env.Process .iso_checksum_type c.ISOChecksumType).1 = "none" ∨
            ((env.Process .iso_checksum_type c.ISOChecksumType).1 ≠ "" ∧
              env.HashForType
                (ToLower env (env.Process .iso_checksum_type c.ISOChecksumType).1) = true ∧
              (env.Process .iso_checksum c.ISOChecksum).1 ≠ ""))
        ∧ (c.ISOUrl ≠ "" ∧ (env.DownloadableURL c.ISOUrl).2 = none) := by
  rw [collected_eq_nil_iff, ← blockErrors_template_eq_nil_iff env c md t,
    ← blockErrors_duration_eq_nil_iff env c md t,
    ← blockErrors_bootCommand_eq_nil_iff env c md t, ← blockErrors_ssh_eq_nil_iff env c md t,
    ← blockErrors_required_eq_nil_iff env c md t, ← blockErrors_ports_eq_nil_iff env c md t,
    ← blockErrors_checksum_eq_nil_iff env c md t, ← blockErrors_media_eq_nil_iff env c md t]
  constructor
  · intro h
    exact ⟨h .unused, h .template, h .duration, h .bootCommand, h .ssh, h .required,
      h .ports, h .checksum, h .media⟩
  · rintro ⟨h1, h2, h3, h4, h5, h6, h7, h8, h9⟩ X
    cases X
    · exact h1
    · exact h2
    · exact h3
    · exact h4
    · exact h5
    · exact h6
    · exact h7
    · exact h8
    · exact h9

/-! ### Template errors and the missing URL -/

theorem isTemplateOf_block (k : TemplKey) (e : PrepError)
    (h : e.isTemplateOf k = true) : e.block = .template := by
  cases e <;> first | rfl | simp [PrepError.isTemplateOf] at h

/-- Among the errors of the template loop over distinct keys, the entry `k`
has one error when its `Process` call fails and none otherwise. -/
theorem templateErrors_filter (c : config) (l : List TemplKey) (hl : l.Nodup)
    (k : TemplKey) :
    (templateErrors env c l).filter (PrepError.isTemplateOf k) =
      if k ∈ l then ((env.Process k (c.get k)).2.map (PrepError.template k)).toList
      else [] := by
  induction l with
  | nil => simp [templateErrors]
  | cons n rest ih =>
    have hn : n ∉ rest := (List.nodup_cons.mp hl).1
    have hr : rest.Nodup := (List.nodup_cons.mp hl).2
    have hrest := ih hr
    unfold templateErrors at hrest ⊢
    rw [List.filterMap_cons]
    by_cases hk : k = n
    · subst hk
      rw [if_neg hn] at hrest
      cases hp : (env.Process k (c.get k)).2 with
      | none => simp [hp, hrest]
      | some err => simp [hp, hrest, PrepError.isTemplateOf]
    · have hmem : (if k ∈ n :: rest then
            ((env.Process k (c.get k)).2.map (PrepError.template k)).toList else []) =
          if k ∈ rest then
            ((env.Process k (c.get k)).2.map (PrepError.template k)).toList else [] := by
        simp only [List.mem_cons, hk, false_or]
      rw [hmem, ← hrest]
      cases hp : (env.Process n (c.get n)).2 with
      | none => simp [hp]
      | some err =>
        have : PrepError.isTemplateOf k (PrepError.template n err) = false := by
          have hnk : ¬ n = k := fun e => hk e.symm
          simp [PrepError.isTemplateOf, hnk]
        simp [hp, this]

/-- The template errors `Prepare` collects for one entry of `templates`. -/
theorem collected_template (c : config) (md : Metadata) (t : Bool) (k : TemplKey) :
    (collected env (c.setTpl t) md).filter (PrepError.isTemplateOf k) =
      ((env.Process k ((setDefaults c).get k)).2.map (PrepError.template k)).toList := by
  rw [filter_collected env _ md _ .template (isTemplateOf_block k)]
  show (templateErrors env (setDefaults (c.setTpl t)) env.rangeOrder).filter _ = _
  rw [templateErrors_filter env _ _ (rangeOrder_nodup env), if_pos (mem_rangeOrder env k),
    setDefaults_setTpl_get]

/-- Whatever a block reports is among the collected errors. -/
theorem blockErrors_subset_collected (c : config) (md : Metadata) (X : Block)
    (e : PrepError) (he : e ∈ blockErrors env c md X) : e ∈ collected env c md := by
  rw [mem_collected_iff, blockErrors_block env c md X e he]
  exact he

theorem foldIsoUrl_mem_isoUrlMissing (c : config) :
    PrepError.isoUrlMissing ∈ (foldIsoUrl c {}).2.Errors ↔ c.ISOUrl = "" := by
  simp only [foldIsoUrl]
  by_cases h : c.ISOUrl = "" <;> simp [h, MultiErrorAppend_Errors]

theorem collected_mem_isoUrlMissing (c : config) (md : Metadata) (t : Bool)
    (h : c.ISOUrl = "") : PrepError.isoUrlMissing ∈ collected env (c.setTpl t) md := by
  rw [mem_collected_iff]
  show _ ∈ (foldIsoUrl (afterChecksum env (c.setTpl t)) {}).2.Errors
    ++ (normalizeUrls env 0 (afterFold env (c.setTpl t)).ISOUrls {}).2.Errors
  rw [List.mem_append]
  left
  rw [foldIsoUrl_mem_isoUrlMissing, read_ISOUrl]
  exact h

theorem final_IsoUrl (c : config) (t : Bool) :
    (finalConfig env (c.setTpl t)).IsoUrl = (env.Process .iso_url c.IsoUrl).1 := by
  have h : (finalConfig env (c.setTpl t)).IsoUrl =
      (finalConfig env (c.setTpl t)).get .iso_url := rfl
  rw [h, finalConfig_get env _ _ (by decide) (by decide), setDefaults_setTpl_get,
    setDefaults_get c _ (by decide) (by decide) (by decide)]
  rfl

/-! ### `Run` and `Cancel` -/

theorem Run_of_login_error (env : RunEnv) (self : Builder BasicRunner) (ui : Ui)
    (hook : Hook) (cache : Cache) (e : String)
    (hlogin : env.Login self.config.client = some e) :
    self.Run env ui hook cache =
      (self,
        { ret := .returned none (some e)
          trace := [.NewXenAPIClient self.config.HostIp self.config.Username
            self.config.Password, .Login] }) := by
  simp only [Builder.Run, hlogin]

theorem Run_builder (env : RunEnv) (self : Builder BasicRunner) (ui : Ui)
    (hook : Hook) (cache : Cache) (hlogin : env.Login self.config.client = none) :
    (self.Run env ui hook cache).1 =
      { self with runner := some { Steps := self.config.steps } } := by
  simp only [Builder.Run, hlogin]
  split <;> rfl

theorem Run_trace (env : RunEnv) (self : Builder BasicRunner) (ui : Ui)
    (hook : Hook) (cache : Cache) (hlogin : env.Login self.config.client = none) :
    (self.Run env ui hook cache).2.trace =
      runTrace self.config self.config.client ui hook cache ++ [.GetOk "error"] := by
  simp only [Builder.Run, hlogin]
  split <;> rfl

theorem Run_ret_of_error (env : RunEnv) (self : Builder BasicRunner) (ui : Ui)
    (hook : Hook) (cache : Cache) (e : String)
    (hlogin : env.Login self.config.client = none)
    (herr : (self.pipelineState env ui hook cache).GetOk "error" = some (.error e)) :
    (self.Run env ui hook cache).2.ret = .returned none (some e) := by
  simp only [Builder.pipelineState] at herr
  simp only [Builder.Run, hlogin, herr]

theorem Run_ret_of_no_error (env : RunEnv) (self : Builder BasicRunner) (ui : Ui)
    (hook : Hook) (cache : Cache)
    (hlogin : env.Login self.config.client = none)
    (herr : (self.pipelineState env ui hook cache).GetOk "error" = none) :
    (self.Run env ui hook cache).2.ret =
      .returned (env.NewArtifact self.config.OutputDir).1 none := by
  simp only [Builder.pipelineState] at herr
  simp only [Builder.Run, hlogin, herr]

theorem runTrace_filter_isNewArtifact (c : config) (client : XenAPIClient) (ui : Ui)
    (hook : Hook) (cache : Cache) :
    (runTrace c client ui hook cache ++ [Event.GetOk "error"]).filter Event.isNewArtifact =
      [.NewArtifact c.OutputDir] := rfl

/-! ### A second `Prepare` with the same input -/

theorem config_eq_of_fields (a b : config)
    (hget : ∀ k, a.get k = b.get k)
    (hname : a.toPackerConfig = b.toPackerConfig)
    (hvmin : a.VncPortMin = b.VncPortMin) (hvmax : a.VncPortMax = b.VncPortMax)
    (hboot : a.BootCommand = b.BootCommand)
    (hbw : a.BootWait = b.BootWait) (hsw : a.sshWaitTimeout = b.sshWaitTimeout)
    (hurls : a.ISOUrls = b.ISOUrls) (hurl : a.ISOUrl = b.ISOUrl)
    (hhmin : a.HTTPPortMin = b.HTTPPortMin) (hhmax : a.HTTPPortMax = b.HTTPPortMax)
    (hpa : a.PlatformArgs = b.PlatformArgs) (htpl : a.tpl = b.tpl) : a = b := by
  cases a
  cases b
  simp only [config.mk.injEq]
  exact ⟨hname, hget .username, hget .password, hget .host_ip, hget .iso_url,
    hget .instance_name, hget .root_disk_size, hget .clone_template, hget .iso_uuid,
    hget .sr_uuid, hget .network_uuid, hvmin, hvmax, hboot, hget .boot_wait, hbw, hsw,
    hget .iso_checksum, hget .iso_checksum_type, hurls, hurl, hget .http_directory,
    hhmin, hhmax, hget .local_ip, hpa, hget .ssh_wait_timeout, hget .ssh_password,
    hget .ssh_username, hget .ssh_key_path, hget .output_directory, htpl⟩

theorem withLate_get (c : config) (pa : GoMap) (urls : List String) (k : TemplKey) :
    (c.withLate pa urls).get k = c.get k := by
  cases k <;> rfl

theorem withLate_fields (c : config) (pa : GoMap) (urls : List String) :
    (c.withLate pa urls).toPackerConfig = c.toPackerConfig
      ∧ (c.withLate pa urls).VncPortMin = c.VncPortMin
      ∧ (c.withLate pa urls).VncPortMax = c.VncPortMax
      ∧ (c.withLate pa urls).HTTPPortMin = c.HTTPPortMin
      ∧ (c.withLate pa urls).HTTPPortMax = c.HTTPPortMax
      ∧ (c.withLate pa urls).BootCommand = c.BootCommand
      ∧ (c.withLate pa urls).ISOUrl = c.ISOUrl
      ∧ (c.withLate pa urls).ISOUrls = urls
      ∧ (c.withLate pa urls).PlatformArgs = pa
      ∧ (c.withLate pa urls).tpl = c.tpl
      ∧ (c.withLate pa urls).BootWait = c.BootWait
      ∧ (c.withLate pa urls).sshWaitTimeout = c.sshWaitTimeout :=
  ⟨rfl, rfl, rfl, rfl, rfl, rfl, rfl, rfl, rfl, rfl, rfl, rfl⟩

/-- What the blocks up to line 173 leave of the fields they do not write. -/
theorem afterDurations_fields (c : config) (t : Bool) :
    (afterDurations env (c.setTpl t)).toPackerConfig = c.toPackerConfig
      ∧ (afterDurations env (c.setTpl t)).VncPortMin =
        (if c.VncPortMin = 0 then 5900 else c.VncPortMin)
      ∧ (afterDurations env (c.setTpl t)).VncPortMax =
        (if c.VncPortMax = 0 then 6000 else c.VncPortMax)
      ∧ (afterDurations env (c.setTpl t)).HTTPPortMin =
        (if c.HTTPPortMin = 0 then 8000 else c.HTTPPortMin)
      ∧ (afterDurations env (c.setTpl t)).HTTPPortMax =
        (if c.HTTPPortMax = 0 then 9000 else c.HTTPPortMax)
      ∧ (afterDurations env (c.setTpl t)).BootCommand = c.BootCommand
      ∧ (afterDurations env (c.setTpl t)).ISOUrl = c.ISOUrl
      ∧ (afterDurations env (c.setTpl t)).ISOUrls = c.ISOUrls
      ∧ (afterDurations env (c.setTpl t)).PlatformArgs = c.PlatformArgs
      ∧ (afterDurations env (c.setTpl t)).tpl = t := by
  refine ⟨?_, ?_, ?_, ?_, ?_, ?_, ?_, ?_, ?_, ?_⟩
  · rw [afterDurations_proj env (fun c => c.toPackerConfig)
      (by intro c k v; cases k <;> rfl) (fun _ _ => rfl) (fun _ _ => rfl), setDefaults_eq]
    rfl
  · rw [afterDurations_proj env (fun c => c.VncPortMin)
      (by intro c k v; cases k <;> rfl) (fun _ _ => rfl) (fun _ _ => rfl), setDefaults_eq]
    rfl
  · rw [afterDurations_proj env (fun c => c.VncPortMax)
      (by intro c k v; cases k <;> rfl) (fun _ _ => rfl) (fun _ _ => rfl), setDefaults_eq]
    rfl
  · rw [afterDurations_proj env (fun c => c.HTTPPortMin)
      (by intro c k v; cases k <;> rfl) (fun _ _ => rfl) (fun _ _ => rfl), setDefaults_eq]
    rfl
  · rw [afterDurations_proj env (fun c => c.HTTPPortMax)
      (by intro c k v; cases k <;> rfl) (fun _ _ => rfl) (fun _ _ => rfl), setDefaults_eq]
    rfl
  · rw [afterDurations_proj env (fun c => c.BootCommand)
      (by intro c k v; cases k <;> rfl) (fun _ _ => rfl) (fun _ _ => rfl), setDefaults_eq]
    rfl
  · rw [afterDurations_proj env (fun c => c.ISOUrl)
      (by intro c k v; cases k <;> rfl) (fun _ _ => rfl) (fun _ _ => rfl), setDefaults_eq]
    rfl
  · rw [afterDurations_proj env (fun c => c.ISOUrls)
      (by intro c k v; cases k <;> rfl) (fun _ _ => rfl) (fun _ _ => rfl), setDefaults_eq]
    rfl
  · rw [afterDurations_proj env (fun c => c.PlatformArgs)
      (by intro c k v; cases k <;> rfl) (fun _ _ => rfl) (fun _ _ => rfl), setDefaults_eq]
    rfl
  · rw [afterDurations_proj env (fun c => c.tpl)
      (by intro c k v; cases k <;> rfl) (fun _ _ => rfl) (fun _ _ => rfl), setDefaults_eq]
    rfl

theorem afterTemplates_get (c : config) (k : TemplKey) :
    (afterTemplates env c).get k = (env.Process k ((setDefaults c).get k)).1 := by
  rw [afterTemplates, templated_get]

theorem afterDurations_BootWait (c : config) :
    (afterDurations env c).BootWait =
      (env.ParseDuration (env.Process .boot_wait ((setDefaults c).get .boot_wait)).1).1 := by
  rw [afterDurations, parseDurations_BootWait, config_RawBootWait_eq_get,
    afterTemplates_get]

theorem afterDurations_sshWaitTimeout (c : config) :
    (afterDurations env c).sshWaitTimeout =
      (env.ParseDuration
        (env.Process .ssh_wait_timeout ((setDefaults c).get .ssh_wait_timeout)).1).1 := by
  rw [afterDurations, parseDurations_sshWaitTimeout, config_RawSSHWaitTimeout_eq_get,
    afterTemplates_get]

/-- The config at line 173 for two decoded configs that agree on what the
blocks up to there read: they differ in the platform arguments and the list
of URLs at most. -/
theorem afterDurations_congr (c c2 : config) (t : Bool)
    (hP : ∀ k, env.Process k ((setDefaults c2).get k) = env.Process k ((setDefaults c).get k))
    (hname : c2.toPackerConfig = c.toPackerConfig)
    (hvmin : (if c2.VncPortMin = 0 then 5900 else c2.VncPortMin) =
      if c.VncPortMin = 0 then 5900 else c.VncPortMin)
    (hvmax : (if c2.VncPortMax = 0 then 6000 else c2.VncPortMax) =
      if c.VncPortMax = 0 then 6000 else c.VncPortMax)
    (hhmin : (if c2.HTTPPortMin = 0 then 8000 else c2.HTTPPortMin) =
      if c.HTTPPortMin = 0 then 8000 else c.HTTPPortMin)
    (hhmax : (if c2.HTTPPortMax = 0 then 9000 else c2.HTTPPortMax) =
      if c.HTTPPortMax = 0 then 9000 else c.HTTPPortMax)
    (hboot : c2.BootCommand = c.BootCommand) (hurl : c2.ISOUrl = c.ISOUrl) :
    afterDurations env (c2.setTpl t) =
      (afterDurations env (c.setTpl t)).withLate c2.PlatformArgs c2.ISOUrls := by
  obtain ⟨a1, a2, a3, a4, a5, a6, a7, a8, a9, a10⟩ := afterDurations_fields env c2 t
  obtain ⟨b1, b2, b3, b4, b5, b6, b7, -, -, b10⟩ := afterDurations_fields env c t
  obtain ⟨w1, w2, w3, w4, w5, w6, w7, w8, w9, w10, w11, w12⟩ :=
    withLate_fields (afterDurations env (c.setTpl t)) c2.PlatformArgs c2.ISOUrls
  apply config_eq_of_fields
  · intro k
    rw [withLate_get, afterDurations_get, afterDurations_get, setDefaults_setTpl_get,
      setDefaults_setTpl_get, hP]
  · rw [a1, w1, b1, hname]
  · rw [a2, w2, b2, hvmin]
  · rw [a3, w3, b3, hvmax]
  · rw [a6, w6, b6, hboot]
  · rw [w11, afterDurations_BootWait, afterDurations_BootWait, setDefaults_setTpl_get,
      setDefaults_setTpl_get, hP]
  · rw [w12, afterDurations_sshWaitTimeout, afterDurations_sshWaitTimeout,
      setDefaults_setTpl_get, setDefaults_setTpl_get, hP]
  · rw [a8, w8]
  · rw [a7, w7, b7, hurl]
  · rw [a4, w4, b4, hhmin]
  · rw [a5, w5, b5, hhmax]
  · rw [a9, w9]
  · rw [a10, w10, b10]

theorem checkSSH_withLate (c : config) (pa : GoMap) (urls : List String) (errs : MultiError) :
    checkSSH env (c.withLate pa urls) errs = checkSSH env c errs := rfl

theorem checkPorts_withLate (c : config) (pa : GoMap) (urls : List String)
    (errs : MultiError) : checkPorts (c.withLate pa urls) errs = checkPorts c errs := rfl

theorem Required_value_withLate (c : config) (pa : GoMap) (urls : List String)
    (f : Required) : Required.value (c.withLate pa urls) f = Required.value c f :=
  withLate_get c pa urls f.key

theorem setPlatformArgs_withLate (c : config) (pa : GoMap) (urls : List String) :
    setPlatformArgs (c.withLate pa urls) =
      (setPlatformArgs c).withLate (if pa.len = 0 then defaultPlatformArgs else pa) urls := by
  rw [setPlatformArgs_eq, setPlatformArgs_eq]
  rfl

theorem setPlatformArgs_PlatformArgs (c : config) :
    (setPlatformArgs c).PlatformArgs =
      if c.PlatformArgs.len = 0 then defaultPlatformArgs else c.PlatformArgs := by
  rw [setPlatformArgs_eq]

theorem checkChecksum_withLate (c : config) (pa : GoMap) (urls : List String)
    (errs : MultiError) :
    checkChecksum env (c.withLate pa urls) errs =
      ((checkChecksum env c errs).1.withLate pa urls, (checkChecksum env c errs).2) := by
  have h1 : (c.withLate pa urls).ISOChecksumType = c.ISOChecksumType := rfl
  have h2 : (c.withLate pa urls).ISOChecksum = c.ISOChecksum := rfl
  by_cases hty : c.ISOChecksumType = ""
  · simp only [checkChecksum, h1, hty, if_true]
  · by_cases hnone : ToLower env c.ISOChecksumType = "none"
    · simp only [checkChecksum, h1, hty, if_false, hnone, ne_eq, not_true_eq_false]
      rfl
    · by_cases hck : c.ISOChecksum = ""
      · have hck2 : (c.withLate pa urls).ISOChecksum = "" := hck
        simp only [checkChecksum, h1, hty, if_false, hnone, ne_eq, not_false_eq_true,
          if_true, hck, hck2]
        split_ifs <;> rfl
      · have hck2 : ¬ (c.withLate pa urls).ISOChecksum = "" := hck
        simp only [checkChecksum, h1, hty, if_false, hnone, ne_eq, not_false_eq_true,
          if_true, hck, hck2]
        split_ifs <;> rfl

theorem foldIsoUrl_withLate (c : config) (pa : GoMap) (urls : List String)
    (errs : MultiError) :
    foldIsoUrl (c.withLate pa urls) errs =
      ((foldIsoUrl c errs).1.withLate pa (if c.ISOUrl = "" then urls else [c.ISOUrl]),
        (foldIsoUrl c errs).2) := by
  have h1 : (c.withLate pa urls).ISOUrl = c.ISOUrl := rfl
  simp only [foldIsoUrl, h1]
  split_ifs <;> rfl

theorem parseDurations_snd_congr (a b : config) (errs : MultiError)
    (h1 : a.RawBootWait = b.RawBootWait) (h2 : a.RawSSHWaitTimeout = b.RawSSHWaitTimeout) :
    (parseDurations env a errs).2 = (parseDurations env b errs).2 := by
  simp only [parseDurations, h1, h2]

theorem templateErrors_congr (a b : config) (l : List TemplKey)
    (h : ∀ k, env.Process k (a.get k) = env.Process k (b.get k)) :
    templateErrors env a l = templateErrors env b l := by
  unfold templateErrors
  congr 1
  funext n
  rw [h]

/-- The blocks of `Prepare` give the same config and the same errors for two
decoded configs that agree on what the blocks read: the results of the
templating pass, the build name, the ports after defaulting, the boot
commands, the single URL, the platform arguments after defaulting, and the
list of URLs unless the single URL replaces it. -/
theorem validate_congr (c c2 : config) (md : Metadata) (t : Bool)
    (hP : ∀ k, env.Process k ((setDefaults c2).get k) = env.Process k ((setDefaults c).get k))
    (hname : c2.toPackerConfig = c.toPackerConfig)
    (hvmin : (if c2.VncPortMin = 0 then 5900 else c2.VncPortMin) =
      if c.VncPortMin = 0 then 5900 else c.VncPortMin)
    (hvmax : (if c2.VncPortMax = 0 then 6000 else c2.VncPortMax) =
      if c.VncPortMax = 0 then 6000 else c.VncPortMax)
    (hhmin : (if c2.HTTPPortMin = 0 then 8000 else c2.HTTPPortMin) =
      if c.HTTPPortMin = 0 then 8000 else c.HTTPPortMin)
    (hhmax : (if c2.HTTPPortMax = 0 then 9000 else c2.HTTPPortMax) =
      if c.HTTPPortMax = 0 then 9000 else c.HTTPPortMax)
    (hboot : c2.BootCommand = c.BootCommand) (hurl : c2.ISOUrl = c.ISOUrl)
    (hpa : (if c2.PlatformArgs.len = 0 then defaultPlatformArgs else c2.PlatformArgs) =
      if c.PlatformArgs.len = 0 then defaultPlatformArgs else c.PlatformArgs)
    (hurls : c2.ISOUrls = c.ISOUrls ∨ c.ISOUrl ≠ "") :
    finalConfig env (c2.setTpl t) = finalConfig env (c.setTpl t)
      ∧ collected env (c2.setTpl t) md = collected env (c.setTpl t) md := by
  have hP' : ∀ k, env.Process k ((setDefaults (c2.setTpl t)).get k) =
      env.Process k ((setDefaults (c.setTpl t)).get k) := by
    intro k
    rw [setDefaults_setTpl_get, setDefaults_setTpl_get, hP]
  have hX := afterDurations_congr env c c2 t hP hname hvmin hvmax hhmin hhmax hboot hurl
  have hPA : (afterPlatform env (c.setTpl t)).PlatformArgs =
      if c.PlatformArgs.len = 0 then defaultPlatformArgs else c.PlatformArgs := by
    rw [afterPlatform, setPlatformArgs_PlatformArgs,
      (afterDurations_fields env c t).2.2.2.2.2.2.2.2.1]
  have hPl : afterPlatform env (c2.setTpl t) =
      (afterPlatform env (c.setTpl t)).withLate (afterPlatform env (c.setTpl t)).PlatformArgs
        c2.ISOUrls := by
    rw [hPA, afterPlatform, hX, setPlatformArgs_withLate, hpa, afterPlatform]
  have hCPA : (afterChecksum env (c.setTpl t)).PlatformArgs =
      (afterPlatform env (c.setTpl t)).PlatformArgs := by
    rw [afterChecksum, checkChecksum_proj env (fun c => c.PlatformArgs) (fun _ _ => rfl)
      (fun _ _ => rfl)]
  have hCk : checkChecksum env (afterPlatform env (c2.setTpl t)) {} =
      ((afterChecksum env (c.setTpl t)).withLate (afterChecksum env (c.setTpl t)).PlatformArgs
        c2.ISOUrls, (checkChecksum env (afterPlatform env (c.setTpl t)) {}).2) := by
    rw [hCPA, hPl, checkChecksum_withLate, afterChecksum]
  have hC : afterChecksum env (c2.setTpl t) =
      (afterChecksum env (c.setTpl t)).withLate (afterChecksum env (c.setTpl t)).PlatformArgs
        c2.ISOUrls := by
    rw [afterChecksum, hCk]
  have hFold : foldIsoUrl (afterChecksum env (c2.setTpl t)) {} =
      foldIsoUrl (afterChecksum env (c.setTpl t)) {} := by
    rw [hC, foldIsoUrl_withLate, read_ISOUrl]
    have hself : ∀ x : config, ((foldIsoUrl x {}).1.withLate x.PlatformArgs
        (if x.ISOUrl = "" then x.ISOUrls else [x.ISOUrl]), (foldIsoUrl x {}).2) =
        foldIsoUrl x {} := by
      intro x
      simp only [foldIsoUrl]
      split_ifs <;> rfl
    rcases hurls with h | h
    · rw [h, ← read_ISOUrls env c t, ← read_ISOUrl env c t]
      exact hself _
    · rw [if_neg h]
      have := hself (afterChecksum env (c.setTpl t))
      rw [read_ISOUrl, if_neg h] at this
      exact this
  have hF : afterFold env (c2.setTpl t) = afterFold env (c.setTpl t) := by
    rw [afterFold, hFold, afterFold]
  constructor
  · rw [finalConfig, hF, finalConfig]
  · have h2 : blockErrors env (c2.setTpl t) md .template =
        blockErrors env (c.setTpl t) md .template :=
      templateErrors_congr env _ _ _ hP'
    have h3 : blockErrors env (c2.setTpl t) md .duration =
        blockErrors env (c.setTpl t) md .duration := by
      show (parseDurations env (afterTemplates env (c2.setTpl t)) {}).2.Errors =
        (parseDurations env (afterTemplates env (c.setTpl t)) {}).2.Errors
      rw [parseDurations_snd_congr env (afterTemplates env (c2.setTpl t))
        (afterTemplates env (c.setTpl t)) {}
        (by rw [config_RawBootWait_eq_get, config_RawBootWait_eq_get, afterTemplates_get,
          afterTemplates_get, hP'])
        (by rw [config_RawSSHWaitTimeout_eq_get, config_RawSSHWaitTimeout_eq_get,
          afterTemplates_get, afterTemplates_get, hP'])]
    have h4 : blockErrors env (c2.setTpl t) md .bootCommand =
        blockErrors env (c.setTpl t) md .bootCommand := by
      show (validateBootCommand env 0 (afterDurations env (c2.setTpl t)).BootCommand {}).Errors =
        (validateBootCommand env 0 (afterDurations env (c.setTpl t)).BootCommand {}).Errors
      rw [hX, (withLate_fields _ _ _).2.2.2.2.2.1]
    have h5 : blockErrors env (c2.setTpl t) md .ssh =
        blockErrors env (c.setTpl t) md .ssh := by
      show (checkSSH env (afterDurations env (c2.setTpl t)) {}).Errors =
        (checkSSH env (afterDurations env (c.setTpl t)) {}).Errors
      rw [hX, checkSSH_withLate]
    have h6 : blockErrors env (c2.setTpl t) md .required =
        blockErrors env (c.setTpl t) md .required := by
      show (Required.all.filter fun f =>
          Required.value (afterDurations env (c2.setTpl t)) f = "").map PrepError.required =
        (Required.all.filter fun f =>
          Required.value (afterDurations env (c.setTpl t)) f = "").map PrepError.required
      rw [hX]
      simp only [Required_value_withLate]
    have h7 : blockErrors env (c2.setTpl t) md .ports =
        blockErrors env (c.setTpl t) md .ports := by
      show (checkPorts (afterPlatform env (c2.setTpl t)) {}).Errors =
        (checkPorts (afterPlatform env (c.setTpl t)) {}).Errors
      rw [hPl, checkPorts_withLate]
    have h8 : blockErrors env (c2.setTpl t) md .checksum =
        blockErrors env (c.setTpl t) md .checksum := by
      show (checkChecksum env (afterPlatform env (c2.setTpl t)) {}).2.Errors =
        (checkChecksum env (afterPlatform env (c.setTpl t)) {}).2.Errors
      rw [hCk]
    have h9 : blockErrors env (c2.setTpl t) md .media =
        blockErrors env (c.setTpl t) md .media := by
      show (foldIsoUrl (afterChecksum env (c2.setTpl t)) {}).2.Errors
          ++ (normalizeUrls env 0 (afterFold env (c2.setTpl t)).ISOUrls {}).2.Errors =
        (foldIsoUrl (afterChecksum env (c.setTpl t)) {}).2.Errors
          ++ (normalizeUrls env 0 (afterFold env (c.setTpl t)).ISOUrls {}).2.Errors
      rw [hFold, hF]
    have h1 : blockErrors env (c2.setTpl t) md .unused =
        blockErrors env (c.setTpl t) md .unused := rfl
    rw [collected, collected, h1, h2, h3, h4, h5, h6, h7, h8, h9]

theorem setDefaults_get_congr (a b : config) (k : TemplKey) (h : a.get k = b.get k)
    (hname : a.toPackerConfig = b.toPackerConfig) :
    (setDefaults a).get k = (setDefaults b).get k := by
  by_cases h1 : k = .boot_wait
  · subst h1
    rw [setDefaults_get_boot_wait, setDefaults_get_boot_wait, config_RawBootWait_eq_get a,
      config_RawBootWait_eq_get b, h]
  by_cases h2 : k = .ssh_wait_timeout
  · subst h2
    rw [setDefaults_get_ssh_wait_timeout, setDefaults_get_ssh_wait_timeout,
      config_RawSSHWaitTimeout_eq_get a, config_RawSSHWaitTimeout_eq_get b, h]
  by_cases h3 : k = .output_directory
  · subst h3
    rw [setDefaults_get_output_directory, setDefaults_get_output_directory,
      config_OutputDir_eq_get a, config_OutputDir_eq_get b, h, config.PackerBuildName,
      config.PackerBuildName, hname]
  rw [setDefaults_get a k h1 h2 h3, setDefaults_get b k h1 h2 h3, h]

theorem default_port_kept (p q d : Nat) (hd : d ≠ 0)
    (h : p = q ∨ p = if q = 0 then d else q) :
    (if p = 0 then d else p) = if q = 0 then d else q := by
  rcases h with h | h
  · rw [h]
  · rw [h]
    by_cases hq : q = 0
    · simp [hq, hd]
    · simp [hq]

theorem default_platform_args_kept (p q : GoMap)
    (h : p = q ∨ p = if q.len = 0 then defaultPlatformArgs else q) :
    (if p.len = 0 then defaultPlatformArgs else p) =
      if q.len = 0 then defaultPlatformArgs else q := by
  rcases h with h | h
  · rw [h]
  · rw [h]
    by_cases hq : q.len = 0
    · simp only [hq, if_true]
      rfl
    · simp only [hq, if_false]

theorem finalConfig_of_afterChecksum {α : Type} (f : config → α)
    (hu : ∀ (c : config) (v : List String), f { c with ISOUrls := v } = f c)
    (c : config) : f (finalConfig env c) = f (afterChecksum env c) := by
  rw [finalConfig, hu, afterFold, foldIsoUrl_proj f hu]

theorem checkChecksum_ISOChecksum_of_none (c : config) (errs : MultiError)
    (hty : c.ISOChecksumType ≠ "") (hnone : ToLower env c.ISOChecksumType = "none") :
    (checkChecksum env c errs).1.ISOChecksum = c.ISOChecksum := by
  simp only [checkChecksum, if_neg hty, hnone, ne_eq, not_true_eq_false, if_false]

/-- With the checksum type `none` the checksum stays as the templating pass
left it. -/
theorem final_ISOChecksum_of_none (c : config) (t : Bool)
    (hty : (env.Process .iso_checksum_type c.ISOChecksumType).1 ≠ "")
    (hnone : ToLower env (env.Process .iso_checksum_type c.ISOChecksumType).1 = "none") :
    (finalConfig env (c.setTpl t)).ISOChecksum =
      (env.Process .iso_checksum c.ISOChecksum).1 := by
  rw [finalConfig_of_afterChecksum env (fun c => c.ISOChecksum) (fun _ _ => rfl),
    afterChecksum, checkChecksum_ISOChecksum_of_none env _ _
      (by rw [read_ISOChecksumType]; exact hty) (by rw [read_ISOChecksumType]; exact hnone),
    read_ISOChecksum]

theorem final_BootCommand (c : config) (t : Bool) :
    (finalConfig env (c.setTpl t)).BootCommand = c.BootCommand := by
  rw [finalConfig_proj env (fun c => c.BootCommand) (by intro c k v; cases k <;> rfl)
    (fun _ _ => rfl) (fun _ _ => rfl) (fun _ _ => rfl) (fun _ _ => rfl), setDefaults_eq]
  rfl

theorem overlay_decode (x : config) (r : config → config) :
    overlayEnv.DecodeConfig x [r] = (r x, (), none) := rfl

/-- The fields `demoOverlay` assigns and the fields it leaves. -/
theorem demoOverlay_fields (x : config) :
    (demoOverlay x).toPackerConfig = demoConfig.toPackerConfig
      ∧ (demoOverlay x).VncPortMin = x.VncPortMin
      ∧ (demoOverlay x).VncPortMax = x.VncPortMax
      ∧ (demoOverlay x).HTTPPortMin = x.HTTPPortMin
      ∧ (demoOverlay x).HTTPPortMax = x.HTTPPortMax
      ∧ (demoOverlay x).PlatformArgs = x.PlatformArgs
      ∧ (demoOverlay x).BootCommand = x.BootCommand
      ∧ (demoOverlay x).ISOUrl = demoConfig.ISOUrl
      ∧ (demoOverlay x).ISOUrls = x.ISOUrls :=
  ⟨rfl, rfl, rfl, rfl, rfl, rfl, rfl, rfl, rfl⟩

theorem demoOverlay_get (x : config) (k : TemplKey) :
    (demoOverlay x).get k =
      if k ∈ [TemplKey.boot_wait, .ssh_wait_timeout, .output_directory, .http_directory,
        .iso_checksum, .ssh_key_path] then x.get k else demoConfig.get k := by
  cases k <;> rfl

theorem demoOverlay_kept (x : config) :
    (demoOverlay x).RawBootWait = x.RawBootWait
      ∧ (demoOverlay x).RawSSHWaitTimeout = x.RawSSHWaitTimeout
      ∧ (demoOverlay x).OutputDir = x.OutputDir :=
  ⟨rfl, rfl, rfl⟩

theorem braceNameOverlay_fields (x : config) :
    (braceNameOverlay x).OutputDir = x.OutputDir
      ∧ (braceNameOverlay x).PackerBuildName = braceName :=
  ⟨rfl, rfl⟩

theorem demoOverlay_first_config :
    (freshBuilder.Prepare overlayEnv [demoOverlay]).1.config =
      finalConfig overlayEnv (demoConfig.setTpl true) :=
  Prepare_config overlayEnv freshBuilder [demoOverlay] demoConfig () true rfl rfl

theorem demoOverlay_first_BootCommand :
    (freshBuilder.Prepare overlayEnv [demoOverlay]).1.config.BootCommand =
      demoConfig.BootCommand := by
  rw [demoOverlay_first_config, final_BootCommand]

/-- What the first `Prepare` of `demoOverlay` leaves in the fields whose keys
the input lacks. -/
theorem demoOverlay_first_kept :
    (freshBuilder.Prepare overlayEnv [demoOverlay]).1.config.RawBootWait = "5s"
      ∧ (freshBuilder.Prepare overlayEnv [demoOverlay]).1.config.RawSSHWaitTimeout = "200m"
      ∧ (freshBuilder.Prepare overlayEnv [demoOverlay]).1.config.OutputDir = "output-xen"
      ∧ (freshBuilder.Prepare overlayEnv [demoOverlay]).1.config.HTTPDir = ""
      ∧ (freshBuilder.Prepare overlayEnv [demoOverlay]).1.config.ISOChecksum = ""
      ∧ (freshBuilder.Prepare overlayEnv [demoOverlay]).1.config.SSHKeyPath = "" := by
  rw [demoOverlay_first_config]
  refine ⟨?_, ?_, ?_, ?_, ?_, ?_⟩
  · rw [final_RawBootWait]
    decide
  · rw [final_RawSSHWaitTimeout]
    decide
  · rw [final_OutputDir]
    decide
  · have h : (finalConfig overlayEnv (demoConfig.setTpl true)).HTTPDir =
        (finalConfig overlayEnv (demoConfig.setTpl true)).get .http_directory := rfl
    rw [h, finalConfig_get overlayEnv _ _ (by decide) (by decide), setDefaults_setTpl_get,
      setDefaults_get demoConfig _ (by decide) (by decide) (by decide)]
    decide
  · rw [final_ISOChecksum_of_none overlayEnv demoConfig true (by decide) (by decide)]
    decide
  · rw [final_SSHKeyPath]
    decide

/-- Decoding `demoOverlay` again into the config the first `Prepare` left:
every entry of `templates` is decoded as before, or holds a string the
templating pass treats as it treated the default. -/
theorem demoOverlay_keys (k : TemplKey) :
    (demoOverlay (freshBuilder.Prepare overlayEnv [demoOverlay]).1.config).get k =
        demoConfig.get k
      ∨ overlayEnv.Process k
          ((setDefaults
            (demoOverlay (freshBuilder.Prepare overlayEnv [demoOverlay]).1.config)).get k) =
        overlayEnv.Process k ((setDefaults demoConfig).get k) := by
  obtain ⟨k1, k2, k3, k4, k5, k6⟩ := demoOverlay_first_kept
  by_cases h1 : k = .boot_wait
  · subst h1
    right
    rw [setDefaults_get_boot_wait, setDefaults_get_boot_wait, (demoOverlay_kept _).1, k1]
    decide
  by_cases h2 : k = .ssh_wait_timeout
  · subst h2
    right
    rw [setDefaults_get_ssh_wait_timeout, setDefaults_get_ssh_wait_timeout,
      (demoOverlay_kept _).2.1, k2]
    decide
  by_cases h3 : k = .output_directory
  · subst h3
    right
    rw [setDefaults_get_output_directory, setDefaults_get_output_directory,
      (demoOverlay_kept _).2.2, k3]
    decide
  left
  rw [demoOverlay_get]
  by_cases h4 : k = .http_directory
  · subst h4
    rw [if_pos (by decide)]
    exact k4
  by_cases h5 : k = .iso_checksum
  · subst h5
    rw [if_pos (by decide)]
    exact k5
  by_cases h6 : k = .ssh_key_path
  · subst h6
    rw [if_pos (by decide)]
    exact k6
  rw [if_neg (by simp [h1, h2, h3, h4, h5, h6])]

theorem brace_first_OutputDir :
    (freshBuilder.Prepare overlayEnv [braceNameOverlay]).1.config.OutputDir =
      "output-\x7b\x7b" := by
  rw [Prepare_config overlayEnv freshBuilder [braceNameOverlay] (braceNameOverlay {}) ()
    true rfl rfl, final_OutputDir]
  decide

theorem brace_first_accepted :
    (freshBuilder.Prepare overlayEnv [braceNameOverlay]).2.retErr = none := by
  rw [Prepare_retErr_eq_none_iff overlayEnv freshBuilder [braceNameOverlay]
    (braceNameOverlay {}) () true rfl rfl, collected_eq_nil_iff_decoded]
  refine ⟨rfl, ?_, (by decide), (by intro cmd h; cases h), (by decide),
    (by intro f; cases f <;> decide), (by decide), Or.inl rfl, (by decide), rfl⟩
  intro k
  rw [setDefaults_eq]
  cases k <;> rfl

theorem brace_second_template_error :
    (overlayEnv.Process .output_directory
      ((setDefaults (braceNameOverlay
        (freshBuilder.Prepare overlayEnv [braceNameOverlay]).1.config)).get
          .output_directory)).2 = some "template: unclosed action" := by
  rw [setDefaults_get_output_directory, (braceNameOverlay_fields _).1, brace_first_OutputDir]
  decide

end Lemmas

/-! ## The claims -/

section Claims

variable {Raw Metadata : Type}

/-- C1, amended. For every input that decodes (the template engine being
created), the required-field errors `Prepare` collects are exactly one per
required field whose value is empty after the templating pass, in source
order, so their number is the number of those fields; the ten messages are
pairwise distinct; and a required field that the input leaves out is reported
whenever the templating pass maps the empty string to the empty string. -/
theorem Prepare_reports_every_empty_required_field {R : Type} (env : Env Raw Metadata)
    (b : Builder R) (raws : List Raw) (c : config) (md : Metadata) (t : Bool)
    (hdec : env.DecodeConfig b.config raws = (c, md, none))
    (htpl : env.NewConfigTemplate = (t, none)) :
    (b.Prepare env raws).2.errs.Errors.filter PrepError.isRequired =
        (Required.all.filter fun f => (env.Process f.key (c.get f.key)).1 = "").map
          PrepError.required
      ∧ ((b.Prepare env raws).2.errs.Errors.filter PrepError.isRequired).length =
        (Required.all.filter fun f => (env.Process f.key (c.get f.key)).1 = "").length
      ∧ (∀ f g : Required,
          (PrepError.required f).Error = (PrepError.required g).Error → f = g)
      ∧ (∀ f : Required, c.get f.key = "" → (env.Process f.key "").1 = "" →
          PrepError.required f ∈ (b.Prepare env raws).2.errs.Errors) := by
  have h := collected_required env c md t
  rw [Prepare_errs env b raws c md t hdec htpl]
  refine ⟨h, ?_, Required.message_injective, ?_⟩
  · rw [h, List.length_map]
  · intro f hf hp
    have hm : PrepError.required f ∈
        (collected env (c.setTpl t) md).filter PrepError.isRequired := by
      rw [h]
      apply List.mem_map_of_mem
      rw [List.mem_filter]
      refine ⟨by cases f <;> decide, ?_⟩
      rw [hf, hp]
      decide
    exact (List.mem_filter.mp hm).1

/-- The amended C1 at `templatedUserConfig`: the only field empty after the
templating pass is the user name, and it is the one reported. -/
theorem Prepare_reports_every_empty_required_field_witness :
    demoEnv.DecodeConfig freshBuilder.config [templatedUserConfig] =
        (templatedUserConfig, (), none)
      ∧ demoEnv.NewConfigTemplate = (true, none)
      ∧ (freshBuilder.Prepare demoEnv [templatedUserConfig]).2.errs.Errors.filter
          PrepError.isRequired =
        (Required.all.filter fun f =>
          (demoEnv.Process f.key (templatedUserConfig.get f.key)).1 = "").map
          PrepError.required :=
  ⟨rfl, rfl,
    (Prepare_reports_every_empty_required_field demoEnv freshBuilder [templatedUserConfig]
      templatedUserConfig () true rfl rfl).1⟩

/-- C1 as stated fails: `templatedUserConfig` supplies all ten required fields
(none is missing from the input), yet `Prepare` reports one required-field
error, and nothing else, because the user name is a template that resolves to
the empty string. -/
theorem required_errors_differ_from_missing_inputs :
    demoEnv.DecodeConfig freshBuilder.config [templatedUserConfig] =
        (templatedUserConfig, (), none)
      ∧ (Required.all.filter fun f => templatedUserConfig.get f.key = "").length = 0
      ∧ (freshBuilder.Prepare demoEnv [templatedUserConfig]).2.errs.Errors.filter
          PrepError.isRequired = [PrepError.required .username]
      ∧ (freshBuilder.Prepare demoEnv [templatedUserConfig]).2.retErr ≠ none := by
  have h : (collected demoEnv (templatedUserConfig.setTpl true) ()).filter
      PrepError.isRequired = [PrepError.required .username] := by
    rw [collected_required]
    decide
  refine ⟨rfl, by decide, ?_, ?_⟩
  · rw [Prepare_errs demoEnv freshBuilder [templatedUserConfig] templatedUserConfig () true
      rfl rfl, h]
  · apply Prepare_retErr_ne_none_of_mem demoEnv freshBuilder [templatedUserConfig]
      templatedUserConfig () true rfl rfl (PrepError.required .username)
    have hm : PrepError.required .username ∈
        (collected demoEnv (templatedUserConfig.setTpl true) ()).filter
          PrepError.isRequired := by
      rw [h]
      exact List.mem_singleton_self _
    exact (List.mem_filter.mp hm).1

/-- C2. For every input that decodes (the template engine being created),
`Prepare` collects every problem of every block, in source order and without
stopping at the first; it returns a non-nil error exactly when that list is
not empty, and the error it returns is the rendering of the whole list. -/
theorem Prepare_error_iff_problem_collected {R : Type} (env : Env Raw Metadata)
    (b : Builder R) (raws : List Raw) (c : config) (md : Metadata) (t : Bool)
    (hdec : env.DecodeConfig b.config raws = (c, md, none))
    (htpl : env.NewConfigTemplate = (t, none)) :
    (b.Prepare env raws).2.errs.Errors = collected env (c.setTpl t) md
      ∧ ((b.Prepare env raws).2.retErr ≠ none ↔ (b.Prepare env raws).2.errs.Errors ≠ [])
      ∧ ((b.Prepare env raws).2.errs.Errors = [] → (b.Prepare env raws).2.retErr = none)
      ∧ (∀ msg, (b.Prepare env raws).2.retErr = some msg →
          msg = env.MultiErrorError
            ((b.Prepare env raws).2.errs.Errors.map PrepError.Error))
      ∧ (b.Prepare env raws).2.params = none := by
  have he := Prepare_errs env b raws c md t hdec htpl
  have hn := Prepare_retErr_eq_none_iff env b raws c md t hdec htpl
  have hr := Prepare_retErr env b raws c md t hdec htpl
  refine ⟨he, ?_, ?_, ?_, ?_⟩
  · rw [he, Ne, hn]
  · rw [he]; exact hn.mpr
  · intro msg hmsg
    rw [he]
    rw [hr] at hmsg
    split_ifs at hmsg
    exact (Option.some.inj hmsg).symm
  · rw [Prepare_eq env b raws c md t hdec htpl]

/-- C2 at `templatedUserConfig`. -/
theorem Prepare_error_iff_problem_collected_witness :
    demoEnv.DecodeConfig freshBuilder.config [templatedUserConfig] =
        (templatedUserConfig, (), none)
      ∧ demoEnv.NewConfigTemplate = (true, none)
      ∧ ((freshBuilder.Prepare demoEnv [templatedUserConfig]).2.retErr ≠ none ↔
          (freshBuilder.Prepare demoEnv [templatedUserConfig]).2.errs.Errors ≠ []) :=
  ⟨rfl, rfl,
    (Prepare_error_iff_problem_collected demoEnv freshBuilder [templatedUserConfig]
      templatedUserConfig () true rfl rfl).2.1⟩

/-- C3, amended. An input that decodes without unknown keys and supplies
non-empty host_ip, username, password, instance_name, root_disk_size,
clone_template, iso_uuid, sr_uuid, network_uuid, local_ip and ssh_username,
one normalizable iso_url and the checksum type `none`, with no ssh_key_path,
no platform_args, no port or duration override and no output_directory,
whose boot commands are valid templates and whose strings the templating pass
returns unchanged, is accepted: `Prepare` returns a nil error, the platform
arguments are the six-entry default map and the output directory is `output-`
followed by the build name. (`time.ParseDuration` is taken to read `5s` and
`200m`; an SSH password may be supplied, the result does not need it.) -/
theorem Prepare_accepts_scenario_one {R : Type} (env : Env Raw Metadata)
    (b : Builder R) (raws : List Raw) (c : config) (md : Metadata) (t : Bool)
    (hdec : env.DecodeConfig b.config raws = (c, md, none))
    (htpl : env.NewConfigTemplate = (t, none))
    (hunknown : (unusedErrors env md).Errors = [])
    (hreq : ∀ f : Required, c.get f.key ≠ "")
    (huser : c.SSHUser ≠ "")
    (hurl : c.ISOUrl ≠ "") (hnorm : (env.DownloadableURL c.ISOUrl).2 = none)
    (hty : c.ISOChecksumType = "none")
    (hkey : c.SSHKeyPath = "")
    (hpargs : c.PlatformArgs.len = 0)
    (hvmin : c.VncPortMin = 0) (hvmax : c.VncPortMax = 0)
    (hhmin : c.HTTPPortMin = 0) (hhmax : c.HTTPPortMax = 0)
    (hbw : c.RawBootWait = "") (hsw : c.RawSSHWaitTimeout = "")
    (hout : c.OutputDir = "")
    (hboot : ∀ cmd ∈ c.BootCommand, env.Validate cmd = none)
    (hplain : ∀ k, env.Process k ((setDefaults c).get k) = ((setDefaults c).get k, none))
    (hp5 : (env.ParseDuration "5s").2 = none)
    (hp200 : (env.ParseDuration "200m").2 = none) :
    (b.Prepare env raws).2.retErr = none
      ∧ (b.Prepare env raws).1.config.PlatformArgs =
        [("viridian", "false"), ("nx", "true"), ("pae", "true"), ("apic", "true"),
          ("timeoffset", "0"), ("acpi", "1")]
      ∧ (b.Prepare env raws).1.config.OutputDir = "output-" ++ c.PackerBuildName := by
  have hP : ∀ k, k ≠ .boot_wait → k ≠ .ssh_wait_timeout → k ≠ .output_directory →
      env.Process k (c.get k) = (c.get k, none) := by
    intro k h1 h2 h3
    have := hplain k
    rwa [setDefaults_get c k h1 h2 h3] at this
  have hPbw : env.Process .boot_wait "5s" = ("5s", none) := by
    have := hplain .boot_wait
    rwa [setDefaults_get_boot_wait, if_pos hbw] at this
  have hPsw : env.Process .ssh_wait_timeout "200m" = ("200m", none) := by
    have := hplain .ssh_wait_timeout
    rwa [setDefaults_get_ssh_wait_timeout, if_pos hsw] at this
  have hPout : env.Process .output_directory ("output-" ++ c.PackerBuildName) =
      ("output-" ++ c.PackerBuildName, none) := by
    have := hplain .output_directory
    rwa [setDefaults_get_output_directory, if_pos hout] at this
  refine ⟨?_, ?_, ?_⟩
  · rw [Prepare_retErr_eq_none_iff env b raws c md t hdec htpl, collected_eq_nil_iff]
    intro X
    cases X with
    | unused => exact hunknown
    | template =>
      rw [blockErrors_template_eq_nil_iff]
      intro k
      rw [hplain k]
    | duration =>
      rw [blockErrors_duration_eq_nil_iff, if_pos hbw, if_pos hsw, hPbw, hPsw]
      exact ⟨hp5, hp200⟩
    | bootCommand =>
      rw [blockErrors_bootCommand_eq_nil_iff]
      exact hboot
    | ssh =>
      rw [blockErrors_ssh_eq_nil_iff]
      have h1 := hP .ssh_username (by decide) (by decide) (by decide)
      have h2 := hP .ssh_key_path (by decide) (by decide) (by decide)
      simp only [config.get] at h1 h2
      rw [h1, h2]
      exact ⟨huser, Or.inl hkey⟩
    | required =>
      rw [blockErrors_required_eq_nil_iff]
      intro f
      rw [hP f.key (by cases f <;> decide) (by cases f <;> decide) (by cases f <;> decide)]
      exact hreq f
    | ports =>
      rw [blockErrors_ports_eq_nil_iff, if_pos hhmin, if_pos hhmax, if_pos hvmin,
        if_pos hvmax]
      decide
    | checksum =>
      rw [blockErrors_checksum_eq_nil_iff]
      have h1 := hP .iso_checksum_type (by decide) (by decide) (by decide)
      simp only [config.get] at h1
      rw [h1, hty]
      exact Or.inl (ToLower_none env)
    | media =>
      rw [blockErrors_media_eq_nil_iff]
      exact ⟨hurl, hnorm⟩
  · rw [Prepare_config env b raws c md t hdec htpl, final_PlatformArgs, if_pos hpargs,
      defaultPlatformArgs_eq]
  · rw [Prepare_config env b raws c md t hdec htpl, final_OutputDir, if_pos hout, hPout]

/-- The amended C3 at `demoConfig`, the input of the scenario. -/
theorem Prepare_accepts_scenario_one_witness :
    demoEnv.DecodeConfig freshBuilder.config [demoConfig] = (demoConfig, (), none)
      ∧ demoConfig.SSHUser ≠ "" ∧ demoConfig.SSHPassword ≠ "" ∧ demoConfig.SSHKeyPath = ""
      ∧ demoConfig.ISOChecksumType = "none"
      ∧ (freshBuilder.Prepare demoEnv [demoConfig]).2.retErr = none
      ∧ (freshBuilder.Prepare demoEnv [demoConfig]).1.config.PlatformArgs =
        [("viridian", "false"), ("nx", "true"), ("pae", "true"), ("apic", "true"),
          ("timeoffset", "0"), ("acpi", "1")]
      ∧ (freshBuilder.Prepare demoEnv [demoConfig]).1.config.OutputDir = "output-xen" :=
  ⟨rfl, by decide, by decide, rfl, rfl,
    Prepare_accepts_scenario_one demoEnv freshBuilder [demoConfig] demoConfig () true rfl rfl
      rfl (by intro f; cases f <;> decide) (by decide) (by decide) rfl rfl rfl rfl rfl rfl
      rfl rfl rfl rfl rfl (by intro cmd h; cases h)
      (by intro k; rw [setDefaults_eq]; cases k <;> rfl) rfl rfl⟩

/-- C3 as stated fails: `outputDirConfig` meets every condition the claim
lists (the required fields, SSH user and password, a normalizable URL, the
checksum type `none`, no key path, no platform argument, no port or duration
override, no template syntax) and also supplies `output_directory`; `Prepare`
accepts it and keeps the supplied directory, not `output-` followed by the
build name. -/
theorem supplied_output_directory_kept :
    demoEnv.DecodeConfig freshBuilder.config [outputDirConfig] = (outputDirConfig, (), none)
      ∧ (∀ f : Required, outputDirConfig.get f.key ≠ "")
      ∧ outputDirConfig.SSHUser ≠ "" ∧ outputDirConfig.SSHPassword ≠ ""
      ∧ outputDirConfig.ISOUrl ≠ ""
      ∧ (demoEnv.DownloadableURL outputDirConfig.ISOUrl).2 = none
      ∧ outputDirConfig.ISOChecksumType = "none"
      ∧ outputDirConfig.SSHKeyPath = "" ∧ outputDirConfig.PlatformArgs = []
      ∧ outputDirConfig.VncPortMin = 0 ∧ outputDirConfig.VncPortMax = 0
      ∧ outputDirConfig.HTTPPortMin = 0 ∧ outputDirConfig.HTTPPortMax = 0
      ∧ outputDirConfig.RawBootWait = "" ∧ outputDirConfig.RawSSHWaitTimeout = ""
      ∧ (∀ k, demoEnv.Process k (outputDirConfig.get k) = (outputDirConfig.get k, none))
      ∧ (freshBuilder.Prepare demoEnv [outputDirConfig]).2.retErr = none
      ∧ (freshBuilder.Prepare demoEnv [outputDirConfig]).1.config.OutputDir = "out"
      ∧ (freshBuilder.Prepare demoEnv [outputDirConfig]).1.config.OutputDir ≠
        "output-" ++ outputDirConfig.PackerBuildName := by
  have h : (freshBuilder.Prepare demoEnv [outputDirConfig]).1.config.OutputDir = "out" := by
    rw [Prepare_config demoEnv freshBuilder [outputDirConfig] outputDirConfig () true
      rfl rfl, final_OutputDir]
    decide
  refine ⟨rfl, (by intro f; cases f <;> decide), (by decide), (by decide), (by decide), rfl,
    rfl, rfl, rfl, rfl, rfl, rfl, rfl, rfl, rfl, (by intro k; cases k <;> rfl), ?_, h, ?_⟩
  · rw [Prepare_retErr_eq_none_iff demoEnv freshBuilder [outputDirConfig] outputDirConfig ()
      true rfl rfl, collected_eq_nil_iff_decoded]
    refine ⟨rfl, ?_, (by decide), (by intro cmd h; cases h), (by decide),
      (by intro f; cases f <;> decide), (by decide), Or.inl rfl, (by decide), rfl⟩
    intro k
    rw [setDefaults_eq]
    cases k <;> rfl
  · rw [h]
    decide

/-- C4. For every input that decodes (the template engine being created),
with `ty` and `ck` the iso_checksum_type and iso_checksum the checksum block
reads (the results of the templating pass): `Prepare` reports no
checksum-related error exactly when `ty` lower-cased is `none`, or `ty` is
not empty, is known to the hash lookup and `ck` is not empty. In particular a
type other than `none` without a checksum is rejected, a type that spells
`none` in any letter case asks for no checksum, and an empty or unknown type
is rejected. -/
theorem Prepare_checksum_errors_iff {R : Type} (env : Env Raw Metadata)
    (b : Builder R) (raws : List Raw) (c : config) (md : Metadata) (t : Bool)
    (hdec : env.DecodeConfig b.config raws = (c, md, none))
    (htpl : env.NewConfigTemplate = (t, none)) :
    ((b.Prepare env raws).2.errs.Errors.filter PrepError.isChecksum = [] ↔
        (ToLower env (env.Process .iso_checksum_type c.ISOChecksumType).1 = "none" ∨
          ((env.Process .iso_checksum_type c.ISOChecksumType).1 ≠ "" ∧
            env.HashForType
              (ToLower env (env.Process .iso_checksum_type c.ISOChecksumType).1) = true ∧
            (env.Process .iso_checksum c.ISOChecksum).1 ≠ "")))
      ∧ ((env.Process .iso_checksum_type c.ISOChecksumType).1 ≠ "" →
          ToLower env (env.Process .iso_checksum_type c.ISOChecksumType).1 ≠ "none" →
          (env.Process .iso_checksum c.ISOChecksum).1 = "" →
          PrepError.checksumMissing ∈ (b.Prepare env raws).2.errs.Errors ∧
            (b.Prepare env raws).2.retErr ≠ none)
      ∧ (ToLower env (env.Process .iso_checksum_type c.ISOChecksumType).1 = "none" →
          PrepError.checksumMissing ∉ (b.Prepare env raws).2.errs.Errors ∧
            (b.Prepare env raws).2.errs.Errors.filter PrepError.isChecksum = [])
      ∧ (∀ s : String, s.data.map Char.toLower = "none".data → ToLower env s = "none")
      ∧ ((env.Process .iso_checksum_type c.ISOChecksumType).1 = "" →
          PrepError.checksumTypeMissing ∈ (b.Prepare env raws).2.errs.Errors ∧
            (b.Prepare env raws).2.retErr ≠ none)
      ∧ ((env.Process .iso_checksum_type c.ISOChecksumType).1 ≠ "" →
          ToLower env (env.Process .iso_checksum_type c.ISOChecksumType).1 ≠ "none" →
          env.HashForType
            (ToLower env (env.Process .iso_checksum_type c.ISOChecksumType).1) = false →
          PrepError.checksumUnsupported
              (ToLower env (env.Process .iso_checksum_type c.ISOChecksumType).1) ∈
              (b.Prepare env raws).2.errs.Errors ∧
            (b.Prepare env raws).2.retErr ≠ none) := by
  have hiff := blockErrors_checksum_eq_nil_iff env c md t
  rw [← collected_checksum] at hiff
  have hty := read_ISOChecksumType env c t
  have hck := read_ISOChecksum env c t
  have hfail := Prepare_retErr_ne_none_of_mem env b raws c md t hdec htpl
  rw [Prepare_errs env b raws c md t hdec htpl]
  refine ⟨hiff, ?_, ?_, ToLower_eq_none_of_ascii env, ?_, ?_⟩
  · intro h1 h2 h3
    have hm : PrepError.checksumMissing ∈ collected env (c.setTpl t) md := by
      rw [mem_collected_iff]
      show _ ∈ (checkChecksum env (afterPlatform env (c.setTpl t)) {}).2.Errors
      rw [checkChecksum_mem_missing, hty, hck]
      exact ⟨h1, h2, h3⟩
    exact ⟨hm, hfail _ hm⟩
  · intro h
    have hnil := hiff.mpr (Or.inl h)
    refine ⟨?_, hnil⟩
    intro hm
    have : PrepError.checksumMissing ∈
        (collected env (c.setTpl t) md).filter PrepError.isChecksum :=
      List.mem_filter.mpr ⟨hm, rfl⟩
    rw [hnil] at this
    simp at this
  · intro h
    have hm : PrepError.checksumTypeMissing ∈ collected env (c.setTpl t) md := by
      rw [mem_collected_iff]
      show _ ∈ (checkChecksum env (afterPlatform env (c.setTpl t)) {}).2.Errors
      rw [checkChecksum_mem_typeMissing, hty]
      exact h
    exact ⟨hm, hfail _ hm⟩
  · intro h1 h2 h3
    have hm : PrepError.checksumUnsupported
        (ToLower env (env.Process .iso_checksum_type c.ISOChecksumType).1) ∈
        collected env (c.setTpl t) md := by
      rw [mem_collected_iff]
      show _ ∈ (checkChecksum env (afterPlatform env (c.setTpl t)) {}).2.Errors
      rw [← hty, checkChecksum_mem_unsupported, hty]
      exact ⟨h1, h2, h3⟩
    exact ⟨hm, hfail _ hm⟩

/-- C4 at `demoConfig`, whose checksum type is `none` and which has no checksum. -/
theorem Prepare_checksum_errors_iff_witness :
    demoEnv.DecodeConfig freshBuilder.config [demoConfig] = (demoConfig, (), none)
      ∧ demoEnv.NewConfigTemplate = (true, none)
      ∧ demoConfig.ISOChecksum = ""
      ∧ PrepError.checksumMissing ∉ (freshBuilder.Prepare demoEnv [demoConfig]).2.errs.Errors
      ∧ (freshBuilder.Prepare demoEnv [demoConfig]).2.errs.Errors.filter
          PrepError.isChecksum = [] :=
  ⟨rfl, rfl, rfl,
    (Prepare_checksum_errors_iff demoEnv freshBuilder [demoConfig] demoConfig () true
      rfl rfl).2.2.1 rfl⟩

/-- C5. For every input that decodes (the template engine being created):
if, after a zero port is replaced by its default, the HTTP min port exceeds
the HTTP max port, or the VNC min port exceeds the VNC max port, `Prepare`
collects the corresponding port-range error and fails; hence whenever
`Prepare` returns a nil error the config it leaves has
`VncPortMin <= VncPortMax` and `HTTPPortMin <= HTTPPortMax`. -/
theorem Prepare_port_ranges {R : Type} (env : Env Raw Metadata)
    (b : Builder R) (raws : List Raw) (c : config) (md : Metadata) (t : Bool)
    (hdec : env.DecodeConfig b.config raws = (c, md, none))
    (htpl : env.NewConfigTemplate = (t, none)) :
    ((if c.HTTPPortMin = 0 then 8000 else c.HTTPPortMin) >
          (if c.HTTPPortMax = 0 then 9000 else c.HTTPPortMax) →
        PrepError.httpPort ∈ (b.Prepare env raws).2.errs.Errors ∧
          (b.Prepare env raws).2.retErr ≠ none)
      ∧ ((if c.VncPortMin = 0 then 5900 else c.VncPortMin) >
          (if c.VncPortMax = 0 then 6000 else c.VncPortMax) →
        PrepError.vncPort ∈ (b.Prepare env raws).2.errs.Errors ∧
          (b.Prepare env raws).2.retErr ≠ none)
      ∧ ((b.Prepare env raws).2.retErr = none →
        (b.Prepare env raws).1.config.VncPortMin ≤ (b.Prepare env raws).1.config.VncPortMax ∧
          (b.Prepare env raws).1.config.HTTPPortMin ≤
            (b.Prepare env raws).1.config.HTTPPortMax) := by
  have hfail := Prepare_retErr_ne_none_of_mem env b raws c md t hdec htpl
  rw [Prepare_errs env b raws c md t hdec htpl, Prepare_config env b raws c md t hdec htpl]
  refine ⟨?_, ?_, ?_⟩
  · intro h
    have hm : PrepError.httpPort ∈ collected env (c.setTpl t) md := by
      rw [mem_collected_iff]
      show _ ∈ (checkPorts (afterPlatform env (c.setTpl t)) {}).Errors
      rw [checkPorts_mem_httpPort, read_HTTPPortMin, read_HTTPPortMax]
      exact h
    exact ⟨hm, hfail _ hm⟩
  · intro h
    have hm : PrepError.vncPort ∈ collected env (c.setTpl t) md := by
      rw [mem_collected_iff]
      show _ ∈ (checkPorts (afterPlatform env (c.setTpl t)) {}).Errors
      rw [checkPorts_mem_vncPort, read_VncPortMin, read_VncPortMax]
      exact h
    exact ⟨hm, hfail _ hm⟩
  · intro h
    rw [Prepare_retErr_eq_none_iff env b raws c md t hdec htpl, collected_eq_nil_iff] at h
    have hp := (blockErrors_ports_eq_nil_iff env c md t).mp (h .ports)
    rw [final_VncPortMin, final_VncPortMax, final_HTTPPortMin, final_HTTPPortMax]
    exact ⟨hp.2, hp.1⟩

/-- C5 at `demoConfig`, which sets no port. -/
theorem Prepare_port_ranges_witness :
    demoEnv.DecodeConfig freshBuilder.config [demoConfig] = (demoConfig, (), none)
      ∧ demoEnv.NewConfigTemplate = (true, none)
      ∧ ((freshBuilder.Prepare demoEnv [demoConfig]).2.retErr = none →
        (freshBuilder.Prepare demoEnv [demoConfig]).1.config.VncPortMin ≤
            (freshBuilder.Prepare demoEnv [demoConfig]).1.config.VncPortMax ∧
          (freshBuilder.Prepare demoEnv [demoConfig]).1.config.HTTPPortMin ≤
            (freshBuilder.Prepare demoEnv [demoConfig]).1.config.HTTPPortMax) :=
  ⟨rfl, rfl,
    (Prepare_port_ranges demoEnv freshBuilder [demoConfig] demoConfig () true rfl rfl).2.2⟩

/-- C6. Platform arguments are defaulted all or nothing: for every input that
decodes (the template engine being created), if the decoded `platform_args`
has no entry the resulting map is exactly `viridian=false, nx=true, pae=true,
apic=true, timeoffset=0, acpi=1`; if it has at least one entry the resulting
map is the supplied map, with no default key merged in. -/
theorem Prepare_platform_args_all_or_nothing {R : Type} (env : Env Raw Metadata)
    (b : Builder R) (raws : List Raw) (c : config) (md : Metadata) (t : Bool)
    (hdec : env.DecodeConfig b.config raws = (c, md, none))
    (htpl : env.NewConfigTemplate = (t, none)) :
    (c.PlatformArgs.len = 0 →
        (b.Prepare env raws).1.config.PlatformArgs =
          [("viridian", "false"), ("nx", "true"), ("pae", "true"), ("apic", "true"),
            ("timeoffset", "0"), ("acpi", "1")])
      ∧ (c.PlatformArgs.len ≠ 0 →
        (b.Prepare env raws).1.config.PlatformArgs = c.PlatformArgs) := by
  rw [Prepare_config env b raws c md t hdec htpl, final_PlatformArgs]
  constructor
  · intro h
    rw [if_pos h, defaultPlatformArgs_eq]
  · intro h
    rw [if_neg h]

/-- C6 at `demoConfig`, which supplies no platform argument. -/
theorem Prepare_platform_args_all_or_nothing_witness :
    demoEnv.DecodeConfig freshBuilder.config [demoConfig] = (demoConfig, (), none)
      ∧ demoConfig.PlatformArgs.len = 0
      ∧ (freshBuilder.Prepare demoEnv [demoConfig]).1.config.PlatformArgs =
        [("viridian", "false"), ("nx", "true"), ("pae", "true"), ("apic", "true"),
          ("timeoffset", "0"), ("acpi", "1")] :=
  ⟨rfl, rfl,
    (Prepare_platform_args_all_or_nothing demoEnv freshBuilder [demoConfig] demoConfig ()
      true rfl rfl).1 rfl⟩

/-- C7, amended. For every input that decodes (the template engine being
created): each port is its default (5900, 6000, 8000, 9000) when the input
leaves it zero and the supplied value otherwise; the raw boot wait, the raw
SSH wait timeout and the output directory are what the templating pass
returns for the supplied string, or for `5s`, `200m` and `output-` followed
by the build name when the input leaves the option empty; `BootWait` and
`sshWaitTimeout` are what `time.ParseDuration` returns for the raw strings.
So where the templating pass returns these strings unchanged and
`ParseDuration` reads `5s` and `200m`, the unset options come out as `5s`
(5 seconds), `200m` (200 minutes) and `output-` followed by the build name. -/
theorem Prepare_defaults {R : Type} (env : Env Raw Metadata)
    (b : Builder R) (raws : List Raw) (c : config) (md : Metadata) (t : Bool)
    (hdec : env.DecodeConfig b.config raws = (c, md, none))
    (htpl : env.NewConfigTemplate = (t, none)) :
    (b.Prepare env raws).1.config.VncPortMin =
        (if c.VncPortMin = 0 then 5900 else c.VncPortMin)
      ∧ (b.Prepare env raws).1.config.VncPortMax =
        (if c.VncPortMax = 0 then 6000 else c.VncPortMax)
      ∧ (b.Prepare env raws).1.config.HTTPPortMin =
        (if c.HTTPPortMin = 0 then 8000 else c.HTTPPortMin)
      ∧ (b.Prepare env raws).1.config.HTTPPortMax =
        (if c.HTTPPortMax = 0 then 9000 else c.HTTPPortMax)
      ∧ (b.Prepare env raws).1.config.RawBootWait =
        (env.Process .boot_wait (if c.RawBootWait = "" then "5s" else c.RawBootWait)).1
      ∧ (b.Prepare env raws).1.config.BootWait =
        (env.ParseDuration (b.Prepare env raws).1.config.RawBootWait).1
      ∧ (b.Prepare env raws).1.config.RawSSHWaitTimeout =
        (env.Process .ssh_wait_timeout
          (if c.RawSSHWaitTimeout = "" then "200m" else c.RawSSHWaitTimeout)).1
      ∧ (b.Prepare env raws).1.config.sshWaitTimeout =
        (env.ParseDuration (b.Prepare env raws).1.config.RawSSHWaitTimeout).1
      ∧ (b.Prepare env raws).1.config.OutputDir =
        (env.Process .output_directory
          (if c.OutputDir = "" then "output-" ++ c.PackerBuildName else c.OutputDir)).1
      ∧ (c.RawBootWait = "" → (env.Process .boot_wait "5s").1 = "5s" →
          (env.ParseDuration "5s").1 = 5000000000 →
          (b.Prepare env raws).1.config.RawBootWait = "5s" ∧
            (b.Prepare env raws).1.config.BootWait = 5000000000)
      ∧ (c.RawSSHWaitTimeout = "" → (env.Process .ssh_wait_timeout "200m").1 = "200m" →
          (env.ParseDuration "200m").1 = 12000000000000 →
          (b.Prepare env raws).1.config.RawSSHWaitTimeout = "200m" ∧
            (b.Prepare env raws).1.config.sshWaitTimeout = 12000000000000)
      ∧ (c.OutputDir = "" →
          (env.Process .output_directory ("output-" ++ c.PackerBuildName)).1 =
            "output-" ++ c.PackerBuildName →
          (b.Prepare env raws).1.config.OutputDir = "output-" ++ c.PackerBuildName) := by
  rw [Prepare_config env b raws c md t hdec htpl]
  refine ⟨final_VncPortMin env c t, final_VncPortMax env c t, final_HTTPPortMin env c t,
    final_HTTPPortMax env c t, final_RawBootWait env c t, final_BootWait env c t,
    final_RawSSHWaitTimeout env c t, final_sshWaitTimeout env c t, final_OutputDir env c t,
    ?_, ?_, ?_⟩
  · intro h1 h2 h3
    have hr : (finalConfig env (c.setTpl t)).RawBootWait = "5s" := by
      rw [final_RawBootWait, if_pos h1, h2]
    refine ⟨hr, ?_⟩
    rw [final_BootWait, hr, h3]
  · intro h1 h2 h3
    have hr : (finalConfig env (c.setTpl t)).RawSSHWaitTimeout = "200m" := by
      rw [final_RawSSHWaitTimeout, if_pos h1, h2]
    refine ⟨hr, ?_⟩
    rw [final_sshWaitTimeout, hr, h3]
  · intro h1 h2
    rw [final_OutputDir, if_pos h1, h2]

/-- The amended C7 at `demoConfig`, which leaves every option unset. -/
theorem Prepare_defaults_witness :
    demoEnv.DecodeConfig freshBuilder.config [demoConfig] = (demoConfig, (), none)
      ∧ demoEnv.NewConfigTemplate = (true, none)
      ∧ (freshBuilder.Prepare demoEnv [demoConfig]).1.config.RawBootWait = "5s"
      ∧ (freshBuilder.Prepare demoEnv [demoConfig]).1.config.BootWait = 5000000000 :=
  ⟨rfl, rfl,
    (Prepare_defaults demoEnv freshBuilder [demoConfig] demoConfig () true
      rfl rfl).2.2.2.2.2.2.2.2.2.1 rfl rfl rfl⟩

/-- C7 as stated fails: `templatedBootWaitConfig` sets `boot_wait` to a
non-empty string, a template that prints `7s`; `Prepare` accepts the input
and leaves `7s` in `RawBootWait`, the result of the templating pass, not the
supplied value. -/
theorem supplied_boot_wait_not_kept :
    demoEnv.DecodeConfig freshBuilder.config [templatedBootWaitConfig] =
        (templatedBootWaitConfig, (), none)
      ∧ templatedBootWaitConfig.RawBootWait ≠ ""
      ∧ (freshBuilder.Prepare demoEnv [templatedBootWaitConfig]).2.retErr = none
      ∧ (freshBuilder.Prepare demoEnv [templatedBootWaitConfig]).1.config.RawBootWait = "7s"
      ∧ (freshBuilder.Prepare demoEnv [templatedBootWaitConfig]).1.config.RawBootWait ≠
        templatedBootWaitConfig.RawBootWait := by
  have h : (freshBuilder.Prepare demoEnv [templatedBootWaitConfig]).1.config.RawBootWait =
      "7s" := by
    rw [Prepare_config demoEnv freshBuilder [templatedBootWaitConfig]
      templatedBootWaitConfig () true rfl rfl, final_RawBootWait]
    decide
  refine ⟨rfl, by decide, ?_, h, ?_⟩
  · rw [Prepare_retErr_eq_none_iff demoEnv freshBuilder [templatedBootWaitConfig]
      templatedBootWaitConfig () true rfl rfl, collected_eq_nil_iff_decoded]
    refine ⟨rfl, ?_, (by decide), (by intro cmd h; cases h), (by decide),
      (by intro f; cases f <;> decide), (by decide), Or.inl rfl, (by decide), rfl⟩
    intro k
    rw [setDefaults_eq]
    cases k <;> rfl
  · rw [h]
    decide

/-- C8. For every input that decodes (the template engine being created)
with an empty `ssh_username`, the templating pass mapping the empty string to
the empty string: `Prepare` fails, and the collected errors contain exactly
one error citing the missing SSH username, whatever else they contain. -/
theorem Prepare_missing_ssh_username {R : Type} (env : Env Raw Metadata)
    (b : Builder R) (raws : List Raw) (c : config) (md : Metadata) (t : Bool)
    (hdec : env.DecodeConfig b.config raws = (c, md, none))
    (htpl : env.NewConfigTemplate = (t, none))
    (hempty : c.SSHUser = "")
    (hplain : (env.Process .ssh_username "").1 = "") :
    (b.Prepare env raws).2.retErr ≠ none
      ∧ (b.Prepare env raws).2.errs.Errors.count .sshUsername = 1
      ∧ PrepError.sshUsername.Error = "An ssh_username must be specified." := by
  have hcount : (collected env (c.setTpl t) md).count .sshUsername = 1 := by
    rw [count_collected]
    show (checkSSH env (afterDurations env (c.setTpl t)) {}).Errors.count .sshUsername = 1
    rw [checkSSH_count_sshUsername, read_SSHUser, hempty, hplain, if_pos rfl]
  have hmem : PrepError.sshUsername ∈ collected env (c.setTpl t) md := by
    rw [← List.count_pos_iff, hcount]
    exact Nat.one_pos
  refine ⟨Prepare_retErr_ne_none_of_mem env b raws c md t hdec htpl _ hmem, ?_, rfl⟩
  rw [Prepare_errs env b raws c md t hdec htpl, hcount]

/-- C8 at `noUserConfig`. -/
theorem Prepare_missing_ssh_username_witness :
    demoEnv.DecodeConfig freshBuilder.config [noUserConfig] = (noUserConfig, (), none)
      ∧ noUserConfig.SSHUser = ""
      ∧ (freshBuilder.Prepare demoEnv [noUserConfig]).2.retErr ≠ none
      ∧ (freshBuilder.Prepare demoEnv [noUserConfig]).2.errs.Errors.count .sshUsername = 1 :=
  ⟨rfl, rfl,
    (Prepare_missing_ssh_username demoEnv freshBuilder [noUserConfig] noUserConfig () true
      rfl rfl rfl rfl).1,
    (Prepare_missing_ssh_username demoEnv freshBuilder [noUserConfig] noUserConfig () true
      rfl rfl rfl rfl).2.1⟩

/-- C9, amended. Every config `Prepare` accepts (nil error) has an SSH user
name, and its SSH key path is either empty or names a file that exists and
parses as a signing key. Nothing is required of the SSH password, and no
check compares password and key path. -/
theorem Prepare_accepted_ssh_access {R : Type} (env : Env Raw Metadata)
    (b : Builder R) (raws : List Raw) (c : config) (md : Metadata) (t : Bool)
    (hdec : env.DecodeConfig b.config raws = (c, md, none))
    (htpl : env.NewConfigTemplate = (t, none))
    (hok : (b.Prepare env raws).2.retErr = none) :
    (b.Prepare env raws).1.config.SSHUser ≠ ""
      ∧ ((b.Prepare env raws).1.config.SSHKeyPath = "" ∨
        (env.Stat (b.Prepare env raws).1.config.SSHKeyPath = none ∧
          env.FileSigner (b.Prepare env raws).1.config.SSHKeyPath = none)) := by
  rw [Prepare_retErr_eq_none_iff env b raws c md t hdec htpl, collected_eq_nil_iff] at hok
  have h := (blockErrors_ssh_eq_nil_iff env c md t).mp (hok .ssh)
  rw [Prepare_config env b raws c md t hdec htpl, final_SSHUser, final_SSHKeyPath]
  exact h

/-- C9 as stated fails: `bothCredentialsConfig` supplies an SSH password and
an SSH key path, `noCredentialsConfig` supplies neither, and `Prepare`
accepts both inputs, leaving both fields set in the first config and both
empty in the second. -/
theorem both_and_neither_credentials_accepted :
    demoEnv.DecodeConfig freshBuilder.config [bothCredentialsConfig] =
        (bothCredentialsConfig, (), none)
      ∧ (freshBuilder.Prepare demoEnv [bothCredentialsConfig]).2.retErr = none
      ∧ (freshBuilder.Prepare demoEnv [bothCredentialsConfig]).1.config.SSHPassword =
        "packer"
      ∧ (freshBuilder.Prepare demoEnv [bothCredentialsConfig]).1.config.SSHKeyPath =
        "/keys/id_rsa"
      ∧ demoEnv.DecodeConfig freshBuilder.config [noCredentialsConfig] =
        (noCredentialsConfig, (), none)
      ∧ (freshBuilder.Prepare demoEnv [noCredentialsConfig]).2.retErr = none
      ∧ (freshBuilder.Prepare demoEnv [noCredentialsConfig]).1.config.SSHPassword = ""
      ∧ (freshBuilder.Prepare demoEnv [noCredentialsConfig]).1.config.SSHKeyPath = "" := by
  refine ⟨rfl, ?_, ?_, ?_, rfl, ?_, ?_, ?_⟩
  · rw [Prepare_retErr_eq_none_iff demoEnv freshBuilder [bothCredentialsConfig]
      bothCredentialsConfig () true rfl rfl, collected_eq_nil_iff_decoded]
    refine ⟨rfl, ?_, (by decide), (by intro cmd h; cases h), (by decide),
      (by intro f; cases f <;> decide), (by decide), Or.inl rfl, (by decide), rfl⟩
    intro k
    rw [setDefaults_eq]
    cases k <;> rfl
  · rw [Prepare_config demoEnv freshBuilder [bothCredentialsConfig] bothCredentialsConfig ()
      true rfl rfl, final_SSHPassword]
    decide
  · rw [Prepare_config demoEnv freshBuilder [bothCredentialsConfig] bothCredentialsConfig ()
      true rfl rfl, final_SSHKeyPath]
    decide
  · rw [Prepare_retErr_eq_none_iff demoEnv freshBuilder [noCredentialsConfig]
      noCredentialsConfig () true rfl rfl, collected_eq_nil_iff_decoded]
    refine ⟨rfl, ?_, (by decide), (by intro cmd h; cases h), (by decide),
      (by intro f; cases f <;> decide), (by decide), Or.inl rfl, (by decide), rfl⟩
    intro k
    rw [setDefaults_eq]
    cases k <;> rfl
  · rw [Prepare_config demoEnv freshBuilder [noCredentialsConfig] noCredentialsConfig ()
      true rfl rfl, final_SSHPassword]
    decide
  · rw [Prepare_config demoEnv freshBuilder [noCredentialsConfig] noCredentialsConfig ()
      true rfl rfl, final_SSHKeyPath]
    decide

/-- The accepted input `demoConfig`, by the acceptance criterion. -/
theorem demoConfig_accepted : (freshBuilder.Prepare demoEnv [demoConfig]).2.retErr = none := by
  rw [Prepare_retErr_eq_none_iff demoEnv freshBuilder [demoConfig] demoConfig () true
    rfl rfl, collected_eq_nil_iff_decoded]
  refine ⟨rfl, ?_, (by decide), (by intro cmd h; cases h), (by decide),
    (by intro f; cases f <;> decide), (by decide), Or.inl rfl, (by decide), rfl⟩
  intro k
  rw [setDefaults_eq]
  cases k <;> rfl

/-- The amended C9 at `demoConfig`: it is accepted, with a user name and no key path. -/
theorem Prepare_accepted_ssh_access_witness :
    demoEnv.DecodeConfig freshBuilder.config [demoConfig] = (demoConfig, (), none)
      ∧ (freshBuilder.Prepare demoEnv [demoConfig]).2.retErr = none
      ∧ (freshBuilder.Prepare demoEnv [demoConfig]).1.config.SSHUser ≠ "" :=
  ⟨rfl, demoConfig_accepted,
    (Prepare_accepted_ssh_access demoEnv freshBuilder [demoConfig] demoConfig () true
      rfl rfl demoConfig_accepted).1⟩

/-- C10. For every input that decodes (the template engine being created):
when the decoded `iso_url` is not empty, the resulting list of URLs has
exactly one element, what `common.DownloadableURL` returns for that
`iso_url`, whatever list `iso_urls` held; and for every position `i` of the
list the loop walks (the single URL, or `iso_urls` when the single URL is
empty) whose entry fails to normalize, the collected errors contain the error
carrying `i`. -/
theorem Prepare_media_urls {R : Type} (env : Env Raw Metadata)
    (b : Builder R) (raws : List Raw) (c : config) (md : Metadata) (t : Bool)
    (hdec : env.DecodeConfig b.config raws = (c, md, none))
    (htpl : env.NewConfigTemplate = (t, none)) :
    (c.ISOUrl ≠ "" →
        (b.Prepare env raws).1.config.ISOUrls = [(env.DownloadableURL c.ISOUrl).1])
      ∧ (∀ (i : Nat) (url err : String),
          (if c.ISOUrl = "" then c.ISOUrls else [c.ISOUrl])[i]? = some url →
          (env.DownloadableURL url).2 = some err →
          PrepError.isoUrl i err ∈ (b.Prepare env raws).2.errs.Errors ∧
            (b.Prepare env raws).2.retErr ≠ none)
      ∧ (b.Prepare env raws).1.config.ISOUrls =
          (if c.ISOUrl = "" then c.ISOUrls else [c.ISOUrl]).map fun url =>
            (env.DownloadableURL url).1 := by
  have hfail := Prepare_retErr_ne_none_of_mem env b raws c md t hdec htpl
  rw [Prepare_errs env b raws c md t hdec htpl, Prepare_config env b raws c md t hdec htpl]
  refine ⟨?_, ?_, final_ISOUrls env c t⟩
  · intro h
    rw [final_ISOUrls, if_neg h]
    rfl
  · intro i url err hi he
    have hm : PrepError.isoUrl i err ∈ collected env (c.setTpl t) md := by
      rw [mem_collected_iff]
      show _ ∈ (foldIsoUrl (afterChecksum env (c.setTpl t)) {}).2.Errors
        ++ (normalizeUrls env 0 (afterFold env (c.setTpl t)).ISOUrls {}).2.Errors
      rw [List.mem_append]
      right
      rw [afterFold_ISOUrls]
      have := normalizeUrls_mem env 0 _ i url err hi he
      rwa [Nat.zero_add] at this
    exact ⟨hm, hfail _ hm⟩

/-- C10 at `urlListConfig`: the list supplied next to the single URL is dropped. -/
theorem Prepare_media_urls_witness :
    demoEnv.DecodeConfig freshBuilder.config [urlListConfig] = (urlListConfig, (), none)
      ∧ urlListConfig.ISOUrl ≠ ""
      ∧ urlListConfig.ISOUrls = ["ftp://a/b.iso", "http://mirror.example/os.iso"]
      ∧ (freshBuilder.Prepare demoEnv [urlListConfig]).1.config.ISOUrls =
        [(demoEnv.DownloadableURL urlListConfig.ISOUrl).1] :=
  ⟨rfl, by decide, rfl,
    (Prepare_media_urls demoEnv freshBuilder [urlListConfig] urlListConfig () true
      rfl rfl).1 (by decide)⟩

/-- C11. For every input that decodes (the template engine being created)
and every entry `k` of `templates`: the collected errors contain exactly one
error naming `k` (`Error processing <key>: <error>`) when the templating of
`k` fails, and none naming `k` otherwise, whichever other entries fail; the
loop still stores what `tpl.Process` returned in every entry, and everything
each later block reports is collected too (no early return). -/
theorem Prepare_template_errors {R : Type} (env : Env Raw Metadata)
    (b : Builder R) (raws : List Raw) (c : config) (md : Metadata) (t : Bool)
    (hdec : env.DecodeConfig b.config raws = (c, md, none))
    (htpl : env.NewConfigTemplate = (t, none)) :
    (∀ (k : TemplKey) (err : String),
        (env.Process k ((setDefaults c).get k)).2 = some err →
        (b.Prepare env raws).2.errs.Errors.filter (PrepError.isTemplateOf k) =
            [PrepError.template k err] ∧
          (PrepError.template k err).Error = "Error processing " ++ k.name ++ ": " ++ err ∧
          (b.Prepare env raws).2.retErr ≠ none)
      ∧ (∀ k : TemplKey, (env.Process k ((setDefaults c).get k)).2 = none →
        (b.Prepare env raws).2.errs.Errors.filter (PrepError.isTemplateOf k) = [])
      ∧ (∀ k : TemplKey,
        (afterTemplates env (c.setTpl t)).get k =
          (env.Process k ((setDefaults c).get k)).1)
      ∧ (∀ k : TemplKey, k ≠ .iso_checksum_type → k ≠ .iso_checksum →
        (b.Prepare env raws).1.config.get k = (env.Process k ((setDefaults c).get k)).1)
      ∧ (∀ (X : Block) (e : PrepError), e ∈ blockErrors env (c.setTpl t) md X →
        e ∈ (b.Prepare env raws).2.errs.Errors) := by
  rw [Prepare_errs env b raws c md t hdec htpl, Prepare_config env b raws c md t hdec htpl]
  refine ⟨?_, ?_, ?_, ?_, ?_⟩
  · intro k err h
    have hf : (collected env (c.setTpl t) md).filter (PrepError.isTemplateOf k) =
        [PrepError.template k err] := by
      rw [collected_template, h]
      rfl
    refine ⟨hf, rfl, ?_⟩
    apply Prepare_retErr_ne_none_of_mem env b raws c md t hdec htpl (PrepError.template k err)
    have hm : PrepError.template k err ∈
        (collected env (c.setTpl t) md).filter (PrepError.isTemplateOf k) := by
      rw [hf]
      exact List.mem_singleton_self _
    exact (List.mem_filter.mp hm).1
  · intro k h
    rw [collected_template, h]
    rfl
  · intro k
    rw [afterTemplates, templated_get, setDefaults_setTpl_get]
  · intro k h1 h2
    rw [finalConfig_get env _ k h1 h2, setDefaults_setTpl_get]
  · intro X e he
    exact blockErrors_subset_collected env _ md X e he

/-- C11 at `brokenPasswordConfig`, where only `ssh_password` fails to template. -/
theorem Prepare_template_errors_witness :
    demoEnv.DecodeConfig freshBuilder.config [brokenPasswordConfig] =
        (brokenPasswordConfig, (), none)
      ∧ demoEnv.NewConfigTemplate = (true, none)
      ∧ (demoEnv.Process .ssh_password
          ((setDefaults brokenPasswordConfig).get .ssh_password)).2 =
        some "template: unexpected unclosed action"
      ∧ (freshBuilder.Prepare demoEnv [brokenPasswordConfig]).2.errs.Errors.filter
          (PrepError.isTemplateOf .ssh_password) =
        [PrepError.template .ssh_password "template: unexpected unclosed action"] :=
  ⟨rfl, rfl, by rw [setDefaults_eq]; rfl,
    ((Prepare_template_errors demoEnv freshBuilder [brokenPasswordConfig]
      brokenPasswordConfig () true rfl rfl).1 .ssh_password
      "template: unexpected unclosed action" (by rw [setDefaults_eq]; rfl)).1⟩

/-- C19: the code at the failing input `templatedUrlConfig`. Its `iso_url`
is a template that resolves to `demoIsoUrl`, which normalizes to itself; the
templating pass stores the resolved value in the field `IsoUrl`, while the
list of URLs is built from the field `ISOUrl`, which still holds the raw
string: the list holds the result of normalizing the raw template, and
`Prepare` rejects the input. -/
theorem templated_iso_url_not_resolved :
    demoEnv.DecodeConfig freshBuilder.config [templatedUrlConfig] =
        (templatedUrlConfig, (), none)
      ∧ templatedUrlConfig.IsoUrl = templatedUrlConfig.ISOUrl
      ∧ (demoEnv.Process .iso_url templatedUrlConfig.IsoUrl).1 = demoIsoUrl
      ∧ (demoEnv.DownloadableURL demoIsoUrl).1 = demoIsoUrl
      ∧ (freshBuilder.Prepare demoEnv [templatedUrlConfig]).1.config.IsoUrl = demoIsoUrl
      ∧ (freshBuilder.Prepare demoEnv [templatedUrlConfig]).1.config.ISOUrl = urlAction
      ∧ (freshBuilder.Prepare demoEnv [templatedUrlConfig]).1.config.ISOUrls =
        [(demoEnv.DownloadableURL urlAction).1]
      ∧ (freshBuilder.Prepare demoEnv [templatedUrlConfig]).1.config.ISOUrls ≠
        [(demoEnv.DownloadableURL
          (demoEnv.Process .iso_url templatedUrlConfig.IsoUrl).1).1]
      ∧ (freshBuilder.Prepare demoEnv [templatedUrlConfig]).2.retErr ≠ none := by
  have hc := Prepare_config demoEnv freshBuilder [templatedUrlConfig] templatedUrlConfig ()
    true rfl rfl
  have hu : (freshBuilder.Prepare demoEnv [templatedUrlConfig]).1.config.ISOUrls =
      [(demoEnv.DownloadableURL urlAction).1] := by
    rw [hc, final_ISOUrls]
    decide
  refine ⟨rfl, rfl, by decide, by decide, ?_, ?_, hu, ?_, ?_⟩
  · rw [hc, final_IsoUrl]
    decide
  · rw [hc, finalConfig_proj demoEnv (fun c => c.ISOUrl) (by intro c k v; cases k <;> rfl)
      (fun _ _ => rfl) (fun _ _ => rfl) (fun _ _ => rfl) (fun _ _ => rfl), setDefaults_eq]
    rfl
  · rw [hu]
    decide
  · apply Prepare_retErr_ne_none_of_mem demoEnv freshBuilder [templatedUrlConfig]
      templatedUrlConfig () true rfl rfl (PrepError.isoUrl 0 "Unsupported URL scheme")
    rw [mem_collected_iff]
    show _ ∈ (foldIsoUrl (afterChecksum demoEnv (templatedUrlConfig.setTpl true)) {}).2.Errors
      ++ (normalizeUrls demoEnv 0 (afterFold demoEnv (templatedUrlConfig.setTpl true)).ISOUrls
        {}).2.Errors
    rw [List.mem_append]
    right
    rw [afterFold_ISOUrls]
    exact normalizeUrls_mem demoEnv 0 _ 0 urlAction "Unsupported URL scheme" (by decide)
      (by decide)

/-- C20. For every input that decodes (the template engine being created)
with an empty `iso_url`: `Prepare` fails and collects the error
`A ISO URL must be specfied.`, whatever list `iso_urls` holds and however
well its entries normalize; the entries of that list are still replaced by
what `common.DownloadableURL` returns for them. -/
theorem Prepare_empty_iso_url {R : Type} (env : Env Raw Metadata)
    (b : Builder R) (raws : List Raw) (c : config) (md : Metadata) (t : Bool)
    (hdec : env.DecodeConfig b.config raws = (c, md, none))
    (htpl : env.NewConfigTemplate = (t, none))
    (hempty : c.ISOUrl = "") :
    PrepError.isoUrlMissing ∈ (b.Prepare env raws).2.errs.Errors
      ∧ PrepError.isoUrlMissing.Error = "A ISO URL must be specfied."
      ∧ (b.Prepare env raws).2.retErr ≠ none
      ∧ (b.Prepare env raws).1.config.ISOUrls =
        c.ISOUrls.map fun url => (env.DownloadableURL url).1 := by
  have hm := collected_mem_isoUrlMissing env c md t hempty
  refine ⟨?_, rfl, Prepare_retErr_ne_none_of_mem env b raws c md t hdec htpl _ hm, ?_⟩
  · rw [Prepare_errs env b raws c md t hdec htpl]
    exact hm
  · rw [Prepare_config env b raws c md t hdec htpl, final_ISOUrls, if_pos hempty]

/-- C20 at `onlyUrlListConfig`, whose list holds one normalizable URL. -/
theorem Prepare_empty_iso_url_witness :
    demoEnv.DecodeConfig freshBuilder.config [onlyUrlListConfig] =
        (onlyUrlListConfig, (), none)
      ∧ onlyUrlListConfig.ISOUrl = ""
      ∧ onlyUrlListConfig.ISOUrls = ["http://mirror.example/os.iso"]
      ∧ (demoEnv.DownloadableURL "http://mirror.example/os.iso").2 = none
      ∧ (freshBuilder.Prepare demoEnv [onlyUrlListConfig]).2.retErr ≠ none :=
  ⟨rfl, rfl, rfl, rfl,
    (Prepare_empty_iso_url demoEnv freshBuilder [onlyUrlListConfig] onlyUrlListConfig ()
      true rfl rfl rfl).2.2.1⟩

/-- C12. For every run in which the login succeeds and the state bag holds
an error `e` under the key `error` when the runner returns, `Run` returns a
nil artifact together with exactly `e`. -/
theorem Run_returns_context_error (env : RunEnv) (self : Builder BasicRunner)
    (ui : Ui) (hook : Hook) (cache : Cache) (e : String)
    (hlogin : env.Login self.config.client = none)
    (herr : (self.pipelineState env ui hook cache).GetOk "error" = some (.error e)) :
    (self.Run env ui hook cache).2.ret = .returned none (some e) :=
  Run_ret_of_error env self ui hook cache e hlogin herr

/-- C12 at a run in which a step fails with the message `SR full`. -/
theorem Run_returns_context_error_witness :
    failedStepEnv.Login preparedBuilder.config.client = none
      ∧ (preparedBuilder.pipelineState failedStepEnv demoUi demoHook demoCache).GetOk "error" =
        some (.error "SR full")
      ∧ (preparedBuilder.Run failedStepEnv demoUi demoHook demoCache).2.ret =
        .returned none (some "SR full") :=
  ⟨rfl, by decide,
    Run_returns_context_error failedStepEnv preparedBuilder demoUi demoHook demoCache
      "SR full" rfl (by decide)⟩

/-- C13, refuted as stated: in the run of `failedStepEnv` the state bag holds
the error `SR full` when the runner returns, and `Run` has called
`NewArtifact` on the output directory all the same. -/
theorem producer_invoked_despite_step_error :
    failedStepEnv.Login preparedBuilder.config.client = none
      ∧ (preparedBuilder.pipelineState failedStepEnv demoUi demoHook demoCache).GetOk "error" =
        some (.error "SR full")
      ∧ Event.NewArtifact "output-xen" ∈
        (preparedBuilder.Run failedStepEnv demoUi demoHook demoCache).2.trace := by
  refine ⟨rfl, by decide, ?_⟩
  rw [Run_trace failedStepEnv preparedBuilder demoUi demoHook demoCache rfl]
  decide

/-- C13, amended. In every run in which the login succeeds `Run` calls
`NewArtifact` exactly once, on the configured output directory, directly after
the runner has returned and before it looks up the key `error`, whether or not
the state bag holds an error; when it holds an error `e`, `Run` returns a nil
artifact and `e`, whatever `NewArtifact` returned. -/
theorem Run_invokes_producer_after_pipeline (env : RunEnv)
    (self : Builder BasicRunner) (ui : Ui) (hook : Hook) (cache : Cache)
    (hlogin : env.Login self.config.client = none) :
    (self.Run env ui hook cache).2.trace.filter Event.isNewArtifact =
        [.NewArtifact self.config.OutputDir]
      ∧ (∃ before, (self.Run env ui hook cache).2.trace =
          before ++ [.RunnerRun self.config.steps, .NewArtifact self.config.OutputDir,
            .GetOk "error"]
        ∧ before.filter Event.isNewArtifact = [])
      ∧ (∀ e, (self.pipelineState env ui hook cache).GetOk "error" = some (.error e) →
        (self.Run env ui hook cache).2.ret = .returned none (some e)) := by
  rw [Run_trace env self ui hook cache hlogin]
  refine ⟨runTrace_filter_isNewArtifact _ _ _ _ _,
    ⟨(runTrace self.config self.config.client ui hook cache).take 10, rfl, rfl⟩, ?_⟩
  intro e herr
  exact Run_ret_of_error env self ui hook cache e hlogin herr

/-- C13, amended, at the run of `failedStepEnv`. -/
theorem Run_invokes_producer_after_pipeline_witness :
    failedStepEnv.Login preparedBuilder.config.client = none
      ∧ (preparedBuilder.Run failedStepEnv demoUi demoHook demoCache).2.trace.filter
          Event.isNewArtifact = [.NewArtifact "output-xen"] :=
  ⟨rfl, (Run_invokes_producer_after_pipeline failedStepEnv preparedBuilder demoUi demoHook
    demoCache rfl).1⟩

/-- C14, refuted as stated: in the run of `failedProducerEnv` the login
succeeds, no step writes an error, the producer fails, and `Run` returns a nil
artifact together with a nil error. -/
theorem nil_artifact_with_nil_error :
    failedProducerEnv.Login preparedBuilder.config.client = none
      ∧ (preparedBuilder.pipelineState failedProducerEnv demoUi demoHook demoCache).GetOk
          "error" = none
      ∧ failedProducerEnv.NewArtifact preparedBuilder.config.OutputDir =
        (none, some "no such file or directory")
      ∧ (preparedBuilder.Run failedProducerEnv demoUi demoHook demoCache).2.ret =
        .returned none none := by
  refine ⟨rfl, by decide, rfl, ?_⟩
  rw [Run_ret_of_no_error failedProducerEnv preparedBuilder demoUi demoHook demoCache rfl
    (by decide)]
  rfl

/-- C14, amended. For every run in which the login succeeds and the state bag
holds nothing under `error` when the runner returns, `Run` calls `NewArtifact`
exactly once, on the configured output directory, and returns the artifact
that call returned together with a nil error: a non-nil artifact whenever
`NewArtifact` returns one. In every run, `Run` returns a nil artifact with a
nil error only if the login succeeded, no error is in the state bag and
`NewArtifact` returned a nil artifact. -/
theorem Run_returns_producer_artifact (env : RunEnv) (self : Builder BasicRunner)
    (ui : Ui) (hook : Hook) (cache : Cache) :
    (env.Login self.config.client = none →
        (self.pipelineState env ui hook cache).GetOk "error" = none →
        (self.Run env ui hook cache).2.trace.filter Event.isNewArtifact =
            [.NewArtifact self.config.OutputDir]
          ∧ (self.Run env ui hook cache).2.ret =
            .returned (env.NewArtifact self.config.OutputDir).1 none
          ∧ ∀ a, (env.NewArtifact self.config.OutputDir).1 = some a →
            (self.Run env ui hook cache).2.ret = .returned (some a) none)
      ∧ ((self.Run env ui hook cache).2.ret = .returned none none →
        env.Login self.config.client = none
          ∧ (self.pipelineState env ui hook cache).GetOk "error" = none
          ∧ (env.NewArtifact self.config.OutputDir).1 = none) := by
  constructor
  · intro hlogin herr
    have hret := Run_ret_of_no_error env self ui hook cache hlogin herr
    refine ⟨?_, hret, ?_⟩
    · rw [Run_trace env self ui hook cache hlogin]
      exact runTrace_filter_isNewArtifact _ _ _ _ _
    · intro a ha
      rw [hret, ha]
  · intro hret
    cases hlogin : env.Login self.config.client with
    | some e =>
      rw [Run_of_login_error env self ui hook cache e hlogin] at hret
      simp at hret
    | none =>
      cases herr : (self.pipelineState env ui hook cache).GetOk "error" with
      | none =>
        rw [Run_ret_of_no_error env self ui hook cache hlogin herr] at hret
        refine ⟨rfl, rfl, ?_⟩
        simpa using hret
      | some v =>
        exfalso
        simp only [Builder.pipelineState] at herr
        simp only [Builder.Run, hlogin, herr] at hret
        cases v <;> simp at hret

/-- C14, amended, at the run of `demoRunEnv`, in which the producer returns
`demoArtifact`. -/
theorem Run_returns_producer_artifact_witness :
    demoRunEnv.Login preparedBuilder.config.client = none
      ∧ (preparedBuilder.pipelineState demoRunEnv demoUi demoHook demoCache).GetOk "error" =
        none
      ∧ (preparedBuilder.Run demoRunEnv demoUi demoHook demoCache).2.ret =
        .returned (some demoArtifact) none :=
  ⟨rfl, by decide,
    ((Run_returns_producer_artifact demoRunEnv preparedBuilder demoUi demoHook demoCache).1
      rfl (by decide)).2.2 demoArtifact rfl⟩

/-- C15. If the login fails with the error `e`, `Run` returns a nil artifact
and `e`, leaves the builder as it was (no runner is created), and has called
nothing but `NewXenAPIClient` and `Login`: no host enumeration, no state bag
created or written, no run of the steps and no `NewArtifact`. -/
theorem Run_login_failure (env : RunEnv) (self : Builder BasicRunner)
    (ui : Ui) (hook : Hook) (cache : Cache) (e : String)
    (hlogin : env.Login self.config.client = some e) :
    (self.Run env ui hook cache).2.ret = .returned none (some e)
      ∧ (self.Run env ui hook cache).1 = self
      ∧ (self.Run env ui hook cache).2.trace =
        [.NewXenAPIClient self.config.HostIp self.config.Username self.config.Password,
          .Login]
      ∧ ∀ ev ∈ (self.Run env ui hook cache).2.trace, ev.afterLogin = false := by
  rw [Run_of_login_error env self ui hook cache e hlogin]
  refine ⟨rfl, rfl, rfl, ?_⟩
  intro ev hev
  simp only [List.mem_cons, List.mem_singleton, List.not_mem_nil, or_false] at hev
  rcases hev with h | h <;> rw [h] <;> rfl

/-- C15 at a run in which the login is refused. -/
theorem Run_login_failure_witness :
    failedLoginEnv.Login preparedBuilder.config.client = some "authentication failed"
      ∧ (preparedBuilder.Run failedLoginEnv demoUi demoHook demoCache).2.ret =
        .returned none (some "authentication failed") :=
  ⟨rfl, (Run_login_failure failedLoginEnv preparedBuilder demoUi demoHook demoCache
    "authentication failed" rfl).1⟩

/-- C16, refuted as stated: in the run of `cancelledEnv` the runner is
cancelled before the first step and no step writes an error; `Run` returns
the artifact with a nil error, the very result of the completed build of
`demoRunEnv`. -/
theorem cancelled_build_returned_as_success :
    cancelledEnv.Login preparedBuilder.config.client = none
      ∧ (preparedBuilder.pipelineState cancelledEnv demoUi demoHook demoCache).GetOk
          "cancelled" = some (.bool true)
      ∧ (preparedBuilder.pipelineState cancelledEnv demoUi demoHook demoCache).GetOk
          "error" = none
      ∧ (preparedBuilder.Run cancelledEnv demoUi demoHook demoCache).2.ret =
        .returned (some demoArtifact) none
      ∧ (preparedBuilder.Run cancelledEnv demoUi demoHook demoCache).2.ret =
        (preparedBuilder.Run demoRunEnv demoUi demoHook demoCache).2.ret := by
  have h1 := Run_ret_of_no_error cancelledEnv preparedBuilder demoUi demoHook demoCache rfl
    (by decide)
  have h2 := Run_ret_of_no_error demoRunEnv preparedBuilder demoUi demoHook demoCache rfl
    (by decide)
  refine ⟨rfl, by decide, by decide, ?_, ?_⟩
  · rw [h1]
    rfl
  · rw [h1, h2]
    rfl

/-- C16, amended. `Run` reads nothing of the state bag but the key `error`:
any two runs in which the login succeeds and no error is in the state bag when
the runner returns, such as a run whose pipeline was cancelled and one whose
pipeline completed, return the same with the same producer, the producer's
artifact with a nil error, after the same calls; both differ from every run
that ends with an error in the state bag, which returns a nil artifact and
that error. -/
theorem Run_cancelled_as_completed (env env' : RunEnv) (self : Builder BasicRunner)
    (ui : Ui) (hook : Hook) (cache : Cache)
    (hlogin : env.Login self.config.client = none)
    (hlogin' : env'.Login self.config.client = none)
    (hproducer : env'.NewArtifact = env.NewArtifact)
    (herr : (self.pipelineState env ui hook cache).GetOk "error" = none)
    (herr' : (self.pipelineState env' ui hook cache).GetOk "error" = none) :
    (self.Run env ui hook cache).2.ret =
        .returned (env.NewArtifact self.config.OutputDir).1 none
      ∧ (self.Run env ui hook cache).2.ret = (self.Run env' ui hook cache).2.ret
      ∧ (self.Run env ui hook cache).2.trace = (self.Run env' ui hook cache).2.trace
      ∧ ∀ (failed : RunEnv) (e : String), failed.Login self.config.client = none →
        (self.pipelineState failed ui hook cache).GetOk "error" = some (.error e) →
        (self.Run failed ui hook cache).2.ret = .returned none (some e)
          ∧ (self.Run failed ui hook cache).2.ret ≠ (self.Run env ui hook cache).2.ret := by
  have h1 := Run_ret_of_no_error env self ui hook cache hlogin herr
  have h2 := Run_ret_of_no_error env' self ui hook cache hlogin' herr'
  refine ⟨h1, ?_, ?_, ?_⟩
  · rw [h1, h2, hproducer]
  · rw [Run_trace env self ui hook cache hlogin, Run_trace env' self ui hook cache hlogin']
  · intro failed e hl he
    have h3 := Run_ret_of_error failed self ui hook cache e hl he
    refine ⟨h3, ?_⟩
    rw [h3, h1]
    simp

/-- C16, amended, at the cancelled run of `cancelledEnv` and the completed run
of `demoRunEnv`. -/
theorem Run_cancelled_as_completed_witness :
    (preparedBuilder.pipelineState cancelledEnv demoUi demoHook demoCache).GetOk
        "cancelled" = some (.bool true)
      ∧ (preparedBuilder.pipelineState demoRunEnv demoUi demoHook demoCache).GetOk
        "cancelled" = none
      ∧ (preparedBuilder.Run cancelledEnv demoUi demoHook demoCache).2.trace =
        (preparedBuilder.Run demoRunEnv demoUi demoHook demoCache).2.trace :=
  ⟨by decide, by decide,
    (Run_cancelled_as_completed cancelledEnv demoRunEnv preparedBuilder demoUi demoHook
      demoCache rfl rfl rfl (by decide) (by decide)).2.2.1⟩

/-- C17, refuted as stated: the input `braceNameOverlay` lacks
`output_directory` and names the build with a template that prints two
opening braces. The first `Prepare` accepts it and leaves the templated
default `output-` followed by two braces as output directory; the second
`Prepare` with the same input finds that directory set, templates it again,
fails on the unclosed action, leaves the directory empty and returns an
error. -/
theorem second_Prepare_differs :
    overlayEnv.DecodeConfig freshBuilder.config [braceNameOverlay] =
        (braceNameOverlay {}, (), none)
      ∧ overlayEnv.DecodeConfig (freshBuilder.Prepare overlayEnv [braceNameOverlay]).1.config
          [braceNameOverlay] =
        (braceNameOverlay (freshBuilder.Prepare overlayEnv [braceNameOverlay]).1.config, (),
          none)
      ∧ (freshBuilder.Prepare overlayEnv [braceNameOverlay]).2.retErr = none
      ∧ (freshBuilder.Prepare overlayEnv [braceNameOverlay]).1.config.OutputDir =
        "output-\x7b\x7b"
      ∧ ((freshBuilder.Prepare overlayEnv [braceNameOverlay]).1.Prepare overlayEnv
          [braceNameOverlay]).1.config.OutputDir = ""
      ∧ ((freshBuilder.Prepare overlayEnv [braceNameOverlay]).1.Prepare overlayEnv
          [braceNameOverlay]).2.retErr ≠ none
      ∧ ((freshBuilder.Prepare overlayEnv [braceNameOverlay]).1.Prepare overlayEnv
          [braceNameOverlay]).1.config ≠
        (freshBuilder.Prepare overlayEnv [braceNameOverlay]).1.config
      ∧ ((freshBuilder.Prepare overlayEnv [braceNameOverlay]).1.Prepare overlayEnv
          [braceNameOverlay]).2.errs.Errors ≠
        (freshBuilder.Prepare overlayEnv [braceNameOverlay]).2.errs.Errors := by
  have hdir : ((freshBuilder.Prepare overlayEnv [braceNameOverlay]).1.Prepare overlayEnv
      [braceNameOverlay]).1.config.OutputDir = "" := by
    rw [Prepare_config overlayEnv (freshBuilder.Prepare overlayEnv [braceNameOverlay]).1
      [braceNameOverlay] _ () true (overlay_decode _ _) rfl, final_OutputDir,
      (braceNameOverlay_fields _).1, brace_first_OutputDir]
    decide
  have hmem : PrepError.template .output_directory "template: unclosed action" ∈
      collected overlayEnv ((braceNameOverlay
        (freshBuilder.Prepare overlayEnv [braceNameOverlay]).1.config).setTpl true) () := by
    have hf := collected_template overlayEnv
      (braceNameOverlay (freshBuilder.Prepare overlayEnv [braceNameOverlay]).1.config) ()
      true .output_directory
    rw [brace_second_template_error] at hf
    have hin : PrepError.template .output_directory "template: unclosed action" ∈
        (collected overlayEnv ((braceNameOverlay
          (freshBuilder.Prepare overlayEnv [braceNameOverlay]).1.config).setTpl true)
          ()).filter (PrepError.isTemplateOf .output_directory) := by
      rw [hf]
      exact List.mem_singleton_self _
    exact (List.mem_filter.mp hin).1
  have herr := Prepare_retErr_ne_none_of_mem overlayEnv
    (freshBuilder.Prepare overlayEnv [braceNameOverlay]).1 [braceNameOverlay] _ () true
    (overlay_decode _ _) rfl _ hmem
  refine ⟨rfl, overlay_decode _ _, brace_first_accepted, brace_first_OutputDir, hdir, herr,
    ?_, ?_⟩
  · intro h
    have h2 := congrArg config.OutputDir h
    rw [hdir, brace_first_OutputDir] at h2
    exact absurd h2 (by decide)
  · rw [Prepare_errs overlayEnv (freshBuilder.Prepare overlayEnv [braceNameOverlay]).1
      [braceNameOverlay] _ () true (overlay_decode _ _) rfl,
      Prepare_errs overlayEnv freshBuilder [braceNameOverlay] (braceNameOverlay {}) () true
        rfl rfl,
      (Prepare_retErr_eq_none_iff overlayEnv freshBuilder [braceNameOverlay]
        (braceNameOverlay {}) () true rfl rfl).mp brace_first_accepted]
    intro h
    rw [h] at hmem
    cases hmem

/-- C17, amended. Let an input decode (the template engine being created)
and let it decode a second time, into the config the first `Prepare` left,
with the same metadata. If that second decoding gives the build name, the
boot commands and the single URL of the first decoding; gives every port and
the platform arguments as the first decoding did or as the first `Prepare`
left them; gives for every entry of `templates` the string of the first
decoding, or a string for which `tpl.Process` (after defaulting) returns what
it returned the first time; and gives the list of URLs of the first decoding
unless the single URL is set: then the second `Prepare` leaves the builder as
the first left it and returns the same errors and the same result. -/
theorem Prepare_again_same_of_stable {R : Type} (env : Env Raw Metadata)
    (b : Builder R) (raws : List Raw) (c c2 : config)
    (md : Metadata) (t : Bool)
    (hdec : env.DecodeConfig b.config raws = (c, md, none))
    (htpl : env.NewConfigTemplate = (t, none))
    (hdec2 : env.DecodeConfig (b.Prepare env raws).1.config raws = (c2, md, none))
    (hname : c2.toPackerConfig = c.toPackerConfig)
    (hkeys : ∀ k, c2.get k = c.get k ∨
      env.Process k ((setDefaults c2).get k) = env.Process k ((setDefaults c).get k))
    (hvmin : c2.VncPortMin = c.VncPortMin ∨
      c2.VncPortMin = (b.Prepare env raws).1.config.VncPortMin)
    (hvmax : c2.VncPortMax = c.VncPortMax ∨
      c2.VncPortMax = (b.Prepare env raws).1.config.VncPortMax)
    (hhmin : c2.HTTPPortMin = c.HTTPPortMin ∨
      c2.HTTPPortMin = (b.Prepare env raws).1.config.HTTPPortMin)
    (hhmax : c2.HTTPPortMax = c.HTTPPortMax ∨
      c2.HTTPPortMax = (b.Prepare env raws).1.config.HTTPPortMax)
    (hpa : c2.PlatformArgs = c.PlatformArgs ∨
      c2.PlatformArgs = (b.Prepare env raws).1.config.PlatformArgs)
    (hboot : c2.BootCommand = c.BootCommand)
    (hurl : c2.ISOUrl = c.ISOUrl)
    (hurls : c2.ISOUrls = c.ISOUrls ∨ c.ISOUrl ≠ "") :
    ((b.Prepare env raws).1.Prepare env raws).1 = (b.Prepare env raws).1
      ∧ ((b.Prepare env raws).1.Prepare env raws).2 = (b.Prepare env raws).2 := by
  have hc := Prepare_config env b raws c md t hdec htpl
  rw [hc, final_VncPortMin] at hvmin
  rw [hc, final_VncPortMax] at hvmax
  rw [hc, final_HTTPPortMin] at hhmin
  rw [hc, final_HTTPPortMax] at hhmax
  rw [hc, final_PlatformArgs] at hpa
  have hP : ∀ k, env.Process k ((setDefaults c2).get k) =
      env.Process k ((setDefaults c).get k) := by
    intro k
    rcases hkeys k with h | h
    · rw [setDefaults_get_congr c2 c k h hname]
    · exact h
  obtain ⟨hfinal, hcollected⟩ := validate_congr env c c2 md t hP hname
    (default_port_kept _ _ _ (by decide) hvmin) (default_port_kept _ _ _ (by decide) hvmax)
    (default_port_kept _ _ _ (by decide) hhmin) (default_port_kept _ _ _ (by decide) hhmax)
    hboot hurl (default_platform_args_kept _ _ hpa) hurls
  rw [Prepare_eq env (b.Prepare env raws).1 raws c2 md t hdec2 htpl, hfinal, hcollected]
  rw [Prepare_eq env b raws c md t hdec htpl]
  exact ⟨rfl, rfl⟩

/-- C17, amended, at the input `demoOverlay`, which lacks the ports, the
platform arguments, the two waits, the output directory and the list of URLs:
the second decoding keeps what the first `Prepare` left in them. -/
theorem Prepare_again_same_of_stable_witness :
    overlayEnv.DecodeConfig freshBuilder.config [demoOverlay] = (demoConfig, (), none)
      ∧ overlayEnv.DecodeConfig (freshBuilder.Prepare overlayEnv [demoOverlay]).1.config
          [demoOverlay] =
        (demoOverlay (freshBuilder.Prepare overlayEnv [demoOverlay]).1.config, (), none)
      ∧ ((freshBuilder.Prepare overlayEnv [demoOverlay]).1.Prepare overlayEnv [demoOverlay]).1 =
        (freshBuilder.Prepare overlayEnv [demoOverlay]).1
      ∧ ((freshBuilder.Prepare overlayEnv [demoOverlay]).1.Prepare overlayEnv [demoOverlay]).2 =
        (freshBuilder.Prepare overlayEnv [demoOverlay]).2 :=
  ⟨rfl, overlay_decode _ _,
    Prepare_again_same_of_stable overlayEnv freshBuilder [demoOverlay] demoConfig
      (demoOverlay (freshBuilder.Prepare overlayEnv [demoOverlay]).1.config) () true rfl rfl
      (overlay_decode _ _) (demoOverlay_fields _).1 demoOverlay_keys
      (Or.inr (demoOverlay_fields _).2.1) (Or.inr (demoOverlay_fields _).2.2.1)
      (Or.inr (demoOverlay_fields _).2.2.2.1) (Or.inr (demoOverlay_fields _).2.2.2.2.1)
      (Or.inr (demoOverlay_fields _).2.2.2.2.2.1)
      ((demoOverlay_fields _).2.2.2.2.2.2.1.trans demoOverlay_first_BootCommand)
      (demoOverlay_fields _).2.2.2.2.2.2.2.1 (Or.inr (by decide))⟩

/-- C18. `Cancel` returns for every builder and never writes the config. On
a builder without a runner it calls only `fmt.Println` and leaves the builder
as it is; on a builder with a runner it calls the runner's `Cancel` exactly
once, between `log.Println` and `fmt.Println`, and changes nothing else. -/
theorem Cancel_forwards_once {R : Type} (RunnerCancel : R → R) (self : Builder R) :
    (self.Cancel RunnerCancel).1.config = self.config
      ∧ (self.runner = none →
        self.Cancel RunnerCancel = (self, [.fmtPrintln "Cancelling the builder"])
          ∧ (self.Cancel RunnerCancel).2.count Event.RunnerCancel = 0)
      ∧ (∀ runner, self.runner = some runner →
        self.Cancel RunnerCancel =
            ({ self with runner := some (RunnerCancel runner) },
              [.logPrintln "Cancelling the step runner...", .RunnerCancel,
                .fmtPrintln "Cancelling the builder"])
          ∧ (self.Cancel RunnerCancel).2.count Event.RunnerCancel = 1) := by
  cases hr : self.runner with
  | none =>
    have h : self.Cancel RunnerCancel = (self, [.fmtPrintln "Cancelling the builder"]) := by
      simp only [Builder.Cancel, hr, List.nil_append]
    refine ⟨by rw [h], fun _ => ⟨h, (by rw [h]; rfl)⟩, ?_⟩
    intro runner hrun
    cases hrun
  | some r =>
    have h : self.Cancel RunnerCancel =
        ({ self with runner := some (RunnerCancel r) },
          [.logPrintln "Cancelling the step runner...", .RunnerCancel,
            .fmtPrintln "Cancelling the builder"]) := by
      simp only [Builder.Cancel, hr, List.cons_append, List.nil_append]
    refine ⟨by rw [h], (fun hnone => by cases hnone), ?_⟩
    intro runner hrun
    cases hrun
    exact ⟨h, (by rw [h]; rfl)⟩

/-- C18 at a builder before `Run` (no runner) and at the builder `Run` leaves
behind (a runner), with a runner whose `Cancel` drops its steps. -/
theorem Cancel_forwards_once_witness :
    preparedBuilder.runner = none
      ∧ (preparedBuilder.Cancel fun _ => ({} : BasicRunner)).2 =
        [.fmtPrintln "Cancelling the builder"]
      ∧ (preparedBuilder.Run demoRunEnv demoUi demoHook demoCache).1.runner =
        some { Steps := preparedConfig.steps }
      ∧ ((preparedBuilder.Run demoRunEnv demoUi demoHook demoCache).1.Cancel
          fun _ => ({} : BasicRunner)).2.count Event.RunnerCancel = 1 := by
  have hrun : (preparedBuilder.Run demoRunEnv demoUi demoHook demoCache).1.runner =
      some { Steps := preparedConfig.steps } := by
    rw [Run_builder demoRunEnv preparedBuilder demoUi demoHook demoCache rfl]
    rfl
  exact ⟨rfl,
    congrArg Prod.snd ((Cancel_forwards_once (fun _ => ({} : BasicRunner))
      preparedBuilder).2.1 rfl).1,
    hrun,
    ((Cancel_forwards_once (fun _ => ({} : BasicRunner))
      (preparedBuilder.Run demoRunEnv demoUi demoHook demoCache).1).2.2 _ hrun).2⟩

end Claims

end XenServer
